import Mathlib

/-!
# HFI command packetization

A shallow embedding of drivers/media/platform/msm/vidc/hfi/hfi_packetization.c, followed
by the register array and mode table functions of drivers/media/i2c/ov5640.c.

Each C function that fills a packet through a pointer is a Lean function that takes the
packet as it is before the call and returns the pair of the C return value and the packet
as it is after the call; a write that happens before an early return is kept in the
returned packet.  Values of type u32 are natural numbers, reduced modulo 2^32 wherever a
wider value is stored or an operation can overflow; values of type int are integers.

The HAL_*, HFI_* and VIDC_* constants, the struct declarations and hash32_ptr live in
headers that are not part of these sources.  They are parameters of the embedding,
collected in the structure hdr: the numeric value of each constant, the size of each
struct, the position of each struct member, and the pointer hash.
-/

namespace HfiPkt

/-! ## Machine integers and error numbers -/

/-- EINVAL of the kernel errno headers (invalid argument). -/
def EINVAL : Int := 22

/-- ERANGE of the kernel errno headers (result out of range). -/
def ERANGE : Int := 34

/-- ENOTSUPP of linux/errno.h (operation is not supported). -/
def ENOTSUPP : Int := 524

/-- Conversion of a C integer value to u32: reduction modulo 2^32. -/
def u32 (x : Int) : Nat := (x % 4294967296).toNat

/-- The C idiom for a counted loop, for (i = 0; i < n; i++) body: the body runs for
i = 0, 1, ..., n - 1 in this order on the state s. -/
def for_loop {σ : Type} : Nat → (Nat → σ → σ) → σ → σ
  | 0, _, s => s
  | n + 1, body, s => body n (for_loop n body s)

/-- Helper of fls_long: the number of binary digits of x, computed with at most fuel
halvings. -/
def fls_aux : Nat → Nat → Nat
  | 0, _ => 0
  | fuel + 1, x => if x = 0 then 0 else fls_aux fuel (x / 2) + 1

/-- The fls and fls_long primitives of linux/bitops.h: the position of the most significant
set bit counted from 1, and 0 for the value 0. -/
def fls_long (x : Nat) : Nat := fls_aux x x

/-- The run-time branch of roundup_pow_of_two of linux/log2.h,
1UL << fls_long(n - 1), for an argument 0 < n < 2^31 (the non-negative int values for which
the shift stays inside an unsigned long).  The source never evaluates it at 0. -/
def roundup_pow_of_two (n : Nat) : Nat := 1 <<< fls_long (n - 1)

/-- The ilog2 of linux/log2.h for a positive argument: fls(n) - 1. -/
def ilog2 (n : Nat) : Nat := fls_long n - 1

/-! ## Constants and declarations from the headers -/

/-- Names of the numeric constants that the source takes from its headers: the HFI_* wire
constants, the VIDC_EXTRADATA_* identifiers, the bit-flag HAL_* values that index the
translation tables, and HAL_BUFFER_NONE. -/
inductive hdr_const where
  | HFI_H264_PROFILE_BASELINE | HFI_H264_PROFILE_MAIN | HFI_H264_PROFILE_HIGH
  | HFI_H264_PROFILE_CONSTRAINED_BASE | HFI_H264_PROFILE_CONSTRAINED_HIGH
  | HFI_VPX_PROFILE_VERSION_1 | HFI_H264_PROFILE_STEREO_HIGH | HFI_H264_ENTROPY_CAVLC
  | HFI_H264_ENTROPY_CABAC | HFI_H264_CABAC_MODEL_0 | HFI_H264_CABAC_MODEL_1
  | HFI_H264_CABAC_MODEL_2 | HFI_COLOR_FORMAT_MONOCHROME | HFI_COLOR_FORMAT_NV12
  | HFI_COLOR_FORMAT_NV21 | HFI_COLOR_FORMAT_NV12_4x4TILE | HFI_COLOR_FORMAT_NV21_4x4TILE
  | HFI_COLOR_FORMAT_YUYV | HFI_COLOR_FORMAT_YVYU | HFI_COLOR_FORMAT_UYVY
  | HFI_COLOR_FORMAT_VYUY | HFI_COLOR_FORMAT_RGB565 | HFI_COLOR_FORMAT_BGR565
  | HFI_COLOR_FORMAT_RGB888 | HFI_COLOR_FORMAT_BGR888 | HFI_COLOR_FORMAT_NV12_UBWC
  | HFI_COLOR_FORMAT_YUV420_TP10_UBWC | HFI_NAL_FORMAT_STARTCODES
  | HFI_NAL_FORMAT_ONE_NAL_PER_BUFFER | HFI_NAL_FORMAT_ONE_BYTE_LENGTH
  | HFI_NAL_FORMAT_TWO_BYTE_LENGTH | HFI_NAL_FORMAT_FOUR_BYTE_LENGTH
  | HFI_MVC_BUFFER_LAYOUT_TOP_BOTTOM | HFI_MVC_BUFFER_LAYOUT_SEQ | HFI_VIDEO_CODEC_H264
  | HFI_VIDEO_CODEC_H263 | HFI_VIDEO_CODEC_MPEG1 | HFI_VIDEO_CODEC_MPEG2 | HFI_VIDEO_CODEC_MPEG4
  | HFI_VIDEO_CODEC_DIVX_311 | HFI_VIDEO_CODEC_DIVX | HFI_VIDEO_CODEC_VC1
  | HFI_VIDEO_CODEC_SPARK | HFI_VIDEO_CODEC_VP8 | HFI_VIDEO_CODEC_HEVC
  | HFI_VIDEO_CODEC_HEVC_HYBRID | HFI_CMD_SYS_INIT | HFI_CMD_SYS_PC_PREP
  | HFI_CMD_SYS_SET_PROPERTY | HFI_PROPERTY_SYS_IDLE_INDICATOR | HFI_PROPERTY_SYS_DEBUG_CONFIG
  | HFI_DEBUG_MODE_QUEUE | HFI_DEBUG_MODE_QDSS | HFI_PROPERTY_SYS_CONFIG_COVERAGE
  | HFI_CMD_SYS_SET_RESOURCE | HFI_RESOURCE_OCMEM | HFI_CMD_SYS_RELEASE_RESOURCE
  | HFI_CMD_SYS_PING | HFI_CMD_SYS_SESSION_INIT | HFI_PROPERTY_SYS_CODEC_POWER_PLANE_CTRL
  | HFI_BUFFER_INPUT | HFI_BUFFER_OUTPUT | HFI_BUFFER_OUTPUT2 | HFI_BUFFER_EXTRADATA_INPUT
  | HFI_BUFFER_EXTRADATA_OUTPUT | HFI_BUFFER_EXTRADATA_OUTPUT2 | HFI_BUFFER_INTERNAL_SCRATCH
  | HFI_BUFFER_INTERNAL_SCRATCH_1 | HFI_BUFFER_INTERNAL_SCRATCH_2 | HFI_BUFFER_INTERNAL_PERSIST
  | HFI_BUFFER_INTERNAL_PERSIST_1 | HFI_PROPERTY_PARAM_VDEC_MB_QUANTIZATION
  | HFI_PROPERTY_PARAM_VDEC_INTERLACE_VIDEO_EXTRADATA
  | HFI_PROPERTY_PARAM_VDEC_VC1_FRAMEDISP_EXTRADATA
  | HFI_PROPERTY_PARAM_VDEC_VC1_SEQDISP_EXTRADATA | HFI_PROPERTY_PARAM_VDEC_TIMESTAMP_EXTRADATA
  | HFI_PROPERTY_PARAM_S3D_FRAME_PACKING_EXTRADATA
  | HFI_PROPERTY_PARAM_VDEC_FRAME_RATE_EXTRADATA
  | HFI_PROPERTY_PARAM_VDEC_PANSCAN_WNDW_EXTRADATA
  | HFI_PROPERTY_PARAM_VDEC_RECOVERY_POINT_SEI_EXTRADATA
  | HFI_PROPERTY_PARAM_VENC_MULTI_SLICE_INFO | HFI_PROPERTY_PARAM_VDEC_NUM_CONCEALED_MB
  | HFI_PROPERTY_PARAM_INDEX_EXTRADATA | HFI_PROPERTY_PARAM_VDEC_MPEG2_SEQDISP_EXTRADATA
  | HFI_PROPERTY_PARAM_VDEC_STREAM_USERDATA_EXTRADATA
  | HFI_PROPERTY_PARAM_VDEC_FRAME_QP_EXTRADATA
  | HFI_PROPERTY_PARAM_VDEC_FRAME_BITS_INFO_EXTRADATA | HFI_PROPERTY_PARAM_VENC_LTR_INFO
  | HFI_PROPERTY_PARAM_VENC_MBI_DUMPING | VIDC_EXTRADATA_ASPECT_RATIO
  | VIDC_EXTRADATA_INPUT_CROP | VIDC_EXTRADATA_DIGITAL_ZOOM | HFI_BUFFER_MODE_STATIC
  | HFI_BUFFER_MODE_RING | HFI_BUFFER_MODE_DYNAMIC | HFI_LTR_MODE_DISABLE | HFI_LTR_MODE_MANUAL
  | HFI_LTR_MODE_PERIODIC | HFI_CMD_SESSION_SET_BUFFERS | HFI_CMD_SESSION_RELEASE_BUFFERS
  | HFI_CMD_SESSION_EMPTY_BUFFER | HFI_CMD_SESSION_FILL_BUFFER
  | HFI_CMD_SESSION_PARSE_SEQUENCE_HEADER | HFI_CMD_SESSION_GET_SEQUENCE_HEADER
  | HFI_CMD_SESSION_FLUSH | HFI_FLUSH_INPUT | HFI_FLUSH_OUTPUT | HFI_FLUSH_OUTPUT2
  | HFI_FLUSH_ALL | HFI_CMD_SESSION_GET_PROPERTY | HFI_PROPERTY_PARAM_PROFILE_LEVEL_CURRENT
  | HFI_PROPERTY_CONFIG_BUFFER_REQUIREMENTS | HFI_CMD_SESSION_SET_PROPERTY
  | HFI_PROPERTY_CONFIG_FRAME_RATE | HFI_PROPERTY_PARAM_UNCOMPRESSED_FORMAT_SELECT
  | HFI_PROPERTY_PARAM_FRAME_SIZE | HFI_PROPERTY_CONFIG_REALTIME
  | HFI_PROPERTY_PARAM_BUFFER_COUNT_ACTUAL | HFI_PROPERTY_PARAM_BUFFER_SIZE_ACTUAL
  | HFI_PROPERTY_PARAM_BUFFER_DISPLAY_HOLD_COUNT_ACTUAL
  | HFI_PROPERTY_PARAM_NAL_STREAM_FORMAT_SELECT | HFI_PROPERTY_PARAM_VDEC_OUTPUT_ORDER
  | HFI_OUTPUT_ORDER_DECODE | HFI_OUTPUT_ORDER_DISPLAY
  | HFI_PROPERTY_PARAM_VDEC_PICTURE_TYPE_DECODE
  | HFI_PROPERTY_PARAM_VDEC_OUTPUT2_KEEP_ASPECT_RATIO
  | HFI_PROPERTY_CONFIG_VDEC_POST_LOOP_DEBLOCKER | HFI_PROPERTY_PARAM_VDEC_MULTI_STREAM
  | HFI_PROPERTY_PARAM_VDEC_DISPLAY_PICTURE_BUFFER_COUNT | HFI_PROPERTY_PARAM_DIVX_FORMAT
  | HFI_DIVX_FORMAT_4 | HFI_DIVX_FORMAT_5 | HFI_DIVX_FORMAT_6
  | HFI_PROPERTY_CONFIG_VDEC_MB_ERROR_MAP_REPORTING
  | HFI_PROPERTY_PARAM_VDEC_CONTINUE_DATA_TRANSFER | HFI_PROPERTY_PARAM_VDEC_THUMBNAIL_MODE
  | HFI_PROPERTY_CONFIG_VENC_SYNC_FRAME_SEQUENCE_HEADER
  | HFI_PROPERTY_CONFIG_VENC_REQUEST_SYNC_FRAME | HFI_PROPERTY_CONFIG_VENC_TARGET_BITRATE
  | HFI_PROPERTY_CONFIG_VENC_MAX_BITRATE | HFI_PROPERTY_PARAM_VENC_H264_ENTROPY_CONTROL
  | HFI_PROPERTY_PARAM_VENC_RATE_CONTROL | HFI_RATE_CONTROL_OFF | HFI_RATE_CONTROL_CBR_CFR
  | HFI_RATE_CONTROL_CBR_VFR | HFI_RATE_CONTROL_VBR_CFR | HFI_RATE_CONTROL_VBR_VFR
  | HFI_PROPERTY_PARAM_VENC_MPEG4_TIME_RESOLUTION
  | HFI_PROPERTY_PARAM_VENC_MPEG4_HEADER_EXTENSION
  | HFI_PROPERTY_PARAM_VENC_H264_DEBLOCK_CONTROL | HFI_H264_DB_MODE_DISABLE
  | HFI_H264_DB_MODE_SKIP_SLICE_BOUNDARY | HFI_H264_DB_MODE_ALL_BOUNDARY
  | HFI_PROPERTY_PARAM_VENC_SESSION_QP | HFI_PROPERTY_PARAM_VENC_SESSION_QP_RANGE
  | HFI_PROPERTY_PARAM_VENC_VC1_PERF_CFG | HFI_PROPERTY_PARAM_VENC_MAX_NUM_B_FRAMES
  | HFI_PROPERTY_CONFIG_VENC_INTRA_PERIOD | HFI_PROPERTY_CONFIG_VENC_IDR_PERIOD
  | HFI_PROPERTY_PARAM_VDEC_CONCEAL_COLOR | HFI_PROPERTY_CONFIG_VPE_OPERATIONS | HFI_ROTATE_NONE
  | HFI_ROTATE_90 | HFI_ROTATE_180 | HFI_ROTATE_270 | HFI_FLIP_NONE | HFI_FLIP_HORIZONTAL
  | HFI_FLIP_VERTICAL | HFI_PROPERTY_PARAM_VENC_INTRA_REFRESH | HFI_INTRA_REFRESH_NONE
  | HFI_INTRA_REFRESH_ADAPTIVE | HFI_INTRA_REFRESH_CYCLIC | HFI_INTRA_REFRESH_CYCLIC_ADAPTIVE
  | HFI_INTRA_REFRESH_RANDOM | HFI_PROPERTY_PARAM_VENC_MULTI_SLICE_CONTROL | HFI_MULTI_SLICE_OFF
  | HFI_MULTI_SLICE_GOB | HFI_MULTI_SLICE_BY_MB_COUNT | HFI_MULTI_SLICE_BY_BYTE_COUNT
  | HFI_PROPERTY_PARAM_VENC_SLICE_DELIVERY_MODE | HFI_PROPERTY_PARAM_VENC_H264_VUI_TIMING_INFO
  | HFI_PROPERTY_CONFIG_VPE_DEINTERLACE | HFI_PROPERTY_PARAM_VENC_H264_GENERATE_AUDNAL
  | HFI_PROPERTY_PARAM_BUFFER_ALLOC_MODE | HFI_PROPERTY_PARAM_VDEC_FRAME_ASSEMBLY
  | HFI_PROPERTY_PARAM_VENC_H264_VUI_BITSTREAM_RESTRC
  | HFI_PROPERTY_PARAM_VENC_PRESERVE_TEXT_QUALITY | HFI_PROPERTY_PARAM_VDEC_SCS_THRESHOLD
  | HFI_PROPERTY_PARAM_MVC_BUFFER_LAYOUT | HFI_PROPERTY_PARAM_VENC_LTRMODE
  | HFI_PROPERTY_CONFIG_VENC_USELTRFRAME | HFI_PROPERTY_CONFIG_VENC_MARKLTRFRAME
  | HFI_PROPERTY_PARAM_VENC_HIER_P_MAX_NUM_ENH_LAYER | HFI_PROPERTY_CONFIG_VENC_HIER_P_ENH_LAYER
  | HFI_PROPERTY_PARAM_VENC_DISABLE_RC_TIMESTAMP | HFI_PROPERTY_PARAM_VENC_INITIAL_QP
  | HFI_PROPERTY_PARAM_VPE_COLOR_SPACE_CONVERSION
  | HFI_PROPERTY_PARAM_VENC_VPX_ERROR_RESILIENCE_MODE | HFI_PROPERTY_PARAM_VENC_H264_NAL_SVC_EXT
  | HFI_PROPERTY_CONFIG_VENC_PERF_MODE | HFI_PROPERTY_PARAM_VENC_HIER_B_MAX_NUM_ENH_LAYER
  | HFI_PROPERTY_PARAM_VDEC_NONCP_OUTPUT2 | HFI_PROPERTY_PARAM_VENC_HIER_P_HYBRID_MODE
  | HFI_TEST_SSR_SW_ERR_FATAL | HFI_TEST_SSR_SW_DIV_BY_ZERO | HFI_TEST_SSR_HW_WDOG_IRQ
  | HFI_CMD_SYS_TEST_SSR | HFI_CMD_SYS_GET_PROPERTY | HFI_PROPERTY_SYS_IMAGE_VERSION
  | HAL_H264_PROFILE_BASELINE | HAL_H264_PROFILE_MAIN | HAL_H264_PROFILE_HIGH
  | HAL_H264_PROFILE_CONSTRAINED_BASE | HAL_H264_PROFILE_CONSTRAINED_HIGH
  | HAL_VPX_PROFILE_VERSION_1 | HAL_MVC_PROFILE_STEREO_HIGH | HAL_H264_ENTROPY_CAVLC
  | HAL_H264_ENTROPY_CABAC | HAL_H264_CABAC_MODEL_0 | HAL_H264_CABAC_MODEL_1
  | HAL_H264_CABAC_MODEL_2 | HAL_COLOR_FORMAT_MONOCHROME | HAL_COLOR_FORMAT_NV12
  | HAL_COLOR_FORMAT_NV21 | HAL_COLOR_FORMAT_NV12_4x4TILE | HAL_COLOR_FORMAT_NV21_4x4TILE
  | HAL_COLOR_FORMAT_YUYV | HAL_COLOR_FORMAT_YVYU | HAL_COLOR_FORMAT_UYVY
  | HAL_COLOR_FORMAT_VYUY | HAL_COLOR_FORMAT_RGB565 | HAL_COLOR_FORMAT_BGR565
  | HAL_COLOR_FORMAT_RGB888 | HAL_COLOR_FORMAT_BGR888 | HAL_COLOR_FORMAT_NV12_UBWC
  | HAL_COLOR_FORMAT_NV12_TP10_UBWC | HAL_NAL_FORMAT_STARTCODES
  | HAL_NAL_FORMAT_ONE_NAL_PER_BUFFER | HAL_NAL_FORMAT_ONE_BYTE_LENGTH
  | HAL_NAL_FORMAT_TWO_BYTE_LENGTH | HAL_NAL_FORMAT_FOUR_BYTE_LENGTH | HAL_BUFFER_NONE
  deriving DecidableEq

/-- What the embedding takes from the headers outside these sources. -/
structure hdr where
  /-- The numeric value of each named constant. -/
  val : hdr_const → Nat
  /-- The sizeof of the struct with the given C name, in bytes; for the three member arrays
  of struct hfi_vpe_color_space_conversion, the sizeof of the array, under the name
  struct.member. -/
  sizeof : String → Nat
  /-- The position of a member inside a struct that overlays 32-bit packet words, counted
  in 32-bit words from the start of the struct (struct name, member name). -/
  word_of : String → String → Nat
  /-- Whether a member of such a struct is declared with a signed 32-bit type (int) rather
  than with u32; it decides how an ordering comparison reads the stored word. -/
  member_signed : String → String → Bool
  /-- The hash32_ptr of linux/hash.h, from a pointer value to a 32-bit value. -/
  hash32_ptr : Nat → Nat

/-! ## Abstract (HAL) enumerations

Each C enumeration that the source only switches on is an inductive type whose
constructors are the enumerators named in the source; the constructor unlisted stands for
every other value that a variable of the enumeration can hold. -/

/-- The enum hal_property: the property identifiers named in the source. -/
inductive hal_property where
  | HAL_CONFIG_FRAME_RATE | HAL_PARAM_UNCOMPRESSED_FORMAT_SELECT
  | HAL_PARAM_UNCOMPRESSED_PLANE_ACTUAL_CONSTRAINTS_INFO
  | HAL_PARAM_UNCOMPRESSED_PLANE_ACTUAL_INFO | HAL_PARAM_EXTRA_DATA_HEADER_CONFIG
  | HAL_PARAM_FRAME_SIZE | HAL_CONFIG_REALTIME | HAL_PARAM_BUFFER_COUNT_ACTUAL
  | HAL_PARAM_BUFFER_SIZE_ACTUAL | HAL_PARAM_BUFFER_DISPLAY_HOLD_COUNT_ACTUAL
  | HAL_PARAM_NAL_STREAM_FORMAT_SELECT | HAL_PARAM_VDEC_OUTPUT_ORDER
  | HAL_PARAM_VDEC_PICTURE_TYPE_DECODE | HAL_PARAM_VDEC_OUTPUT2_KEEP_ASPECT_RATIO
  | HAL_CONFIG_VDEC_POST_LOOP_DEBLOCKER | HAL_PARAM_VDEC_MULTI_STREAM
  | HAL_PARAM_VDEC_DISPLAY_PICTURE_BUFFER_COUNT | HAL_PARAM_DIVX_FORMAT
  | HAL_CONFIG_VDEC_MB_ERROR_MAP_REPORTING | HAL_PARAM_VDEC_CONTINUE_DATA_TRANSFER
  | HAL_PARAM_VDEC_SYNC_FRAME_DECODE | HAL_PARAM_VENC_SYNC_FRAME_SEQUENCE_HEADER
  | HAL_CONFIG_VENC_REQUEST_IFRAME | HAL_PARAM_VENC_MPEG4_SHORT_HEADER
  | HAL_PARAM_VENC_MPEG4_AC_PREDICTION | HAL_CONFIG_VENC_TARGET_BITRATE
  | HAL_CONFIG_VENC_MAX_BITRATE | HAL_PARAM_PROFILE_LEVEL_CURRENT
  | HAL_PARAM_VENC_H264_ENTROPY_CONTROL | HAL_PARAM_VENC_RATE_CONTROL
  | HAL_PARAM_VENC_MPEG4_TIME_RESOLUTION | HAL_PARAM_VENC_MPEG4_HEADER_EXTENSION
  | HAL_PARAM_VENC_H264_DEBLOCK_CONTROL | HAL_PARAM_VENC_SESSION_QP
  | HAL_PARAM_VENC_SESSION_QP_RANGE | HAL_PARAM_VENC_SEARCH_RANGE
  | HAL_PARAM_VENC_MAX_NUM_B_FRAMES | HAL_CONFIG_VENC_INTRA_PERIOD | HAL_CONFIG_VENC_IDR_PERIOD
  | HAL_PARAM_VDEC_CONCEAL_COLOR | HAL_CONFIG_VPE_OPERATIONS | HAL_PARAM_VENC_INTRA_REFRESH
  | HAL_PARAM_VENC_MULTI_SLICE_CONTROL | HAL_PARAM_INDEX_EXTRADATA
  | HAL_PARAM_VENC_SLICE_DELIVERY_MODE | HAL_PARAM_VENC_H264_VUI_TIMING_INFO
  | HAL_CONFIG_VPE_DEINTERLACE | HAL_PARAM_VENC_H264_GENERATE_AUDNAL
  | HAL_PARAM_BUFFER_ALLOC_MODE | HAL_PARAM_VDEC_FRAME_ASSEMBLY
  | HAL_PARAM_VENC_H264_VUI_BITSTREAM_RESTRC | HAL_PARAM_VENC_PRESERVE_TEXT_QUALITY
  | HAL_PARAM_VDEC_SCS_THRESHOLD | HAL_PARAM_MVC_BUFFER_LAYOUT | HAL_PARAM_VENC_LTRMODE
  | HAL_CONFIG_VENC_USELTRFRAME | HAL_CONFIG_VENC_MARKLTRFRAME
  | HAL_PARAM_VENC_HIER_P_MAX_ENH_LAYERS | HAL_CONFIG_VENC_HIER_P_NUM_FRAMES
  | HAL_PARAM_VENC_DISABLE_RC_TIMESTAMP | HAL_PARAM_VENC_ENABLE_INITIAL_QP
  | HAL_PARAM_VPE_COLOR_SPACE_CONVERSION | HAL_PARAM_VENC_VPX_ERROR_RESILIENCE_MODE
  | HAL_PARAM_VENC_H264_NAL_SVC_EXT | HAL_CONFIG_VENC_PERF_MODE
  | HAL_PARAM_VENC_HIER_B_MAX_ENH_LAYERS | HAL_PARAM_VDEC_NON_SECURE_OUTPUT2
  | HAL_PARAM_VENC_HIER_P_HYBRID_MODE | HAL_CONFIG_BUFFER_REQUIREMENTS | HAL_CONFIG_PRIORITY
  | HAL_CONFIG_BATCH_INFO | HAL_PARAM_METADATA_PASS_THROUGH | HAL_SYS_IDLE_INDICATOR
  | HAL_PARAM_UNCOMPRESSED_FORMAT_SUPPORTED | HAL_PARAM_INTERLACE_FORMAT_SUPPORTED
  | HAL_PARAM_CHROMA_SITE | HAL_PARAM_PROPERTIES_SUPPORTED | HAL_PARAM_PROFILE_LEVEL_SUPPORTED
  | HAL_PARAM_CAPABILITY_SUPPORTED | HAL_PARAM_NAL_STREAM_FORMAT_SUPPORTED
  | HAL_PARAM_MULTI_VIEW_FORMAT | HAL_PARAM_MAX_SEQUENCE_HEADER_SIZE | HAL_PARAM_CODEC_SUPPORTED
  | HAL_PARAM_VDEC_MULTI_VIEW_SELECT | HAL_PARAM_VDEC_MB_QUANTIZATION
  | HAL_PARAM_VDEC_NUM_CONCEALED_MB | HAL_PARAM_VDEC_H264_ENTROPY_SWITCHING
  | HAL_PARAM_VENC_MPEG4_DATA_PARTITIONING | HAL_CONFIG_BUFFER_COUNT_ACTUAL
  | HAL_CONFIG_VDEC_MULTI_STREAM | HAL_PARAM_VENC_MULTI_SLICE_INFO
  | HAL_CONFIG_VENC_TIMESTAMP_SCALE | HAL_PARAM_VENC_LOW_LATENCY
  | HAL_PARAM_GET_BUFFER_REQUIREMENTS | HAL_PARAM_VENC_H264_ENTROPY_CABAC_MODEL
  | unlisted (v : Int)

/-- The enum hal_buffer, the role of a buffer, as far as to_hfi_buffer names it. -/
inductive hal_buffer where
  | HAL_BUFFER_INPUT | HAL_BUFFER_OUTPUT | HAL_BUFFER_OUTPUT2 | HAL_BUFFER_EXTRADATA_INPUT
  | HAL_BUFFER_EXTRADATA_OUTPUT | HAL_BUFFER_EXTRADATA_OUTPUT2 | HAL_BUFFER_INTERNAL_SCRATCH
  | HAL_BUFFER_INTERNAL_SCRATCH_1 | HAL_BUFFER_INTERNAL_SCRATCH_2 | HAL_BUFFER_INTERNAL_PERSIST
  | HAL_BUFFER_INTERNAL_PERSIST_1
  | unlisted (v : Int)
  deriving DecidableEq

/-- The enum hal_video_codec. -/
inductive hal_video_codec where
  | HAL_VIDEO_CODEC_MVC | HAL_VIDEO_CODEC_H264 | HAL_VIDEO_CODEC_H263 | HAL_VIDEO_CODEC_MPEG1
  | HAL_VIDEO_CODEC_MPEG2 | HAL_VIDEO_CODEC_MPEG4 | HAL_VIDEO_CODEC_DIVX_311
  | HAL_VIDEO_CODEC_DIVX | HAL_VIDEO_CODEC_VC1 | HAL_VIDEO_CODEC_SPARK | HAL_VIDEO_CODEC_VP8
  | HAL_VIDEO_CODEC_HEVC | HAL_VIDEO_CODEC_HEVC_HYBRID
  | unlisted (v : Int)
  deriving DecidableEq

/-- The enum hal_buffer_layout_type. -/
inductive hal_buffer_layout_type where
  | HAL_BUFFER_LAYOUT_TOP_BOTTOM | HAL_BUFFER_LAYOUT_SEQ
  | unlisted (v : Int)
  deriving DecidableEq

/-- The enum hal_extradata_id. -/
inductive hal_extradata_id where
  | HAL_EXTRADATA_MB_QUANTIZATION | HAL_EXTRADATA_INTERLACE_VIDEO | HAL_EXTRADATA_VC1_FRAMEDISP
  | HAL_EXTRADATA_VC1_SEQDISP | HAL_EXTRADATA_TIMESTAMP | HAL_EXTRADATA_S3D_FRAME_PACKING
  | HAL_EXTRADATA_FRAME_RATE | HAL_EXTRADATA_PANSCAN_WINDOW | HAL_EXTRADATA_RECOVERY_POINT_SEI
  | HAL_EXTRADATA_MULTISLICE_INFO | HAL_EXTRADATA_NUM_CONCEALED_MB | HAL_EXTRADATA_ASPECT_RATIO
  | HAL_EXTRADATA_INPUT_CROP | HAL_EXTRADATA_DIGITAL_ZOOM | HAL_EXTRADATA_MPEG2_SEQDISP
  | HAL_EXTRADATA_STREAM_USERDATA | HAL_EXTRADATA_FRAME_QP | HAL_EXTRADATA_FRAME_BITS_INFO
  | HAL_EXTRADATA_LTR_INFO | HAL_EXTRADATA_METADATA_MBI
  | unlisted (v : Int)
  deriving DecidableEq

/-- The enum hal_buffer_mode_type. -/
inductive hal_buffer_mode_type where
  | HAL_BUFFER_MODE_STATIC | HAL_BUFFER_MODE_RING | HAL_BUFFER_MODE_DYNAMIC
  | unlisted (v : Int)
  deriving DecidableEq

/-- The enum ltr_mode. -/
inductive ltr_mode where
  | HAL_LTR_MODE_DISABLE | HAL_LTR_MODE_MANUAL | HAL_LTR_MODE_PERIODIC
  | unlisted (v : Int)
  deriving DecidableEq

/-- The enum hal_flush. -/
inductive hal_flush where
  | HAL_FLUSH_INPUT | HAL_FLUSH_OUTPUT | HAL_FLUSH_OUTPUT2 | HAL_FLUSH_ALL
  | unlisted (v : Int)
  deriving DecidableEq

/-- The output order values switched on for HAL_PARAM_VDEC_OUTPUT_ORDER. -/
inductive hal_output_order where
  | HAL_OUTPUT_ORDER_DECODE | HAL_OUTPUT_ORDER_DISPLAY
  | unlisted (v : Int)
  deriving DecidableEq

/-- The DivX format values switched on for HAL_PARAM_DIVX_FORMAT. -/
inductive hal_divx_format where
  | HAL_DIVX_FORMAT_4 | HAL_DIVX_FORMAT_5 | HAL_DIVX_FORMAT_6
  | unlisted (v : Int)
  deriving DecidableEq

/-- The enum hal_rate_control. -/
inductive hal_rate_control where
  | HAL_RATE_CONTROL_OFF | HAL_RATE_CONTROL_CBR_CFR | HAL_RATE_CONTROL_CBR_VFR
  | HAL_RATE_CONTROL_VBR_CFR | HAL_RATE_CONTROL_VBR_VFR
  | unlisted (v : Int)
  deriving DecidableEq

/-- The deblocking modes switched on for HAL_PARAM_VENC_H264_DEBLOCK_CONTROL. -/
inductive hal_h264_db_mode where
  | HAL_H264_DB_MODE_DISABLE | HAL_H264_DB_MODE_SKIP_SLICE_BOUNDARY
  | HAL_H264_DB_MODE_ALL_BOUNDARY
  | unlisted (v : Int)
  deriving DecidableEq

/-- The rotation values switched on for HAL_CONFIG_VPE_OPERATIONS. -/
inductive hal_rotate where
  | HAL_ROTATE_NONE | HAL_ROTATE_90 | HAL_ROTATE_180 | HAL_ROTATE_270
  | unlisted (v : Int)
  deriving DecidableEq

/-- The flip values switched on for HAL_CONFIG_VPE_OPERATIONS. -/
inductive hal_flip where
  | HAL_FLIP_NONE | HAL_FLIP_HORIZONTAL | HAL_FLIP_VERTICAL
  | unlisted (v : Int)
  deriving DecidableEq

/-- The intra refresh modes switched on for HAL_PARAM_VENC_INTRA_REFRESH. -/
inductive hal_intra_refresh_mode where
  | HAL_INTRA_REFRESH_NONE | HAL_INTRA_REFRESH_ADAPTIVE | HAL_INTRA_REFRESH_CYCLIC
  | HAL_INTRA_REFRESH_CYCLIC_ADAPTIVE | HAL_INTRA_REFRESH_RANDOM
  | unlisted (v : Int)
  deriving DecidableEq

/-- The slice modes switched on for HAL_PARAM_VENC_MULTI_SLICE_CONTROL. -/
inductive hal_multi_slice where
  | HAL_MULTI_SLICE_OFF | HAL_MULTI_SLICE_GOB | HAL_MULTI_SLICE_BY_MB_COUNT
  | HAL_MULTI_SLICE_BY_BYTE_COUNT
  | unlisted (v : Int)
  deriving DecidableEq

/-! ## Translation tables (lines 28 to 81 of the source) -/

/-- An array given by designated initialisers, as in int t[] = { [i] = v, ... }: its length
is one more than the largest index, an index without an initialiser holds 0, and of two
initialisers for one index the later one stays. -/
def designated (inits : List (Nat × Int)) : List Int :=
  (List.range ((inits.map (fun p => p.1 + 1)).foldl max 0)).map
    (fun i => match inits.reverse.find? (fun p => p.1 == i) with
      | some p => p.2
      | none => 0)

/-- The initialiser [ilog2(HAL)] = HFI of a translation table. -/
def table_entry (E : hdr) (hal hfi : hdr_const) : Nat × Int :=
  (ilog2 (E.val hal), (E.val hfi : Int))

/-- The array profile_table. -/
def profile_table (E : hdr) : List Int :=
  designated [
    table_entry E .HAL_H264_PROFILE_BASELINE .HFI_H264_PROFILE_BASELINE,
    table_entry E .HAL_H264_PROFILE_MAIN .HFI_H264_PROFILE_MAIN,
    table_entry E .HAL_H264_PROFILE_HIGH .HFI_H264_PROFILE_HIGH,
    table_entry E .HAL_H264_PROFILE_CONSTRAINED_BASE .HFI_H264_PROFILE_CONSTRAINED_BASE,
    table_entry E .HAL_H264_PROFILE_CONSTRAINED_HIGH .HFI_H264_PROFILE_CONSTRAINED_HIGH,
    table_entry E .HAL_VPX_PROFILE_VERSION_1 .HFI_VPX_PROFILE_VERSION_1,
    table_entry E .HAL_MVC_PROFILE_STEREO_HIGH .HFI_H264_PROFILE_STEREO_HIGH]

/-- The array entropy_mode. -/
def entropy_mode (E : hdr) : List Int :=
  designated [
    table_entry E .HAL_H264_ENTROPY_CAVLC .HFI_H264_ENTROPY_CAVLC,
    table_entry E .HAL_H264_ENTROPY_CABAC .HFI_H264_ENTROPY_CABAC]

/-- The array cabac_model. -/
def cabac_model (E : hdr) : List Int :=
  designated [
    table_entry E .HAL_H264_CABAC_MODEL_0 .HFI_H264_CABAC_MODEL_0,
    table_entry E .HAL_H264_CABAC_MODEL_1 .HFI_H264_CABAC_MODEL_1,
    table_entry E .HAL_H264_CABAC_MODEL_2 .HFI_H264_CABAC_MODEL_2]

/-- The array color_format. -/
def color_format (E : hdr) : List Int :=
  designated [
    table_entry E .HAL_COLOR_FORMAT_MONOCHROME .HFI_COLOR_FORMAT_MONOCHROME,
    table_entry E .HAL_COLOR_FORMAT_NV12 .HFI_COLOR_FORMAT_NV12,
    table_entry E .HAL_COLOR_FORMAT_NV21 .HFI_COLOR_FORMAT_NV21,
    table_entry E .HAL_COLOR_FORMAT_NV12_4x4TILE .HFI_COLOR_FORMAT_NV12_4x4TILE,
    table_entry E .HAL_COLOR_FORMAT_NV21_4x4TILE .HFI_COLOR_FORMAT_NV21_4x4TILE,
    table_entry E .HAL_COLOR_FORMAT_YUYV .HFI_COLOR_FORMAT_YUYV,
    table_entry E .HAL_COLOR_FORMAT_YVYU .HFI_COLOR_FORMAT_YVYU,
    table_entry E .HAL_COLOR_FORMAT_UYVY .HFI_COLOR_FORMAT_UYVY,
    table_entry E .HAL_COLOR_FORMAT_VYUY .HFI_COLOR_FORMAT_VYUY,
    table_entry E .HAL_COLOR_FORMAT_RGB565 .HFI_COLOR_FORMAT_RGB565,
    table_entry E .HAL_COLOR_FORMAT_BGR565 .HFI_COLOR_FORMAT_BGR565,
    table_entry E .HAL_COLOR_FORMAT_RGB888 .HFI_COLOR_FORMAT_RGB888,
    table_entry E .HAL_COLOR_FORMAT_BGR888 .HFI_COLOR_FORMAT_BGR888,
    table_entry E .HAL_COLOR_FORMAT_NV12_UBWC .HFI_COLOR_FORMAT_NV12_UBWC,
    table_entry E .HAL_COLOR_FORMAT_NV12_TP10_UBWC .HFI_COLOR_FORMAT_YUV420_TP10_UBWC]

/-- The array nal_type. -/
def nal_type (E : hdr) : List Int :=
  designated [
    table_entry E .HAL_NAL_FORMAT_STARTCODES .HFI_NAL_FORMAT_STARTCODES,
    table_entry E .HAL_NAL_FORMAT_ONE_NAL_PER_BUFFER .HFI_NAL_FORMAT_ONE_NAL_PER_BUFFER,
    table_entry E .HAL_NAL_FORMAT_ONE_BYTE_LENGTH .HFI_NAL_FORMAT_ONE_BYTE_LENGTH,
    table_entry E .HAL_NAL_FORMAT_TWO_BYTE_LENGTH .HFI_NAL_FORMAT_TWO_BYTE_LENGTH,
    table_entry E .HAL_NAL_FORMAT_FOUR_BYTE_LENGTH .HFI_NAL_FORMAT_FOUR_BYTE_LENGTH]

/-! ## Enumeration translators -/

/-- The expression (i >= ARRAY_SIZE(t)) ? -ENOTSUPP : t[i] of to_hfi_type. -/
def table_lookup (t : List Int) (i : Nat) : Int :=
  if h : i ≥ t.length then -ENOTSUPP else t.get ⟨i, Nat.lt_of_not_ge h⟩

/-- The function to_hfi_type (lines 83 to 113).  The argument hal_type is the value of the
int argument of the source, which is not negative for every HAL flag: the definition
follows the source for 0 ≤ hal_type < 2^31.  A number from 2^31 on is not the value of an
int, and the definition says nothing about the source there. -/
def to_hfi_type (E : hdr) (property : hal_property) (hal_type : Nat) : Int :=
  if hal_type ≠ 0 ∧ roundup_pow_of_two hal_type ≠ hal_type then
    -EINVAL
  else
    let hal_type := if hal_type ≠ 0 then ilog2 hal_type else hal_type
    match property with
    | .HAL_PARAM_PROFILE_LEVEL_CURRENT => table_lookup (profile_table E) hal_type
    | .HAL_PARAM_VENC_H264_ENTROPY_CONTROL => table_lookup (entropy_mode E) hal_type
    | .HAL_PARAM_VENC_H264_ENTROPY_CABAC_MODEL => table_lookup (cabac_model E) hal_type
    | .HAL_PARAM_UNCOMPRESSED_FORMAT_SELECT => table_lookup (color_format E) hal_type
    | .HAL_PARAM_NAL_STREAM_FORMAT_SELECT => table_lookup (nal_type E) hal_type
    | _ => -ENOTSUPP

/-- The function to_hfi_layout (lines 115 to 129). -/
def to_hfi_layout (E : hdr) (hal_buf_layout : hal_buffer_layout_type) : Nat :=
  match hal_buf_layout with
  | .HAL_BUFFER_LAYOUT_TOP_BOTTOM => E.val .HFI_MVC_BUFFER_LAYOUT_TOP_BOTTOM
  | .HAL_BUFFER_LAYOUT_SEQ => E.val .HFI_MVC_BUFFER_LAYOUT_SEQ
  | _ => E.val .HFI_MVC_BUFFER_LAYOUT_SEQ

/-- The function to_hfi_codec (lines 131 to 165). -/
def to_hfi_codec (E : hdr) (hal_codec : hal_video_codec) : Nat :=
  match hal_codec with
  | .HAL_VIDEO_CODEC_MVC => E.val .HFI_VIDEO_CODEC_H264
  | .HAL_VIDEO_CODEC_H264 => E.val .HFI_VIDEO_CODEC_H264
  | .HAL_VIDEO_CODEC_H263 => E.val .HFI_VIDEO_CODEC_H263
  | .HAL_VIDEO_CODEC_MPEG1 => E.val .HFI_VIDEO_CODEC_MPEG1
  | .HAL_VIDEO_CODEC_MPEG2 => E.val .HFI_VIDEO_CODEC_MPEG2
  | .HAL_VIDEO_CODEC_MPEG4 => E.val .HFI_VIDEO_CODEC_MPEG4
  | .HAL_VIDEO_CODEC_DIVX_311 => E.val .HFI_VIDEO_CODEC_DIVX_311
  | .HAL_VIDEO_CODEC_DIVX => E.val .HFI_VIDEO_CODEC_DIVX
  | .HAL_VIDEO_CODEC_VC1 => E.val .HFI_VIDEO_CODEC_VC1
  | .HAL_VIDEO_CODEC_SPARK => E.val .HFI_VIDEO_CODEC_SPARK
  | .HAL_VIDEO_CODEC_VP8 => E.val .HFI_VIDEO_CODEC_VP8
  | .HAL_VIDEO_CODEC_HEVC => E.val .HFI_VIDEO_CODEC_HEVC
  | .HAL_VIDEO_CODEC_HEVC_HYBRID => E.val .HFI_VIDEO_CODEC_HEVC_HYBRID
  | _ => 0

/-- The function to_hfi_buffer (lines 334 to 364). -/
def to_hfi_buffer (E : hdr) (hal_buffer : hal_buffer) : Nat :=
  match hal_buffer with
  | .HAL_BUFFER_INPUT => E.val .HFI_BUFFER_INPUT
  | .HAL_BUFFER_OUTPUT => E.val .HFI_BUFFER_OUTPUT
  | .HAL_BUFFER_OUTPUT2 => E.val .HFI_BUFFER_OUTPUT2
  | .HAL_BUFFER_EXTRADATA_INPUT => E.val .HFI_BUFFER_EXTRADATA_INPUT
  | .HAL_BUFFER_EXTRADATA_OUTPUT => E.val .HFI_BUFFER_EXTRADATA_OUTPUT
  | .HAL_BUFFER_EXTRADATA_OUTPUT2 => E.val .HFI_BUFFER_EXTRADATA_OUTPUT2
  | .HAL_BUFFER_INTERNAL_SCRATCH => E.val .HFI_BUFFER_INTERNAL_SCRATCH
  | .HAL_BUFFER_INTERNAL_SCRATCH_1 => E.val .HFI_BUFFER_INTERNAL_SCRATCH_1
  | .HAL_BUFFER_INTERNAL_SCRATCH_2 => E.val .HFI_BUFFER_INTERNAL_SCRATCH_2
  | .HAL_BUFFER_INTERNAL_PERSIST => E.val .HFI_BUFFER_INTERNAL_PERSIST
  | .HAL_BUFFER_INTERNAL_PERSIST_1 => E.val .HFI_BUFFER_INTERNAL_PERSIST_1
  | _ => E.val .HAL_BUFFER_NONE

/-- The function to_hfi_extradata_index (lines 366 to 413). -/
def to_hfi_extradata_index (E : hdr) (index : hal_extradata_id) : Int :=
  match index with
  | .HAL_EXTRADATA_MB_QUANTIZATION => E.val .HFI_PROPERTY_PARAM_VDEC_MB_QUANTIZATION
  | .HAL_EXTRADATA_INTERLACE_VIDEO => E.val .HFI_PROPERTY_PARAM_VDEC_INTERLACE_VIDEO_EXTRADATA
  | .HAL_EXTRADATA_VC1_FRAMEDISP => E.val .HFI_PROPERTY_PARAM_VDEC_VC1_FRAMEDISP_EXTRADATA
  | .HAL_EXTRADATA_VC1_SEQDISP => E.val .HFI_PROPERTY_PARAM_VDEC_VC1_SEQDISP_EXTRADATA
  | .HAL_EXTRADATA_TIMESTAMP => E.val .HFI_PROPERTY_PARAM_VDEC_TIMESTAMP_EXTRADATA
  | .HAL_EXTRADATA_S3D_FRAME_PACKING => E.val .HFI_PROPERTY_PARAM_S3D_FRAME_PACKING_EXTRADATA
  | .HAL_EXTRADATA_FRAME_RATE => E.val .HFI_PROPERTY_PARAM_VDEC_FRAME_RATE_EXTRADATA
  | .HAL_EXTRADATA_PANSCAN_WINDOW => E.val .HFI_PROPERTY_PARAM_VDEC_PANSCAN_WNDW_EXTRADATA
  | .HAL_EXTRADATA_RECOVERY_POINT_SEI =>
    E.val .HFI_PROPERTY_PARAM_VDEC_RECOVERY_POINT_SEI_EXTRADATA
  | .HAL_EXTRADATA_MULTISLICE_INFO => E.val .HFI_PROPERTY_PARAM_VENC_MULTI_SLICE_INFO
  | .HAL_EXTRADATA_NUM_CONCEALED_MB => E.val .HFI_PROPERTY_PARAM_VDEC_NUM_CONCEALED_MB
  | hal_extradata_id.HAL_EXTRADATA_ASPECT_RATIO => E.val .HFI_PROPERTY_PARAM_INDEX_EXTRADATA
  | .HAL_EXTRADATA_INPUT_CROP => E.val .HFI_PROPERTY_PARAM_INDEX_EXTRADATA
  | .HAL_EXTRADATA_DIGITAL_ZOOM => E.val .HFI_PROPERTY_PARAM_INDEX_EXTRADATA
  | .HAL_EXTRADATA_MPEG2_SEQDISP => E.val .HFI_PROPERTY_PARAM_VDEC_MPEG2_SEQDISP_EXTRADATA
  | .HAL_EXTRADATA_STREAM_USERDATA => E.val .HFI_PROPERTY_PARAM_VDEC_STREAM_USERDATA_EXTRADATA
  | .HAL_EXTRADATA_FRAME_QP => E.val .HFI_PROPERTY_PARAM_VDEC_FRAME_QP_EXTRADATA
  | .HAL_EXTRADATA_FRAME_BITS_INFO => E.val .HFI_PROPERTY_PARAM_VDEC_FRAME_BITS_INFO_EXTRADATA
  | .HAL_EXTRADATA_LTR_INFO => E.val .HFI_PROPERTY_PARAM_VENC_LTR_INFO
  | .HAL_EXTRADATA_METADATA_MBI => E.val .HFI_PROPERTY_PARAM_VENC_MBI_DUMPING
  | _ => 0

/-- The function to_hfi_extradata_id (lines 415 to 429). -/
def to_hfi_extradata_id (E : hdr) (index : hal_extradata_id) : Int :=
  match index with
  | hal_extradata_id.HAL_EXTRADATA_ASPECT_RATIO => E.val hdr_const.VIDC_EXTRADATA_ASPECT_RATIO
  | .HAL_EXTRADATA_INPUT_CROP => E.val .VIDC_EXTRADATA_INPUT_CROP
  | .HAL_EXTRADATA_DIGITAL_ZOOM => E.val .VIDC_EXTRADATA_DIGITAL_ZOOM
  | _ => to_hfi_extradata_index E index

/-- The function to_hfi_buf_mode (lines 431 to 446). -/
def to_hfi_buf_mode (E : hdr) (hal_buf_mode : hal_buffer_mode_type) : Nat :=
  match hal_buf_mode with
  | .HAL_BUFFER_MODE_STATIC => E.val .HFI_BUFFER_MODE_STATIC
  | .HAL_BUFFER_MODE_RING => E.val .HFI_BUFFER_MODE_RING
  | .HAL_BUFFER_MODE_DYNAMIC => E.val .HFI_BUFFER_MODE_DYNAMIC
  | _ => 0

/-- The function to_hfi_ltr_mode (lines 448 to 463). -/
def to_hfi_ltr_mode (E : hdr) (ltr_mode_type : ltr_mode) : Nat :=
  match ltr_mode_type with
  | .HAL_LTR_MODE_DISABLE => E.val .HFI_LTR_MODE_DISABLE
  | .HAL_LTR_MODE_MANUAL => E.val .HFI_LTR_MODE_MANUAL
  | .HAL_LTR_MODE_PERIODIC => E.val .HFI_LTR_MODE_PERIODIC
  | _ => E.val .HFI_LTR_MODE_DISABLE

/-! ## Caller-side structures

A member that holds a 32-bit value is a natural number (the value of its 32 bits read as
unsigned); a member of an enumeration type that the source switches on has that
enumeration as its type.  A pointer is the natural number of its address, 0 for NULL. -/

/-- The struct vidc_buffer_addr_info, with the members the source reads.  The two device
addresses may be wider than 32 bits. -/
structure vidc_buffer_addr_info where
  buffer_type : hal_buffer
  buffer_size : Nat
  num_buffers : Nat
  device_addr : Nat
  extradata_addr : Nat
  extradata_size : Nat
  response_required : Nat

/-- The struct vidc_frame_data, with the members the source reads.  The time stamp is a
64-bit integer and the two device addresses may be wider than 32 bits. -/
structure vidc_frame_data where
  buffer_type : hal_buffer
  device_addr : Nat
  extradata_addr : Nat
  timestamp : Int
  flags : Nat
  mark_target : Nat
  mark_data : Nat
  offset : Nat
  alloc_len : Nat
  filled_len : Nat
  clnt_data : Nat
  extradata_size : Nat

/-- The struct vidc_seq_hdr: the address of the header buffer and its length. -/
structure vidc_seq_hdr where
  seq_hdr : Nat
  seq_hdr_len : Nat

/-- The struct hal_frame_rate. -/
structure hal_frame_rate where
  buffer_type : hal_buffer
  frame_rate : Nat

/-- The struct hal_uncompressed_format_select. -/
structure hal_uncompressed_format_select where
  buffer_type : hal_buffer
  format : Nat

/-- The struct hal_frame_size. -/
structure hal_frame_size where
  buffer_type : hal_buffer
  width : Nat
  height : Nat

/-- The struct hfi_enable, also standing for hal_enable and the other structs of which the
source reads the single member enable. -/
structure hfi_enable where
  enable : Nat

/-- The struct hal_buffer_count_actual. -/
structure hal_buffer_count_actual where
  type : hal_buffer
  count_actual : Nat

/-- The struct hal_buffer_size_actual. -/
structure hal_buffer_size_actual where
  type : hal_buffer
  size : Nat

/-- The struct hal_buffer_display_hold_count_actual. -/
structure hal_buffer_display_hold_count_actual where
  buffer_type : hal_buffer
  hold_count : Nat

/-- The struct hal_nal_stream_format_select. -/
structure hal_nal_stream_format_select where
  nal_stream_format_select : Nat

/-- The struct hfi_enable_picture. -/
structure hfi_enable_picture where
  picture_type : Nat

/-- The struct hal_multi_stream. -/
structure hal_multi_stream where
  buffer_type : hal_buffer
  enable : Nat
  width : Nat
  height : Nat

/-- The struct hal_display_picture_buffer_count. -/
structure hal_display_picture_buffer_count where
  enable : Nat
  count : Nat

/-- The struct hal_bitrate. -/
structure hal_bitrate where
  bit_rate : Nat
  layer_id : Nat

/-- The struct hal_profile_level. -/
structure hal_profile_level where
  profile : Nat
  level : Nat

/-- The struct hal_h264_entropy_control. -/
structure hal_h264_entropy_control where
  entropy_mode : Nat
  cabac_model : Nat

/-- The struct hal_mpeg4_time_resolution. -/
structure hal_mpeg4_time_resolution where
  time_increment_resolution : Nat

/-- The struct hal_h264_db_control. -/
structure hal_h264_db_control where
  mode : hal_h264_db_mode
  slice_alpha_offset : Nat
  slice_beta_offset : Nat

/-- The struct hal_quantization. -/
structure hal_quantization where
  qpi : Nat
  qpp : Nat
  qpb : Nat
  layer_id : Nat

/-- The struct hfi_quantization_range, which the caller passes for
HAL_PARAM_VENC_SESSION_QP_RANGE. -/
structure hfi_quantization_range where
  min_qp : Nat
  max_qp : Nat
  layer_id : Nat

/-- The search range of one frame type, a member struct of hal_vc1e_perf_cfg_type. -/
structure hal_search_range where
  x_subsampled : Nat
  y_subsampled : Nat

/-- The struct hal_vc1e_perf_cfg_type. -/
structure hal_vc1e_perf_cfg_type where
  i_frame : hal_search_range
  p_frame : hal_search_range
  b_frame : hal_search_range

/-- The struct hfi_idr_period. -/
structure hfi_idr_period where
  idr_period : Nat

/-- The struct hfi_conceal_color. -/
structure hfi_conceal_color where
  conceal_color : Nat

/-- The struct hal_operations. -/
structure hal_operations where
  rotate : hal_rotate
  flip : hal_flip

/-- The struct hal_intra_refresh. -/
structure hal_intra_refresh where
  mode : hal_intra_refresh_mode
  air_mbs : Nat
  air_ref : Nat
  cir_mbs : Nat

/-- The struct hal_multi_slice_control. -/
structure hal_multi_slice_control where
  multi_slice : hal_multi_slice
  slice_size : Nat

/-- The struct hal_extradata_enable. -/
structure hal_extradata_enable where
  index : hal_extradata_id
  enable : Nat

/-- The struct hal_h264_vui_timing_info. -/
structure hal_h264_vui_timing_info where
  enable : Nat
  fixed_frame_rate : Nat
  time_scale : Nat

/-- The struct hal_buffer_alloc_mode. -/
structure hal_buffer_alloc_mode where
  type : hal_buffer
  mode : hal_buffer_mode_type

/-- The struct hfi_scs_threshold. -/
structure hfi_scs_threshold where
  threshold_value : Nat

/-- The struct hal_mvc_buffer_layout. -/
structure hal_mvc_buffer_layout where
  layout_type : hal_buffer_layout_type
  bright_view_first : Nat
  ngap : Nat

/-- The struct hal_ltr_mode. -/
structure hal_ltr_mode where
  mode : ltr_mode
  count : Nat
  trust_mode : Nat

/-- The struct hal_ltr_use. -/
structure hal_ltr_use where
  ref_ltr : Nat
  use_constraint : Nat
  frames : Nat

/-- The struct hal_ltr_mark. -/
structure hal_ltr_mark where
  mark_frame : Nat

/-- The struct hal_initial_quantization. -/
structure hal_initial_quantization where
  qpi : Nat
  qpp : Nat
  qpb : Nat
  init_qp_enable : Nat

/-- The struct hal_vpe_color_space_conversion: three arrays of 32-bit coefficients, each
given by its elements. -/
structure hal_vpe_color_space_conversion where
  csc_matrix : Nat → Nat
  csc_bias : Nat → Nat
  csc_limit : Nat → Nat

/-- The struct hfi_hybrid_hierp. -/
structure hfi_hybrid_hierp where
  layers : Nat

/-- What the argument pdata of pkt_session_set_property points to, for each property: the
struct that the case of that property casts it to.  For the two properties copied with
memcpy it is the sequence of 32-bit words of the struct; for
HAL_PARAM_VENC_MPEG4_HEADER_EXTENSION it is the pointer value itself; a case that does not
read pdata has the unit type. -/
@[reducible] def pdata_of : hal_property → Type
  | .HAL_CONFIG_FRAME_RATE => hal_frame_rate
  | .HAL_PARAM_UNCOMPRESSED_FORMAT_SELECT => hal_uncompressed_format_select
  | .HAL_PARAM_FRAME_SIZE => hal_frame_size
  | .HAL_CONFIG_REALTIME => hfi_enable
  | .HAL_PARAM_BUFFER_COUNT_ACTUAL => hal_buffer_count_actual
  | .HAL_PARAM_BUFFER_SIZE_ACTUAL => hal_buffer_size_actual
  | .HAL_PARAM_BUFFER_DISPLAY_HOLD_COUNT_ACTUAL => hal_buffer_display_hold_count_actual
  | .HAL_PARAM_NAL_STREAM_FORMAT_SELECT => hal_nal_stream_format_select
  | .HAL_PARAM_VDEC_OUTPUT_ORDER => hal_output_order
  | .HAL_PARAM_VDEC_PICTURE_TYPE_DECODE => hfi_enable_picture
  | hal_property.HAL_PARAM_VDEC_OUTPUT2_KEEP_ASPECT_RATIO => hfi_enable
  | .HAL_CONFIG_VDEC_POST_LOOP_DEBLOCKER => hfi_enable
  | .HAL_PARAM_VDEC_MULTI_STREAM => hal_multi_stream
  | .HAL_PARAM_VDEC_DISPLAY_PICTURE_BUFFER_COUNT => hal_display_picture_buffer_count
  | .HAL_PARAM_DIVX_FORMAT => hal_divx_format
  | .HAL_CONFIG_VDEC_MB_ERROR_MAP_REPORTING => hfi_enable
  | .HAL_PARAM_VDEC_CONTINUE_DATA_TRANSFER => hfi_enable
  | .HAL_PARAM_VDEC_SYNC_FRAME_DECODE => hfi_enable
  | .HAL_PARAM_VENC_SYNC_FRAME_SEQUENCE_HEADER => hfi_enable
  | .HAL_CONFIG_VENC_TARGET_BITRATE => hal_bitrate
  | .HAL_CONFIG_VENC_MAX_BITRATE => hal_bitrate
  | .HAL_PARAM_PROFILE_LEVEL_CURRENT => hal_profile_level
  | .HAL_PARAM_VENC_H264_ENTROPY_CONTROL => hal_h264_entropy_control
  | .HAL_PARAM_VENC_RATE_CONTROL => hal_rate_control
  | .HAL_PARAM_VENC_MPEG4_TIME_RESOLUTION => hal_mpeg4_time_resolution
  | .HAL_PARAM_VENC_MPEG4_HEADER_EXTENSION => Nat
  | .HAL_PARAM_VENC_H264_DEBLOCK_CONTROL => hal_h264_db_control
  | .HAL_PARAM_VENC_SESSION_QP => hal_quantization
  | .HAL_PARAM_VENC_SESSION_QP_RANGE => hfi_quantization_range
  | .HAL_PARAM_VENC_SEARCH_RANGE => hal_vc1e_perf_cfg_type
  | .HAL_PARAM_VENC_MAX_NUM_B_FRAMES => Nat → Nat
  | .HAL_CONFIG_VENC_INTRA_PERIOD => Nat → Nat
  | .HAL_CONFIG_VENC_IDR_PERIOD => hfi_idr_period
  | .HAL_PARAM_VDEC_CONCEAL_COLOR => hfi_conceal_color
  | .HAL_CONFIG_VPE_OPERATIONS => hal_operations
  | .HAL_PARAM_VENC_INTRA_REFRESH => hal_intra_refresh
  | .HAL_PARAM_VENC_MULTI_SLICE_CONTROL => hal_multi_slice_control
  | .HAL_PARAM_INDEX_EXTRADATA => hal_extradata_enable
  | .HAL_PARAM_VENC_SLICE_DELIVERY_MODE => hfi_enable
  | .HAL_PARAM_VENC_H264_VUI_TIMING_INFO => hal_h264_vui_timing_info
  | .HAL_CONFIG_VPE_DEINTERLACE => hfi_enable
  | .HAL_PARAM_VENC_H264_GENERATE_AUDNAL => hfi_enable
  | .HAL_PARAM_BUFFER_ALLOC_MODE => hal_buffer_alloc_mode
  | .HAL_PARAM_VDEC_FRAME_ASSEMBLY => hfi_enable
  | .HAL_PARAM_VENC_H264_VUI_BITSTREAM_RESTRC => hfi_enable
  | .HAL_PARAM_VENC_PRESERVE_TEXT_QUALITY => hfi_enable
  | .HAL_PARAM_VDEC_SCS_THRESHOLD => hfi_scs_threshold
  | .HAL_PARAM_MVC_BUFFER_LAYOUT => hal_mvc_buffer_layout
  | .HAL_PARAM_VENC_LTRMODE => hal_ltr_mode
  | .HAL_CONFIG_VENC_USELTRFRAME => hal_ltr_use
  | .HAL_CONFIG_VENC_MARKLTRFRAME => hal_ltr_mark
  | .HAL_PARAM_VENC_HIER_P_MAX_ENH_LAYERS => Nat
  | .HAL_CONFIG_VENC_HIER_P_NUM_FRAMES => Nat
  | .HAL_PARAM_VENC_DISABLE_RC_TIMESTAMP => hfi_enable
  | .HAL_PARAM_VENC_ENABLE_INITIAL_QP => hal_initial_quantization
  | .HAL_PARAM_VPE_COLOR_SPACE_CONVERSION => hal_vpe_color_space_conversion
  | .HAL_PARAM_VENC_VPX_ERROR_RESILIENCE_MODE => hfi_enable
  | .HAL_PARAM_VENC_H264_NAL_SVC_EXT => hfi_enable
  | .HAL_CONFIG_VENC_PERF_MODE => Nat
  | .HAL_PARAM_VENC_HIER_B_MAX_ENH_LAYERS => Nat
  | .HAL_PARAM_VDEC_NON_SECURE_OUTPUT2 => hfi_enable
  | .HAL_PARAM_VENC_HIER_P_HYBRID_MODE => hfi_hybrid_hierp
  | _ => Unit

/-! ## Packets

A packet struct is a record of the members that the source names.  A trailing array of
32-bit words (rg_buffer_info, rg_property_data, rgData) is a function from the index of a
word to its value. -/

/-- The struct hfi_session_init_pkt. -/
structure hfi_session_init_pkt where
  size : Nat
  packet_type : Nat
  session_id : Nat
  session_domain : Nat
  session_codec : Nat

/-- The struct vidc_hal_session_cmd_pkt. -/
structure vidc_hal_session_cmd_pkt where
  size : Nat
  packet_type : Nat
  session_id : Nat

/-- The struct hfi_session_set_buffers_pkt. -/
structure hfi_session_set_buffers_pkt where
  size : Nat
  packet_type : Nat
  session_id : Nat
  buffer_type : Nat
  buffer_size : Nat
  extra_data_size : Nat
  min_buffer_size : Nat
  num_buffers : Nat
  rg_buffer_info : Nat → Nat

/-- The struct hfi_cmd_session_release_buffer_packet. -/
structure hfi_cmd_session_release_buffer_packet where
  size : Nat
  packet_type : Nat
  session_id : Nat
  buffer_type : Nat
  buffer_size : Nat
  extra_data_size : Nat
  response_req : Nat
  num_buffers : Nat
  rg_buffer_info : Nat → Nat

/-- The struct hfi_cmd_session_empty_buffer_compressed_packet. -/
structure hfi_cmd_session_empty_buffer_compressed_packet where
  size : Nat
  packet_type : Nat
  session_id : Nat
  time_stamp_hi : Nat
  time_stamp_lo : Nat
  flags : Nat
  mark_target : Nat
  mark_data : Nat
  offset : Nat
  alloc_len : Nat
  filled_len : Nat
  input_tag : Nat
  packet_buffer : Nat

/-- The struct hfi_cmd_session_empty_buffer_uncompressed_plane0_packet. -/
structure hfi_cmd_session_empty_buffer_uncompressed_plane0_packet where
  size : Nat
  packet_type : Nat
  session_id : Nat
  view_id : Nat
  time_stamp_hi : Nat
  time_stamp_lo : Nat
  flags : Nat
  mark_target : Nat
  mark_data : Nat
  offset : Nat
  alloc_len : Nat
  filled_len : Nat
  input_tag : Nat
  packet_buffer : Nat
  extra_data_buffer : Nat

/-- The struct hfi_cmd_session_fill_buffer_packet. -/
structure hfi_cmd_session_fill_buffer_packet where
  size : Nat
  packet_type : Nat
  session_id : Nat
  stream_id : Nat
  packet_buffer : Nat
  extra_data_buffer : Nat
  alloc_len : Nat
  filled_len : Nat
  offset : Nat
  rgData : Nat → Nat

/-- The struct hfi_cmd_session_parse_sequence_header_packet. -/
structure hfi_cmd_session_parse_sequence_header_packet where
  size : Nat
  packet_type : Nat
  session_id : Nat
  header_len : Nat
  packet_buffer : Nat

/-- The struct hfi_session_get_sequence_header_pkt. -/
structure hfi_session_get_sequence_header_pkt where
  size : Nat
  packet_type : Nat
  session_id : Nat
  buffer_len : Nat
  packet_buffer : Nat

/-- The struct hfi_cmd_session_flush_packet. -/
structure hfi_cmd_session_flush_packet where
  size : Nat
  packet_type : Nat
  session_id : Nat
  flush_type : Nat

/-- The struct hfi_cmd_session_get_property_packet. -/
structure hfi_cmd_session_get_property_packet where
  size : Nat
  packet_type : Nat
  session_id : Nat
  num_properties : Nat
  rg_property_data : Nat → Nat

/-- The struct hfi_session_set_property_pkt. -/
structure hfi_session_set_property_pkt where
  size : Nat
  packet_type : Nat
  session_id : Nat
  num_properties : Nat
  rg_property_data : Nat → Nat

/-! ## Session packet encoders -/

/-- The function pkt_session_init (lines 293 to 307). -/
def pkt_session_init (E : hdr) (pkt : hfi_session_init_pkt) (session : Nat)
    (session_domain : Nat) (session_codec : hal_video_codec) : Int × hfi_session_init_pkt :=
  let pkt := { pkt with size := E.sizeof "hfi_session_init_pkt" % 4294967296 }
  let pkt := { pkt with packet_type := E.val .HFI_CMD_SYS_SESSION_INIT }
  let pkt := { pkt with session_id := E.hash32_ptr session }
  let pkt := { pkt with session_domain := session_domain }
  let pkt := { pkt with session_codec := to_hfi_codec E session_codec }
  if pkt.session_codec = 0 then (-EINVAL, pkt) else (0, pkt)

/-- The function pkt_session_cmd (lines 309 to 317). -/
def pkt_session_cmd (E : hdr) (pkt : vidc_hal_session_cmd_pkt) (pkt_type : Int)
    (session : Nat) : Int × vidc_hal_session_cmd_pkt :=
  let pkt := { pkt with size := E.sizeof "vidc_hal_session_cmd_pkt" % 4294967296 }
  let pkt := { pkt with packet_type := u32 pkt_type }
  let pkt := { pkt with session_id := E.hash32_ptr session }
  (0, pkt)

/-- The loop body of the output branch of pkt_session_set_buffers and
pkt_session_release_buffers, at loop index i: bi->buffer_addr = bai->device_addr and
bi->extra_data_addr = bai->extradata_addr, where bi points to the start of rg_buffer_info
and is not advanced by the loop, so that the body does not depend on i. -/
def write_buffer_info (E : hdr) (bai : vidc_buffer_addr_info) (_i : Nat) (rg : Nat → Nat) :
    Nat → Nat :=
  Function.update
    (Function.update rg (E.word_of "hfi_buffer_info" "buffer_addr")
      (bai.device_addr % 4294967296))
    (E.word_of "hfi_buffer_info" "extra_data_addr") (bai.extradata_addr % 4294967296)

/-- The loop body of the other branch of pkt_session_set_buffers and
pkt_session_release_buffers, at loop index i: pkt->rg_buffer_info[i] = bai->device_addr. -/
def write_buffer_addr (bai : vidc_buffer_addr_info) (i : Nat) (rg : Nat → Nat) : Nat → Nat :=
  Function.update rg i (bai.device_addr % 4294967296)

/-- The function pkt_session_set_buffers (lines 465 to 506). -/
def pkt_session_set_buffers (E : hdr) (pkt : hfi_session_set_buffers_pkt) (session : Nat)
    (bai : vidc_buffer_addr_info) : Int × hfi_session_set_buffers_pkt :=
  if session = 0 then (-EINVAL, pkt) else
  let pkt := { pkt with packet_type := E.val .HFI_CMD_SESSION_SET_BUFFERS }
  let pkt := { pkt with session_id := E.hash32_ptr session }
  let pkt := { pkt with buffer_size := bai.buffer_size }
  let pkt := { pkt with min_buffer_size := bai.buffer_size }
  let pkt := { pkt with num_buffers := bai.num_buffers }
  let pkt : hfi_session_set_buffers_pkt :=
    if bai.buffer_type = .HAL_BUFFER_OUTPUT ∨ bai.buffer_type = .HAL_BUFFER_OUTPUT2 then
      let pkt := { pkt with extra_data_size := bai.extradata_size }
      let pkt := { pkt with size := u32 ((E.sizeof "hfi_session_set_buffers_pkt" : Int) - 4 +
        (bai.num_buffers : Int) * (E.sizeof "hfi_buffer_info" : Int)) }
      { pkt with rg_buffer_info := for_loop pkt.num_buffers (write_buffer_info E bai)
                                      pkt.rg_buffer_info }
    else
      let pkt := { pkt with extra_data_size := 0 }
      let pkt := { pkt with size := u32 ((E.sizeof "hfi_session_set_buffers_pkt" : Int) +
        (u32 ((bai.num_buffers : Int) - 1) : Int) * 4) }
      { pkt with rg_buffer_info := for_loop pkt.num_buffers (write_buffer_addr bai)
                                      pkt.rg_buffer_info }
  let pkt : hfi_session_set_buffers_pkt :=
    { pkt with buffer_type := to_hfi_buffer E bai.buffer_type }
  if pkt.buffer_type = 0 then (-EINVAL, pkt) else (0, pkt)

/-- The function pkt_session_release_buffers (lines 508 to 550). -/
def pkt_session_release_buffers (E : hdr) (pkt : hfi_cmd_session_release_buffer_packet)
    (session : Nat) (bai : vidc_buffer_addr_info) :
    Int × hfi_cmd_session_release_buffer_packet :=
  if session = 0 then (-EINVAL, pkt) else
  let pkt := { pkt with packet_type := E.val .HFI_CMD_SESSION_RELEASE_BUFFERS }
  let pkt := { pkt with session_id := E.hash32_ptr session }
  let pkt := { pkt with buffer_size := bai.buffer_size }
  let pkt := { pkt with num_buffers := bai.num_buffers }
  let pkt : hfi_cmd_session_release_buffer_packet :=
    if bai.buffer_type = .HAL_BUFFER_OUTPUT ∨ bai.buffer_type = .HAL_BUFFER_OUTPUT2 then
      let pkt := { pkt with rg_buffer_info := for_loop pkt.num_buffers (write_buffer_info E bai)
                                      pkt.rg_buffer_info }
      { pkt with size := u32 ((E.sizeof "hfi_session_set_buffers_pkt" : Int) - 4 +
        (bai.num_buffers : Int) * (E.sizeof "hfi_buffer_info" : Int)) }
    else
      let pkt := { pkt with rg_buffer_info := for_loop pkt.num_buffers (write_buffer_addr bai)
                                      pkt.rg_buffer_info }
      let pkt := { pkt with extra_data_size := 0 }
      { pkt with size := u32 ((E.sizeof "hfi_session_set_buffers_pkt" : Int) +
        (u32 ((bai.num_buffers : Int) - 1) : Int) * 4) }
  let pkt := { pkt with response_req := bai.response_required }
  let pkt : hfi_cmd_session_release_buffer_packet :=
    { pkt with buffer_type := to_hfi_buffer E bai.buffer_type }
  if pkt.buffer_type = 0 then (-EINVAL, pkt) else (0, pkt)

/-- The macro upper_32_bits of linux/kernel.h: (u32)(((n) >> 16) >> 16). -/
def upper_32_bits (n : Int) : Nat := u32 ((n >>> 16) >>> 16)

/-- The macro lower_32_bits of linux/kernel.h: (u32)(n). -/
def lower_32_bits (n : Int) : Nat := u32 n

/-- The function pkt_session_etb_decoder (lines 552 to 574). -/
def pkt_session_etb_decoder (E : hdr)
    (pkt : hfi_cmd_session_empty_buffer_compressed_packet) (session : Nat)
    (in_frame : vidc_frame_data) : Int × hfi_cmd_session_empty_buffer_compressed_packet :=
  if session = 0 ∨ in_frame.device_addr = 0 then (-EINVAL, pkt) else
  let pkt := { pkt with
    size := E.sizeof "hfi_cmd_session_empty_buffer_compressed_packet" % 4294967296 }
  let pkt := { pkt with packet_type := E.val .HFI_CMD_SESSION_EMPTY_BUFFER }
  let pkt := { pkt with session_id := E.hash32_ptr session }
  let pkt := { pkt with time_stamp_hi := upper_32_bits in_frame.timestamp }
  let pkt := { pkt with time_stamp_lo := lower_32_bits in_frame.timestamp }
  let pkt := { pkt with flags := in_frame.flags }
  let pkt := { pkt with mark_target := in_frame.mark_target }
  let pkt := { pkt with mark_data := in_frame.mark_data }
  let pkt := { pkt with offset := in_frame.offset }
  let pkt := { pkt with alloc_len := in_frame.alloc_len }
  let pkt := { pkt with filled_len := in_frame.filled_len }
  let pkt := { pkt with input_tag := in_frame.clnt_data }
  let pkt := { pkt with packet_buffer := in_frame.device_addr % 4294967296 }
  (0, pkt)

/-- The function pkt_session_etb_encoder (lines 576 to 600). -/
def pkt_session_etb_encoder (E : hdr)
    (pkt : hfi_cmd_session_empty_buffer_uncompressed_plane0_packet) (session : Nat)
    (in_frame : vidc_frame_data) :
    Int × hfi_cmd_session_empty_buffer_uncompressed_plane0_packet :=
  if session = 0 ∨ in_frame.device_addr = 0 then (-EINVAL, pkt) else
  let pkt := { pkt with
    size := E.sizeof "hfi_cmd_session_empty_buffer_uncompressed_plane0_packet" % 4294967296 }
  let pkt := { pkt with packet_type := E.val .HFI_CMD_SESSION_EMPTY_BUFFER }
  let pkt := { pkt with session_id := E.hash32_ptr session }
  let pkt := { pkt with view_id := 0 }
  let pkt := { pkt with time_stamp_hi := upper_32_bits in_frame.timestamp }
  let pkt := { pkt with time_stamp_lo := lower_32_bits in_frame.timestamp }
  let pkt := { pkt with flags := in_frame.flags }
  let pkt := { pkt with mark_target := in_frame.mark_target }
  let pkt := { pkt with mark_data := in_frame.mark_data }
  let pkt := { pkt with offset := in_frame.offset }
  let pkt := { pkt with alloc_len := in_frame.alloc_len }
  let pkt := { pkt with filled_len := in_frame.filled_len }
  let pkt := { pkt with input_tag := in_frame.clnt_data }
  let pkt := { pkt with packet_buffer := in_frame.device_addr % 4294967296 }
  let pkt := { pkt with extra_data_buffer := in_frame.extradata_addr % 4294967296 }
  (0, pkt)

/-- The function pkt_session_ftb (lines 602 to 626).  The frame pointer may be NULL, which
is the value none. -/
def pkt_session_ftb (E : hdr) (pkt : hfi_cmd_session_fill_buffer_packet) (session : Nat)
    (out_frame : Option vidc_frame_data) : Int × hfi_cmd_session_fill_buffer_packet :=
  match out_frame with
  | none => (-EINVAL, pkt)
  | some out_frame =>
    if session = 0 ∨ out_frame.device_addr = 0 then (-EINVAL, pkt) else
    let pkt := { pkt with size := E.sizeof "hfi_cmd_session_fill_buffer_packet" % 4294967296 }
    let pkt := { pkt with packet_type := E.val .HFI_CMD_SESSION_FILL_BUFFER }
    let pkt := { pkt with session_id := E.hash32_ptr session }
    let pkt : hfi_cmd_session_fill_buffer_packet :=
      if out_frame.buffer_type = .HAL_BUFFER_OUTPUT then { pkt with stream_id := 0 }
      else if out_frame.buffer_type = .HAL_BUFFER_OUTPUT2 then { pkt with stream_id := 1 }
      else pkt
    let pkt := { pkt with packet_buffer := out_frame.device_addr % 4294967296 }
    let pkt := { pkt with extra_data_buffer := out_frame.extradata_addr % 4294967296 }
    let pkt := { pkt with alloc_len := out_frame.alloc_len }
    let pkt := { pkt with filled_len := out_frame.filled_len }
    let pkt := { pkt with offset := out_frame.offset }
    let pkt := { pkt with rgData := Function.update pkt.rgData 0 out_frame.extradata_size }
    (0, pkt)

/-- The function pkt_session_parse_seq_header (lines 628 to 642).  The header descriptor
pointer may be NULL, which is the value none. -/
def pkt_session_parse_seq_header (E : hdr)
    (pkt : hfi_cmd_session_parse_sequence_header_packet) (session : Nat)
    (seq_hdr : Option vidc_seq_hdr) : Int × hfi_cmd_session_parse_sequence_header_packet :=
  match seq_hdr with
  | none => (-EINVAL, pkt)
  | some seq_hdr =>
    if session = 0 ∨ seq_hdr.seq_hdr = 0 then (-EINVAL, pkt) else
    let pkt := { pkt with
      size := E.sizeof "hfi_cmd_session_parse_sequence_header_packet" % 4294967296 }
    let pkt := { pkt with packet_type := E.val .HFI_CMD_SESSION_PARSE_SEQUENCE_HEADER }
    let pkt := { pkt with session_id := E.hash32_ptr session }
    let pkt := { pkt with header_len := seq_hdr.seq_hdr_len }
    let pkt := { pkt with packet_buffer := seq_hdr.seq_hdr % 4294967296 }
    (0, pkt)

/-- The function pkt_session_get_seq_hdr (lines 644 to 659).  The header descriptor pointer
may be NULL, which is the value none. -/
def pkt_session_get_seq_hdr (E : hdr) (pkt : hfi_session_get_sequence_header_pkt)
    (session : Nat) (seq_hdr : Option vidc_seq_hdr) :
    Int × hfi_session_get_sequence_header_pkt :=
  match seq_hdr with
  | none => (-EINVAL, pkt)
  | some seq_hdr =>
    if session = 0 ∨ seq_hdr.seq_hdr = 0 then (-EINVAL, pkt) else
    let pkt := { pkt with size := E.sizeof "hfi_session_get_sequence_header_pkt" % 4294967296 }
    let pkt := { pkt with packet_type := E.val .HFI_CMD_SESSION_GET_SEQUENCE_HEADER }
    let pkt := { pkt with session_id := E.hash32_ptr session }
    let pkt := { pkt with buffer_len := seq_hdr.seq_hdr_len }
    let pkt := { pkt with packet_buffer := seq_hdr.seq_hdr % 4294967296 }
    (0, pkt)

/-- The function pkt_session_flush (lines 661 to 689). -/
def pkt_session_flush (E : hdr) (pkt : hfi_cmd_session_flush_packet) (session : Nat)
    (type : hal_flush) : Int × hfi_cmd_session_flush_packet :=
  if session = 0 then (-EINVAL, pkt) else
  let pkt := { pkt with size := E.sizeof "hfi_cmd_session_flush_packet" % 4294967296 }
  let pkt := { pkt with packet_type := E.val .HFI_CMD_SESSION_FLUSH }
  let pkt := { pkt with session_id := E.hash32_ptr session }
  match type with
  | .HAL_FLUSH_INPUT => (0, { pkt with flush_type := E.val .HFI_FLUSH_INPUT })
  | .HAL_FLUSH_OUTPUT => (0, { pkt with flush_type := E.val .HFI_FLUSH_OUTPUT })
  | .HAL_FLUSH_OUTPUT2 => (0, { pkt with flush_type := E.val .HFI_FLUSH_OUTPUT2 })
  | .HAL_FLUSH_ALL => (0, { pkt with flush_type := E.val .HFI_FLUSH_ALL })
  | _ => (-EINVAL, pkt)

/-- The function pkt_session_get_property (lines 691 to 717). -/
def pkt_session_get_property (E : hdr) (pkt : hfi_cmd_session_get_property_packet)
    (session : Nat) (ptype : hal_property) : Int × hfi_cmd_session_get_property_packet :=
  if session = 0 then (-EINVAL, pkt) else
  let pkt := { pkt with size := E.sizeof "hfi_cmd_session_get_property_packet" % 4294967296 }
  let pkt := { pkt with packet_type := E.val .HFI_CMD_SESSION_GET_PROPERTY }
  let pkt := { pkt with session_id := E.hash32_ptr session }
  let pkt := { pkt with num_properties := 1 }
  match ptype with
  | .HAL_PARAM_PROFILE_LEVEL_CURRENT =>
    (0, { pkt with rg_property_data := Function.update pkt.rg_property_data 0
                                        (E.val .HFI_PROPERTY_PARAM_PROFILE_LEVEL_CURRENT) })
  | .HAL_PARAM_GET_BUFFER_REQUIREMENTS =>
    (0, { pkt with rg_property_data := Function.update pkt.rg_property_data 0
                                        (E.val .HFI_PROPERTY_CONFIG_BUFFER_REQUIREMENTS) })
  | _ => (-ENOTSUPP, pkt)

/-! ## The property codec -/

/-- The assignment pkt->rg_property_data[i] = v. -/
def set_word (pkt : hfi_session_set_property_pkt) (i v : Nat) : hfi_session_set_property_pkt :=
  { pkt with rg_property_data := Function.update pkt.rg_property_data i v }

/-- The assignment hfi->m = v, where hfi = (struct s *) &pkt->rg_property_data[1]. -/
def set_hfi (E : hdr) (pkt : hfi_session_set_property_pkt) (s m : String) (v : Nat) :
    hfi_session_set_property_pkt :=
  set_word pkt (1 + E.word_of s m) v

/-- The assignment hfi->m[k] = v to an element of a member array, where
hfi = (struct s *) &pkt->rg_property_data[1]. -/
def set_hfi_at (E : hdr) (pkt : hfi_session_set_property_pkt) (s m : String) (k v : Nat) :
    hfi_session_set_property_pkt :=
  set_word pkt (1 + E.word_of s m + k) v

/-- The value of hfi->m, where hfi = (struct s *) &pkt->rg_property_data[1]. -/
def get_hfi (E : hdr) (pkt : hfi_session_set_property_pkt) (s m : String) : Nat :=
  pkt.rg_property_data (1 + E.word_of s m)

/-- The comparison hfi->m <= 0 on the stored 32-bit word w: for a member of a signed type
the word is read as a two's complement number, for a u32 member only 0 is not above 0. -/
def member_le_zero (E : hdr) (s m : String) (w : Nat) : Bool :=
  if E.member_signed s m then decide (w = 0 ∨ 2147483648 ≤ w) else decide (w = 0)

/-- The call memcpy(&pkt->rg_property_data[dst], src, n) for a source made of 32-bit words
and a byte count n that is a multiple of 4: it copies n / 4 words. -/
def memcpy_words (pkt : hfi_session_set_property_pkt) (dst : Nat) (src : Nat → Nat) (n : Nat) :
    hfi_session_set_property_pkt :=
  for_loop (n / 4) (fun i p => set_word p (dst + i) (src i)) pkt

/-- The statement pkt->size += n. -/
def add_size (pkt : hfi_session_set_property_pkt) (n : Nat) : hfi_session_set_property_pkt :=
  { pkt with size := (pkt.size + n) % 4294967296 }

/-- The function pkt_session_set_property (lines 719 to 1706).  Each case ends with the
value of ret that the final return ret yields after its break; a case that returns early
ends with that return value.  A nested switch whose default only logs leaves the packet as
it is.  The test if (hfi) of the conceal colour case is on the address of
rg_property_data[1], which is never NULL, so its assignment always runs. -/
def pkt_session_set_property (E : hdr) (pkt : hfi_session_set_property_pkt) (session : Nat)
    (ptype : hal_property) (pdata : pdata_of ptype) : Int × hfi_session_set_property_pkt :=
  if session = 0 then (-EINVAL, pkt) else
  let pkt := { pkt with size := E.sizeof "hfi_session_set_property_pkt" % 4294967296 }
  let pkt := { pkt with packet_type := E.val .HFI_CMD_SESSION_SET_PROPERTY }
  let pkt := { pkt with session_id := E.hash32_ptr session }
  let pkt : hfi_session_set_property_pkt := { pkt with num_properties := 1 }
  match ptype, pdata with
  | .HAL_CONFIG_FRAME_RATE, prop =>
    let pkt := set_word pkt 0 (E.val .HFI_PROPERTY_CONFIG_FRAME_RATE)
    let buffer_type := to_hfi_buffer E prop.buffer_type
    if buffer_type = 0 then (-EINVAL, pkt) else
    let pkt := set_hfi E pkt "hfi_frame_rate" "buffer_type" buffer_type
    let pkt := set_hfi E pkt "hfi_frame_rate" "frame_rate" prop.frame_rate
    (0, add_size pkt (4 + E.sizeof "hfi_frame_rate"))
  | .HAL_PARAM_UNCOMPRESSED_FORMAT_SELECT, prop =>
    let pkt := set_word pkt 0 (E.val .HFI_PROPERTY_PARAM_UNCOMPRESSED_FORMAT_SELECT)
    let buffer_type := to_hfi_buffer E prop.buffer_type
    if buffer_type = 0 then (-EINVAL, pkt) else
    let pkt := set_hfi E pkt "hfi_uncompressed_format_select" "buffer_type" buffer_type
    let pkt := set_hfi E pkt "hfi_uncompressed_format_select" "format"
      (u32 (to_hfi_type E .HAL_PARAM_UNCOMPRESSED_FORMAT_SELECT prop.format))
    (0, add_size pkt (4 + E.sizeof "hfi_uncompressed_format_select"))
  | .HAL_PARAM_UNCOMPRESSED_PLANE_ACTUAL_CONSTRAINTS_INFO, _ =>
    (0, pkt)
  | .HAL_PARAM_UNCOMPRESSED_PLANE_ACTUAL_INFO, _ =>
    (0, pkt)
  | .HAL_PARAM_EXTRA_DATA_HEADER_CONFIG, _ =>
    (0, pkt)
  | .HAL_PARAM_FRAME_SIZE, prop =>
    let pkt := set_word pkt 0 (E.val .HFI_PROPERTY_PARAM_FRAME_SIZE)
    let buffer_type := to_hfi_buffer E prop.buffer_type
    if buffer_type = 0 then (-EINVAL, pkt) else
    let pkt := set_hfi E pkt "hfi_frame_size" "buffer_type" buffer_type
    let pkt := set_hfi E pkt "hfi_frame_size" "height" prop.height
    let pkt := set_hfi E pkt "hfi_frame_size" "width" prop.width
    (0, add_size pkt (4 + E.sizeof "hfi_frame_size"))
  | .HAL_CONFIG_REALTIME, prop =>
    let pkt := set_word pkt 0 (E.val .HFI_PROPERTY_CONFIG_REALTIME)
    let pkt := set_hfi E pkt "hfi_enable" "enable" prop.enable
    (0, add_size pkt (4 * 2))
  | .HAL_PARAM_BUFFER_COUNT_ACTUAL, prop =>
    let pkt := set_word pkt 0 (E.val .HFI_PROPERTY_PARAM_BUFFER_COUNT_ACTUAL)
    let pkt := set_hfi E pkt "hfi_buffer_count_actual" "count_actual" prop.count_actual
    let buf_type := to_hfi_buffer E prop.type
    if buf_type = 0 then (-EINVAL, pkt) else
    let pkt := set_hfi E pkt "hfi_buffer_count_actual" "type" buf_type
    (0, add_size pkt (4 + E.sizeof "hfi_buffer_count_actual"))
  | .HAL_PARAM_BUFFER_SIZE_ACTUAL, prop =>
    let pkt := set_word pkt 0 (E.val .HFI_PROPERTY_PARAM_BUFFER_SIZE_ACTUAL)
    let pkt := set_hfi E pkt "hfi_buffer_size_actual" "size" prop.size
    let buf_type := to_hfi_buffer E prop.type
    if buf_type = 0 then (-EINVAL, pkt) else
    let pkt := set_hfi E pkt "hfi_buffer_size_actual" "type" buf_type
    (0, add_size pkt (4 + E.sizeof "hfi_buffer_size_actual"))
  | .HAL_PARAM_BUFFER_DISPLAY_HOLD_COUNT_ACTUAL, prop =>
    let pkt := set_word pkt 0 (E.val .HFI_PROPERTY_PARAM_BUFFER_DISPLAY_HOLD_COUNT_ACTUAL)
    let pkt := set_hfi E pkt "hfi_buffer_display_hold_count_actual" "hold_count" prop.hold_count
    let buffer_type := to_hfi_buffer E prop.buffer_type
    if buffer_type = 0 then (-EINVAL, pkt) else
    let pkt := set_hfi E pkt "hfi_buffer_display_hold_count_actual" "type" buffer_type
    (0, add_size pkt (4 + E.sizeof "hfi_buffer_display_hold_count_actual"))
  | .HAL_PARAM_NAL_STREAM_FORMAT_SELECT, prop =>
    let pkt := set_word pkt 0 (E.val .HFI_PROPERTY_PARAM_NAL_STREAM_FORMAT_SELECT)
    let pkt := set_hfi E pkt "hfi_nal_stream_format_select" "nal_stream_format_select"
      (u32 (to_hfi_type E .HAL_PARAM_NAL_STREAM_FORMAT_SELECT prop.nal_stream_format_select))
    (0, add_size pkt (4 + E.sizeof "hfi_nal_stream_format_select"))
  | .HAL_PARAM_VDEC_OUTPUT_ORDER, data =>
    let pkt := set_word pkt 0 (E.val .HFI_PROPERTY_PARAM_VDEC_OUTPUT_ORDER)
    let pkt := match data with
      | .HAL_OUTPUT_ORDER_DECODE => set_word pkt 1 (E.val .HFI_OUTPUT_ORDER_DECODE)
      | .HAL_OUTPUT_ORDER_DISPLAY => set_word pkt 1 (E.val .HFI_OUTPUT_ORDER_DISPLAY)
      | _ => pkt
    (0, add_size pkt (4 * 2))
  | .HAL_PARAM_VDEC_PICTURE_TYPE_DECODE, prop =>
    let pkt := set_word pkt 0 (E.val .HFI_PROPERTY_PARAM_VDEC_PICTURE_TYPE_DECODE)
    let pkt := set_hfi E pkt "hfi_enable_picture" "picture_type" prop.picture_type
    (0, add_size pkt (4 * 2))
  | hal_property.HAL_PARAM_VDEC_OUTPUT2_KEEP_ASPECT_RATIO, prop =>
    let pkt := set_word pkt 0 (E.val hdr_const.HFI_PROPERTY_PARAM_VDEC_OUTPUT2_KEEP_ASPECT_RATIO)
    let pkt := set_hfi E pkt "hfi_enable" "enable" prop.enable
    (0, add_size pkt (4 * 2))
  | .HAL_CONFIG_VDEC_POST_LOOP_DEBLOCKER, prop =>
    let pkt := set_word pkt 0 (E.val .HFI_PROPERTY_CONFIG_VDEC_POST_LOOP_DEBLOCKER)
    let pkt := set_hfi E pkt "hfi_enable" "enable" prop.enable
    (0, add_size pkt (4 * 2))
  | .HAL_PARAM_VDEC_MULTI_STREAM, prop =>
    let pkt := set_word pkt 0 (E.val .HFI_PROPERTY_PARAM_VDEC_MULTI_STREAM)
    let buffer_type := to_hfi_buffer E prop.buffer_type
    if buffer_type = 0 then (-EINVAL, pkt) else
    let pkt := set_hfi E pkt "hfi_multi_stream" "buffer_type" buffer_type
    let pkt := set_hfi E pkt "hfi_multi_stream" "enable" prop.enable
    let pkt := set_hfi E pkt "hfi_multi_stream" "width" prop.width
    let pkt := set_hfi E pkt "hfi_multi_stream" "height" prop.height
    (0, add_size pkt (4 + E.sizeof "hfi_multi_stream"))
  | .HAL_PARAM_VDEC_DISPLAY_PICTURE_BUFFER_COUNT, prop =>
    let pkt := set_word pkt 0 (E.val .HFI_PROPERTY_PARAM_VDEC_DISPLAY_PICTURE_BUFFER_COUNT)
    let pkt := set_hfi E pkt "hfi_display_picture_buffer_count" "count" prop.count
    let pkt := set_hfi E pkt "hfi_display_picture_buffer_count" "enable" prop.enable
    (0, add_size pkt (4 + E.sizeof "hfi_display_picture_buffer_count"))
  | .HAL_PARAM_DIVX_FORMAT, data =>
    let pkt := set_word pkt 0 (E.val .HFI_PROPERTY_PARAM_DIVX_FORMAT)
    let pkt := match data with
      | .HAL_DIVX_FORMAT_4 => set_word pkt 1 (E.val .HFI_DIVX_FORMAT_4)
      | .HAL_DIVX_FORMAT_5 => set_word pkt 1 (E.val .HFI_DIVX_FORMAT_5)
      | .HAL_DIVX_FORMAT_6 => set_word pkt 1 (E.val .HFI_DIVX_FORMAT_6)
      | _ => pkt
    (0, add_size pkt (4 * 2))
  | .HAL_CONFIG_VDEC_MB_ERROR_MAP_REPORTING, prop =>
    let pkt := set_word pkt 0 (E.val .HFI_PROPERTY_CONFIG_VDEC_MB_ERROR_MAP_REPORTING)
    let pkt := set_hfi E pkt "hfi_enable" "enable" prop.enable
    (0, add_size pkt (4 * 2))
  | .HAL_PARAM_VDEC_CONTINUE_DATA_TRANSFER, prop =>
    let pkt := set_word pkt 0 (E.val .HFI_PROPERTY_PARAM_VDEC_CONTINUE_DATA_TRANSFER)
    let pkt := set_hfi E pkt "hfi_enable" "enable" prop.enable
    (0, add_size pkt (4 * 2))
  | .HAL_PARAM_VDEC_SYNC_FRAME_DECODE, prop =>
    let pkt := set_word pkt 0 (E.val .HFI_PROPERTY_PARAM_VDEC_THUMBNAIL_MODE)
    let pkt := set_hfi E pkt "hfi_enable" "enable" prop.enable
    (0, add_size pkt (4 * 2))
  | .HAL_PARAM_VENC_SYNC_FRAME_SEQUENCE_HEADER, prop =>
    let pkt := set_word pkt 0 (E.val .HFI_PROPERTY_CONFIG_VENC_SYNC_FRAME_SEQUENCE_HEADER)
    let pkt := set_hfi E pkt "hfi_enable" "enable" prop.enable
    (0, add_size pkt (4 * 2))
  | .HAL_CONFIG_VENC_REQUEST_IFRAME, _ =>
    let pkt := set_word pkt 0 (E.val .HFI_PROPERTY_CONFIG_VENC_REQUEST_SYNC_FRAME)
    (0, add_size pkt 4)
  | .HAL_PARAM_VENC_MPEG4_SHORT_HEADER, _ =>
    (0, pkt)
  | .HAL_PARAM_VENC_MPEG4_AC_PREDICTION, _ =>
    (0, pkt)
  | .HAL_CONFIG_VENC_TARGET_BITRATE, prop =>
    let pkt := set_word pkt 0 (E.val .HFI_PROPERTY_CONFIG_VENC_TARGET_BITRATE)
    let pkt := set_hfi E pkt "hfi_bitrate" "bit_rate" prop.bit_rate
    let pkt := set_hfi E pkt "hfi_bitrate" "layer_id" prop.layer_id
    (0, add_size pkt (4 + E.sizeof "hfi_bitrate"))
  | .HAL_CONFIG_VENC_MAX_BITRATE, prop =>
    let pkt := set_word pkt 0 (E.val .HFI_PROPERTY_CONFIG_VENC_MAX_BITRATE)
    let pkt := set_hfi E pkt "hfi_bitrate" "bit_rate" prop.bit_rate
    let pkt := set_hfi E pkt "hfi_bitrate" "layer_id" prop.layer_id
    (0, add_size pkt (4 + E.sizeof "hfi_bitrate"))
  | .HAL_PARAM_PROFILE_LEVEL_CURRENT, prop =>
    let pkt := set_word pkt 0 (E.val .HFI_PROPERTY_PARAM_PROFILE_LEVEL_CURRENT)
    let pkt := set_hfi E pkt "hfi_profile_level" "level" prop.level
    let pkt := set_hfi E pkt "hfi_profile_level" "profile"
      (u32 (to_hfi_type E .HAL_PARAM_PROFILE_LEVEL_CURRENT prop.profile))
    let profile := get_hfi E pkt "hfi_profile_level" "profile"
    let pkt :=
      if member_le_zero E "hfi_profile_level" "profile" profile
      then set_hfi E pkt "hfi_profile_level" "profile" (E.val .HFI_H264_PROFILE_HIGH)
      else pkt
    let pkt :=
      if get_hfi E pkt "hfi_profile_level" "level" = 0
      then set_hfi E pkt "hfi_profile_level" "level" 1
      else pkt
    (0, add_size pkt (4 + E.sizeof "hfi_profile_level"))
  | .HAL_PARAM_VENC_H264_ENTROPY_CONTROL, prop =>
    let pkt := set_word pkt 0 (E.val .HFI_PROPERTY_PARAM_VENC_H264_ENTROPY_CONTROL)
    let pkt := set_hfi E pkt "hfi_h264_entropy_control" "entropy_mode"
      (u32 (to_hfi_type E .HAL_PARAM_VENC_H264_ENTROPY_CONTROL prop.entropy_mode))
    let pkt :=
      if get_hfi E pkt "hfi_h264_entropy_control" "entropy_mode" = E.val .HAL_H264_ENTROPY_CABAC
      then set_hfi E pkt "hfi_h264_entropy_control" "cabac_model"
        (u32 (to_hfi_type E .HAL_PARAM_VENC_H264_ENTROPY_CABAC_MODEL prop.cabac_model))
      else pkt
    (0, add_size pkt (4 + E.sizeof "hfi_h264_entropy_control"))
  | .HAL_PARAM_VENC_RATE_CONTROL, rc =>
    let pkt := set_word pkt 0 (E.val .HFI_PROPERTY_PARAM_VENC_RATE_CONTROL)
    let pkt := match rc with
      | .HAL_RATE_CONTROL_OFF => set_word pkt 1 (E.val .HFI_RATE_CONTROL_OFF)
      | .HAL_RATE_CONTROL_CBR_CFR => set_word pkt 1 (E.val .HFI_RATE_CONTROL_CBR_CFR)
      | .HAL_RATE_CONTROL_CBR_VFR => set_word pkt 1 (E.val .HFI_RATE_CONTROL_CBR_VFR)
      | .HAL_RATE_CONTROL_VBR_CFR => set_word pkt 1 (E.val .HFI_RATE_CONTROL_VBR_CFR)
      | .HAL_RATE_CONTROL_VBR_VFR => set_word pkt 1 (E.val .HFI_RATE_CONTROL_VBR_VFR)
      | _ => pkt
    (0, add_size pkt (4 * 2))
  | .HAL_PARAM_VENC_MPEG4_TIME_RESOLUTION, prop =>
    let pkt := set_word pkt 0 (E.val .HFI_PROPERTY_PARAM_VENC_MPEG4_TIME_RESOLUTION)
    let pkt := set_hfi E pkt "hfi_mpeg4_time_resolution" "time_increment_resolution"
      prop.time_increment_resolution
    (0, add_size pkt (4 * 2))
  | .HAL_PARAM_VENC_MPEG4_HEADER_EXTENSION, pdata =>
    let pkt := set_word pkt 0 (E.val .HFI_PROPERTY_PARAM_VENC_MPEG4_HEADER_EXTENSION)
    let pkt := set_hfi E pkt "hfi_mpeg4_header_extension" "header_extension"
      (pdata % 4294967296)
    (0, add_size pkt (4 * 2))
  | .HAL_PARAM_VENC_H264_DEBLOCK_CONTROL, prop =>
    let pkt := set_word pkt 0 (E.val .HFI_PROPERTY_PARAM_VENC_H264_DEBLOCK_CONTROL)
    let pkt := match prop.mode with
      | .HAL_H264_DB_MODE_DISABLE =>
        set_hfi E pkt "hfi_h264_db_control" "mode" (E.val .HFI_H264_DB_MODE_DISABLE)
      | .HAL_H264_DB_MODE_SKIP_SLICE_BOUNDARY =>
        set_hfi E pkt "hfi_h264_db_control" "mode" (E.val .HFI_H264_DB_MODE_SKIP_SLICE_BOUNDARY)
      | .HAL_H264_DB_MODE_ALL_BOUNDARY =>
        set_hfi E pkt "hfi_h264_db_control" "mode" (E.val .HFI_H264_DB_MODE_ALL_BOUNDARY)
      | _ => pkt
    let pkt := set_hfi E pkt "hfi_h264_db_control" "slice_alpha_offset" prop.slice_alpha_offset
    let pkt := set_hfi E pkt "hfi_h264_db_control" "slice_beta_offset" prop.slice_beta_offset
    (0, add_size pkt (4 + E.sizeof "hfi_h264_db_control"))
  | .HAL_PARAM_VENC_SESSION_QP, hal_quant =>
    let pkt := set_word pkt 0 (E.val .HFI_PROPERTY_PARAM_VENC_SESSION_QP)
    let pkt := set_hfi E pkt "hfi_quantization" "qp_i" hal_quant.qpi
    let pkt := set_hfi E pkt "hfi_quantization" "qp_p" hal_quant.qpp
    let pkt := set_hfi E pkt "hfi_quantization" "qp_b" hal_quant.qpb
    let pkt := set_hfi E pkt "hfi_quantization" "layer_id" hal_quant.layer_id
    (0, add_size pkt (4 + E.sizeof "hfi_quantization"))
  | .HAL_PARAM_VENC_SESSION_QP_RANGE, hal_range =>
    let pkt := set_word pkt 0 (E.val .HFI_PROPERTY_PARAM_VENC_SESSION_QP_RANGE)
    let min_qp := hal_range.min_qp
    let max_qp := hal_range.max_qp
    if min_qp > 0xff ∨ max_qp > 0xff then (-ERANGE, pkt) else
    let pkt := set_hfi E pkt "hfi_quantization_range" "min_qp"
      ((min_qp ||| min_qp <<< 8 ||| min_qp <<< 16) % 4294967296)
    let pkt := set_hfi E pkt "hfi_quantization_range" "max_qp"
      ((max_qp ||| max_qp <<< 8 ||| max_qp <<< 16) % 4294967296)
    let pkt := set_hfi E pkt "hfi_quantization_range" "layer_id" hal_range.layer_id
    (0, add_size pkt (4 + E.sizeof "hfi_quantization_range"))
  | .HAL_PARAM_VENC_SEARCH_RANGE, hal_mv_searchrange =>
    let pkt := set_word pkt 0 (E.val .HFI_PROPERTY_PARAM_VENC_VC1_PERF_CFG)
    let pkt := set_hfi_at E pkt "hfi_vc1e_perf_cfg_type" "search_range_x_subsampled" 0
      hal_mv_searchrange.i_frame.x_subsampled
    let pkt := set_hfi_at E pkt "hfi_vc1e_perf_cfg_type" "search_range_x_subsampled" 1
      hal_mv_searchrange.p_frame.x_subsampled
    let pkt := set_hfi_at E pkt "hfi_vc1e_perf_cfg_type" "search_range_x_subsampled" 2
      hal_mv_searchrange.b_frame.x_subsampled
    let pkt := set_hfi_at E pkt "hfi_vc1e_perf_cfg_type" "search_range_y_subsampled" 0
      hal_mv_searchrange.i_frame.y_subsampled
    let pkt := set_hfi_at E pkt "hfi_vc1e_perf_cfg_type" "search_range_y_subsampled" 1
      hal_mv_searchrange.p_frame.y_subsampled
    let pkt := set_hfi_at E pkt "hfi_vc1e_perf_cfg_type" "search_range_y_subsampled" 2
      hal_mv_searchrange.b_frame.y_subsampled
    (0, add_size pkt (4 + E.sizeof "hfi_vc1e_perf_cfg_type"))
  | .HAL_PARAM_VENC_MAX_NUM_B_FRAMES, pdata =>
    let pkt := set_word pkt 0 (E.val .HFI_PROPERTY_PARAM_VENC_MAX_NUM_B_FRAMES)
    let pkt := memcpy_words pkt 1 pdata (E.sizeof "hfi_max_num_b_frames")
    (0, add_size pkt (4 + E.sizeof "hfi_max_num_b_frames"))
  | .HAL_CONFIG_VENC_INTRA_PERIOD, pdata =>
    let pkt := set_word pkt 0 (E.val .HFI_PROPERTY_CONFIG_VENC_INTRA_PERIOD)
    let pkt := memcpy_words pkt 1 pdata (E.sizeof "hfi_intra_period")
    (0, add_size pkt (4 + E.sizeof "hfi_intra_period"))
  | .HAL_CONFIG_VENC_IDR_PERIOD, prop =>
    let pkt := set_word pkt 0 (E.val .HFI_PROPERTY_CONFIG_VENC_IDR_PERIOD)
    let pkt := set_hfi E pkt "hfi_idr_period" "idr_period" prop.idr_period
    (0, add_size pkt (4 * 2))
  | .HAL_PARAM_VDEC_CONCEAL_COLOR, prop =>
    let pkt := set_word pkt 0 (E.val .HFI_PROPERTY_PARAM_VDEC_CONCEAL_COLOR)
    let pkt := set_hfi E pkt "hfi_conceal_color" "conceal_color" prop.conceal_color
    (0, add_size pkt (4 * 2))
  | .HAL_CONFIG_VPE_OPERATIONS, prop =>
    let pkt := set_word pkt 0 (E.val .HFI_PROPERTY_CONFIG_VPE_OPERATIONS)
    let r : Int × hfi_session_set_property_pkt := match prop.rotate with
      | .HAL_ROTATE_NONE =>
        (0, set_hfi E pkt "hfi_operations_type" "rotation" (E.val .HFI_ROTATE_NONE))
      | .HAL_ROTATE_90 => (0, set_hfi E pkt "hfi_operations_type" "rotation" (E.val .HFI_ROTATE_90))
      | .HAL_ROTATE_180 =>
        (0, set_hfi E pkt "hfi_operations_type" "rotation" (E.val .HFI_ROTATE_180))
      | .HAL_ROTATE_270 =>
        (0, set_hfi E pkt "hfi_operations_type" "rotation" (E.val .HFI_ROTATE_270))
      | _ => (-EINVAL, pkt)
    let r : Int × hfi_session_set_property_pkt := match prop.flip with
      | .HAL_FLIP_NONE => (r.1, set_hfi E r.2 "hfi_operations_type" "flip" (E.val .HFI_FLIP_NONE))
      | .HAL_FLIP_HORIZONTAL =>
        (r.1, set_hfi E r.2 "hfi_operations_type" "flip" (E.val .HFI_FLIP_HORIZONTAL))
      | .HAL_FLIP_VERTICAL =>
        (r.1, set_hfi E r.2 "hfi_operations_type" "flip" (E.val .HFI_FLIP_VERTICAL))
      | _ => (-EINVAL, r.2)
    (r.1, add_size r.2 (4 + E.sizeof "hfi_operations_type"))
  | .HAL_PARAM_VENC_INTRA_REFRESH, prop =>
    let pkt := set_word pkt 0 (E.val .HFI_PROPERTY_PARAM_VENC_INTRA_REFRESH)
    let pkt := match prop.mode with
      | .HAL_INTRA_REFRESH_NONE =>
        set_hfi E pkt "hfi_intra_refresh" "mode" (E.val .HFI_INTRA_REFRESH_NONE)
      | .HAL_INTRA_REFRESH_ADAPTIVE =>
        set_hfi E pkt "hfi_intra_refresh" "mode" (E.val .HFI_INTRA_REFRESH_ADAPTIVE)
      | .HAL_INTRA_REFRESH_CYCLIC =>
        set_hfi E pkt "hfi_intra_refresh" "mode" (E.val .HFI_INTRA_REFRESH_CYCLIC)
      | .HAL_INTRA_REFRESH_CYCLIC_ADAPTIVE =>
        set_hfi E pkt "hfi_intra_refresh" "mode" (E.val .HFI_INTRA_REFRESH_CYCLIC_ADAPTIVE)
      | .HAL_INTRA_REFRESH_RANDOM =>
        set_hfi E pkt "hfi_intra_refresh" "mode" (E.val .HFI_INTRA_REFRESH_RANDOM)
      | _ => pkt
    let pkt := set_hfi E pkt "hfi_intra_refresh" "air_mbs" prop.air_mbs
    let pkt := set_hfi E pkt "hfi_intra_refresh" "air_ref" prop.air_ref
    let pkt := set_hfi E pkt "hfi_intra_refresh" "cir_mbs" prop.cir_mbs
    (0, add_size pkt (4 + E.sizeof "hfi_intra_refresh"))
  | .HAL_PARAM_VENC_MULTI_SLICE_CONTROL, prop =>
    let pkt := set_word pkt 0 (E.val .HFI_PROPERTY_PARAM_VENC_MULTI_SLICE_CONTROL)
    let pkt := match prop.multi_slice with
      | .HAL_MULTI_SLICE_OFF =>
        set_hfi E pkt "hfi_multi_slice_control" "multi_slice" (E.val .HFI_MULTI_SLICE_OFF)
      | .HAL_MULTI_SLICE_GOB =>
        set_hfi E pkt "hfi_multi_slice_control" "multi_slice" (E.val .HFI_MULTI_SLICE_GOB)
      | .HAL_MULTI_SLICE_BY_MB_COUNT =>
        set_hfi E pkt "hfi_multi_slice_control" "multi_slice" (E.val .HFI_MULTI_SLICE_BY_MB_COUNT)
      | .HAL_MULTI_SLICE_BY_BYTE_COUNT =>
        set_hfi E pkt "hfi_multi_slice_control" "multi_slice" (E.val .HFI_MULTI_SLICE_BY_BYTE_COUNT)
      | _ => pkt
    let pkt := set_hfi E pkt "hfi_multi_slice_control" "slice_size" prop.slice_size
    (0, add_size pkt (4 + E.sizeof "hfi_multi_slice_control"))
  | .HAL_PARAM_INDEX_EXTRADATA, extra =>
    let pkt := set_word pkt 0 (u32 (to_hfi_extradata_index E extra.index))
    let pkt := set_hfi E pkt "hfi_index_extradata_config" "enable" extra.enable
    let id := to_hfi_extradata_id E extra.index
    let r : Int × hfi_session_set_property_pkt :=
      if id ≠ 0
      then (0, set_hfi E pkt "hfi_index_extradata_config" "index_extra_data_id" (u32 id))
      else (-EINVAL, pkt)
    (r.1, add_size r.2 (4 + E.sizeof "hfi_index_extradata_config"))
  | .HAL_PARAM_VENC_SLICE_DELIVERY_MODE, prop =>
    let pkt := set_word pkt 0 (E.val .HFI_PROPERTY_PARAM_VENC_SLICE_DELIVERY_MODE)
    let pkt := set_hfi E pkt "hfi_enable" "enable" prop.enable
    (0, add_size pkt (4 + E.sizeof "hfi_enable"))
  | .HAL_PARAM_VENC_H264_VUI_TIMING_INFO, timing_info =>
    let pkt := set_word pkt 0 (E.val .HFI_PROPERTY_PARAM_VENC_H264_VUI_TIMING_INFO)
    let pkt := set_hfi E pkt "hfi_h264_vui_timing_info" "enable" timing_info.enable
    let pkt := set_hfi E pkt "hfi_h264_vui_timing_info" "fixed_frame_rate"
      timing_info.fixed_frame_rate
    let pkt := set_hfi E pkt "hfi_h264_vui_timing_info" "time_scale" timing_info.time_scale
    (0, add_size pkt (4 + E.sizeof "hfi_h264_vui_timing_info"))
  | .HAL_CONFIG_VPE_DEINTERLACE, prop =>
    let pkt := set_word pkt 0 (E.val .HFI_PROPERTY_CONFIG_VPE_DEINTERLACE)
    let pkt := set_hfi E pkt "hfi_enable" "enable" prop.enable
    (0, add_size pkt (4 + E.sizeof "hfi_enable"))
  | .HAL_PARAM_VENC_H264_GENERATE_AUDNAL, prop =>
    let pkt := set_word pkt 0 (E.val .HFI_PROPERTY_PARAM_VENC_H264_GENERATE_AUDNAL)
    let pkt := set_hfi E pkt "hfi_enable" "enable" prop.enable
    (0, add_size pkt (4 + E.sizeof "hfi_enable"))
  | .HAL_PARAM_BUFFER_ALLOC_MODE, hal =>
    let pkt := set_word pkt 0 (E.val .HFI_PROPERTY_PARAM_BUFFER_ALLOC_MODE)
    let buf_type := to_hfi_buffer E hal.type
    if buf_type = 0 then (-EINVAL, pkt) else
    let pkt := set_hfi E pkt "hfi_buffer_alloc_mode" "type" buf_type
    let buf_mode := to_hfi_buf_mode E hal.mode
    if buf_mode = 0 then (-EINVAL, pkt) else
    let pkt := set_hfi E pkt "hfi_buffer_alloc_mode" "mode" buf_mode
    (0, add_size pkt (4 + E.sizeof "hfi_buffer_alloc_mode"))
  | .HAL_PARAM_VDEC_FRAME_ASSEMBLY, prop =>
    let pkt := set_word pkt 0 (E.val .HFI_PROPERTY_PARAM_VDEC_FRAME_ASSEMBLY)
    let pkt := set_hfi E pkt "hfi_enable" "enable" prop.enable
    (0, add_size pkt (4 + E.sizeof "hfi_enable"))
  | .HAL_PARAM_VENC_H264_VUI_BITSTREAM_RESTRC, prop =>
    let pkt := set_word pkt 0 (E.val .HFI_PROPERTY_PARAM_VENC_H264_VUI_BITSTREAM_RESTRC)
    let pkt := set_hfi E pkt "hfi_enable" "enable" prop.enable
    (0, add_size pkt (4 + E.sizeof "hfi_enable"))
  | .HAL_PARAM_VENC_PRESERVE_TEXT_QUALITY, prop =>
    let pkt := set_word pkt 0 (E.val .HFI_PROPERTY_PARAM_VENC_PRESERVE_TEXT_QUALITY)
    let pkt := set_hfi E pkt "hfi_enable" "enable" prop.enable
    (0, add_size pkt (4 + E.sizeof "hfi_enable"))
  | .HAL_PARAM_VDEC_SCS_THRESHOLD, prop =>
    let pkt := set_word pkt 0 (E.val .HFI_PROPERTY_PARAM_VDEC_SCS_THRESHOLD)
    let pkt := set_hfi E pkt "hfi_scs_threshold" "threshold_value" prop.threshold_value
    (0, add_size pkt (4 + E.sizeof "hfi_scs_threshold"))
  | .HAL_PARAM_MVC_BUFFER_LAYOUT, layout_info =>
    let pkt := set_word pkt 0 (E.val .HFI_PROPERTY_PARAM_MVC_BUFFER_LAYOUT)
    let pkt := set_hfi E pkt "hfi_mvc_buffer_layout_descp_type" "layout_type"
      (to_hfi_layout E layout_info.layout_type)
    let pkt := set_hfi E pkt "hfi_mvc_buffer_layout_descp_type" "bright_view_first"
      layout_info.bright_view_first
    let pkt := set_hfi E pkt "hfi_mvc_buffer_layout_descp_type" "ngap" layout_info.ngap
    (0, add_size pkt (4 + E.sizeof "hfi_mvc_buffer_layout_descp_type"))
  | .HAL_PARAM_VENC_LTRMODE, hal =>
    let pkt := set_word pkt 0 (E.val .HFI_PROPERTY_PARAM_VENC_LTRMODE)
    let pkt := set_hfi E pkt "hfi_ltr_mode" "ltr_mode" (to_hfi_ltr_mode E hal.mode)
    let pkt := set_hfi E pkt "hfi_ltr_mode" "ltr_count" hal.count
    let pkt := set_hfi E pkt "hfi_ltr_mode" "trust_mode" hal.trust_mode
    (0, add_size pkt (4 + E.sizeof "hfi_ltr_mode"))
  | .HAL_CONFIG_VENC_USELTRFRAME, hal =>
    let pkt := set_word pkt 0 (E.val .HFI_PROPERTY_CONFIG_VENC_USELTRFRAME)
    let pkt := set_hfi E pkt "hfi_ltr_use" "frames" hal.frames
    let pkt := set_hfi E pkt "hfi_ltr_use" "ref_ltr" hal.ref_ltr
    let pkt := set_hfi E pkt "hfi_ltr_use" "use_constrnt" hal.use_constraint
    (0, add_size pkt (4 + E.sizeof "hfi_ltr_use"))
  | .HAL_CONFIG_VENC_MARKLTRFRAME, hal =>
    let pkt := set_word pkt 0 (E.val .HFI_PROPERTY_CONFIG_VENC_MARKLTRFRAME)
    let pkt := set_hfi E pkt "hfi_ltr_mark" "mark_frame" hal.mark_frame
    (0, add_size pkt (4 + E.sizeof "hfi_ltr_mark"))
  | .HAL_PARAM_VENC_HIER_P_MAX_ENH_LAYERS, pdata =>
    let pkt := set_word pkt 0 (E.val .HFI_PROPERTY_PARAM_VENC_HIER_P_MAX_NUM_ENH_LAYER)
    let pkt := set_word pkt 1 pdata
    (0, add_size pkt (4 * 2))
  | .HAL_CONFIG_VENC_HIER_P_NUM_FRAMES, pdata =>
    let pkt := set_word pkt 0 (E.val .HFI_PROPERTY_CONFIG_VENC_HIER_P_ENH_LAYER)
    let pkt := set_word pkt 1 pdata
    (0, add_size pkt (4 * 2))
  | .HAL_PARAM_VENC_DISABLE_RC_TIMESTAMP, prop =>
    let pkt := set_word pkt 0 (E.val .HFI_PROPERTY_PARAM_VENC_DISABLE_RC_TIMESTAMP)
    let pkt := set_hfi E pkt "hfi_enable" "enable" prop.enable
    (0, add_size pkt (4 * 2))
  | .HAL_PARAM_VENC_ENABLE_INITIAL_QP, quant =>
    let pkt := set_word pkt 0 (E.val .HFI_PROPERTY_PARAM_VENC_INITIAL_QP)
    let pkt := set_hfi E pkt "hfi_initial_quantization" "init_qp_enable" quant.init_qp_enable
    let pkt := set_hfi E pkt "hfi_initial_quantization" "qp_i" quant.qpi
    let pkt := set_hfi E pkt "hfi_initial_quantization" "qp_p" quant.qpp
    let pkt := set_hfi E pkt "hfi_initial_quantization" "qp_b" quant.qpb
    (0, add_size pkt (4 + E.sizeof "hfi_initial_quantization"))
  | .HAL_PARAM_VPE_COLOR_SPACE_CONVERSION, hal =>
    let pkt := set_word pkt 0 (E.val .HFI_PROPERTY_PARAM_VPE_COLOR_SPACE_CONVERSION)
    let pkt := memcpy_words pkt (1 + E.word_of "hfi_vpe_color_space_conversion" "csc_matrix")
      hal.csc_matrix
      (E.sizeof "hfi_vpe_color_space_conversion.csc_matrix")
    let pkt := memcpy_words pkt (1 + E.word_of "hfi_vpe_color_space_conversion" "csc_bias")
      hal.csc_bias
      (E.sizeof "hfi_vpe_color_space_conversion.csc_bias")
    let pkt := memcpy_words pkt (1 + E.word_of "hfi_vpe_color_space_conversion" "csc_limit")
      hal.csc_limit
      (E.sizeof "hfi_vpe_color_space_conversion.csc_limit")
    (0, add_size pkt (4 + E.sizeof "hfi_vpe_color_space_conversion"))
  | .HAL_PARAM_VENC_VPX_ERROR_RESILIENCE_MODE, prop =>
    let pkt := set_word pkt 0 (E.val .HFI_PROPERTY_PARAM_VENC_VPX_ERROR_RESILIENCE_MODE)
    let pkt := set_hfi E pkt "hfi_enable" "enable" prop.enable
    (0, add_size pkt (4 + E.sizeof "hfi_enable"))
  | .HAL_PARAM_VENC_H264_NAL_SVC_EXT, prop =>
    let pkt := set_word pkt 0 (E.val .HFI_PROPERTY_PARAM_VENC_H264_NAL_SVC_EXT)
    let pkt := set_hfi E pkt "hfi_enable" "enable" prop.enable
    (0, add_size pkt (4 + E.sizeof "hfi_enable"))
  | .HAL_CONFIG_VENC_PERF_MODE, pdata =>
    let pkt := set_word pkt 0 (E.val .HFI_PROPERTY_CONFIG_VENC_PERF_MODE)
    let pkt := set_word pkt 1 pdata
    (0, add_size pkt (4 * 2))
  | .HAL_PARAM_VENC_HIER_B_MAX_ENH_LAYERS, pdata =>
    let pkt := set_word pkt 0 (E.val .HFI_PROPERTY_PARAM_VENC_HIER_B_MAX_NUM_ENH_LAYER)
    let pkt := set_word pkt 1 pdata
    (0, add_size pkt (4 * 2))
  | .HAL_PARAM_VDEC_NON_SECURE_OUTPUT2, prop =>
    let pkt := set_word pkt 0 (E.val .HFI_PROPERTY_PARAM_VDEC_NONCP_OUTPUT2)
    let pkt := set_hfi E pkt "hfi_enable" "enable" prop.enable
    (0, add_size pkt (4 + E.sizeof "hfi_enable"))
  | .HAL_PARAM_VENC_HIER_P_HYBRID_MODE, prop =>
    let pkt := set_word pkt 0 (E.val .HFI_PROPERTY_PARAM_VENC_HIER_P_HYBRID_MODE)
    let pkt := set_word pkt 1 prop.layers
    (0, add_size pkt (4 + E.sizeof "hfi_hybrid_hierp"))
  | .HAL_CONFIG_BUFFER_REQUIREMENTS, _ => (-ENOTSUPP, pkt)
  | .HAL_CONFIG_PRIORITY, _ => (-ENOTSUPP, pkt)
  | .HAL_CONFIG_BATCH_INFO, _ => (-ENOTSUPP, pkt)
  | .HAL_PARAM_METADATA_PASS_THROUGH, _ => (-ENOTSUPP, pkt)
  | .HAL_SYS_IDLE_INDICATOR, _ => (-ENOTSUPP, pkt)
  | .HAL_PARAM_UNCOMPRESSED_FORMAT_SUPPORTED, _ => (-ENOTSUPP, pkt)
  | .HAL_PARAM_INTERLACE_FORMAT_SUPPORTED, _ => (-ENOTSUPP, pkt)
  | .HAL_PARAM_CHROMA_SITE, _ => (-ENOTSUPP, pkt)
  | .HAL_PARAM_PROPERTIES_SUPPORTED, _ => (-ENOTSUPP, pkt)
  | .HAL_PARAM_PROFILE_LEVEL_SUPPORTED, _ => (-ENOTSUPP, pkt)
  | .HAL_PARAM_CAPABILITY_SUPPORTED, _ => (-ENOTSUPP, pkt)
  | .HAL_PARAM_NAL_STREAM_FORMAT_SUPPORTED, _ => (-ENOTSUPP, pkt)
  | .HAL_PARAM_MULTI_VIEW_FORMAT, _ => (-ENOTSUPP, pkt)
  | .HAL_PARAM_MAX_SEQUENCE_HEADER_SIZE, _ => (-ENOTSUPP, pkt)
  | .HAL_PARAM_CODEC_SUPPORTED, _ => (-ENOTSUPP, pkt)
  | .HAL_PARAM_VDEC_MULTI_VIEW_SELECT, _ => (-ENOTSUPP, pkt)
  | .HAL_PARAM_VDEC_MB_QUANTIZATION, _ => (-ENOTSUPP, pkt)
  | .HAL_PARAM_VDEC_NUM_CONCEALED_MB, _ => (-ENOTSUPP, pkt)
  | .HAL_PARAM_VDEC_H264_ENTROPY_SWITCHING, _ => (-ENOTSUPP, pkt)
  | .HAL_PARAM_VENC_MPEG4_DATA_PARTITIONING, _ => (-ENOTSUPP, pkt)
  | .HAL_CONFIG_BUFFER_COUNT_ACTUAL, _ => (-ENOTSUPP, pkt)
  | .HAL_CONFIG_VDEC_MULTI_STREAM, _ => (-ENOTSUPP, pkt)
  | .HAL_PARAM_VENC_MULTI_SLICE_INFO, _ => (-ENOTSUPP, pkt)
  | .HAL_CONFIG_VENC_TIMESTAMP_SCALE, _ => (-ENOTSUPP, pkt)
  | .HAL_PARAM_VENC_LOW_LATENCY, _ => (-ENOTSUPP, pkt)
  | _, _ => (-ENOTSUPP, pkt)


/-! ## The cases of the property switch -/

/-- Whether a property identifier is one of the case labels of the switch of
pkt_session_set_property. -/
def has_case : hal_property → Bool
  | .HAL_CONFIG_FRAME_RATE | .HAL_PARAM_UNCOMPRESSED_FORMAT_SELECT
  | .HAL_PARAM_UNCOMPRESSED_PLANE_ACTUAL_CONSTRAINTS_INFO
  | .HAL_PARAM_UNCOMPRESSED_PLANE_ACTUAL_INFO | .HAL_PARAM_EXTRA_DATA_HEADER_CONFIG
  | .HAL_PARAM_FRAME_SIZE | .HAL_CONFIG_REALTIME | .HAL_PARAM_BUFFER_COUNT_ACTUAL
  | .HAL_PARAM_BUFFER_SIZE_ACTUAL | .HAL_PARAM_BUFFER_DISPLAY_HOLD_COUNT_ACTUAL
  | .HAL_PARAM_NAL_STREAM_FORMAT_SELECT | .HAL_PARAM_VDEC_OUTPUT_ORDER
  | .HAL_PARAM_VDEC_PICTURE_TYPE_DECODE | hal_property.HAL_PARAM_VDEC_OUTPUT2_KEEP_ASPECT_RATIO
  | .HAL_CONFIG_VDEC_POST_LOOP_DEBLOCKER | .HAL_PARAM_VDEC_MULTI_STREAM
  | .HAL_PARAM_VDEC_DISPLAY_PICTURE_BUFFER_COUNT | .HAL_PARAM_DIVX_FORMAT
  | .HAL_CONFIG_VDEC_MB_ERROR_MAP_REPORTING | .HAL_PARAM_VDEC_CONTINUE_DATA_TRANSFER
  | .HAL_PARAM_VDEC_SYNC_FRAME_DECODE | .HAL_PARAM_VENC_SYNC_FRAME_SEQUENCE_HEADER
  | .HAL_CONFIG_VENC_REQUEST_IFRAME | .HAL_PARAM_VENC_MPEG4_SHORT_HEADER
  | .HAL_PARAM_VENC_MPEG4_AC_PREDICTION | .HAL_CONFIG_VENC_TARGET_BITRATE
  | .HAL_CONFIG_VENC_MAX_BITRATE | .HAL_PARAM_PROFILE_LEVEL_CURRENT
  | .HAL_PARAM_VENC_H264_ENTROPY_CONTROL | .HAL_PARAM_VENC_RATE_CONTROL
  | .HAL_PARAM_VENC_MPEG4_TIME_RESOLUTION | .HAL_PARAM_VENC_MPEG4_HEADER_EXTENSION
  | .HAL_PARAM_VENC_H264_DEBLOCK_CONTROL | .HAL_PARAM_VENC_SESSION_QP
  | .HAL_PARAM_VENC_SESSION_QP_RANGE | .HAL_PARAM_VENC_SEARCH_RANGE
  | .HAL_PARAM_VENC_MAX_NUM_B_FRAMES | .HAL_CONFIG_VENC_INTRA_PERIOD
  | .HAL_CONFIG_VENC_IDR_PERIOD | .HAL_PARAM_VDEC_CONCEAL_COLOR | .HAL_CONFIG_VPE_OPERATIONS
  | .HAL_PARAM_VENC_INTRA_REFRESH | .HAL_PARAM_VENC_MULTI_SLICE_CONTROL
  | .HAL_PARAM_INDEX_EXTRADATA | .HAL_PARAM_VENC_SLICE_DELIVERY_MODE
  | .HAL_PARAM_VENC_H264_VUI_TIMING_INFO | .HAL_CONFIG_VPE_DEINTERLACE
  | .HAL_PARAM_VENC_H264_GENERATE_AUDNAL | .HAL_PARAM_BUFFER_ALLOC_MODE
  | .HAL_PARAM_VDEC_FRAME_ASSEMBLY | .HAL_PARAM_VENC_H264_VUI_BITSTREAM_RESTRC
  | .HAL_PARAM_VENC_PRESERVE_TEXT_QUALITY | .HAL_PARAM_VDEC_SCS_THRESHOLD
  | .HAL_PARAM_MVC_BUFFER_LAYOUT | .HAL_PARAM_VENC_LTRMODE | .HAL_CONFIG_VENC_USELTRFRAME
  | .HAL_CONFIG_VENC_MARKLTRFRAME | .HAL_PARAM_VENC_HIER_P_MAX_ENH_LAYERS
  | .HAL_CONFIG_VENC_HIER_P_NUM_FRAMES | .HAL_PARAM_VENC_DISABLE_RC_TIMESTAMP
  | .HAL_PARAM_VENC_ENABLE_INITIAL_QP | .HAL_PARAM_VPE_COLOR_SPACE_CONVERSION
  | .HAL_PARAM_VENC_VPX_ERROR_RESILIENCE_MODE | .HAL_PARAM_VENC_H264_NAL_SVC_EXT
  | .HAL_CONFIG_VENC_PERF_MODE | .HAL_PARAM_VENC_HIER_B_MAX_ENH_LAYERS
  | .HAL_PARAM_VDEC_NON_SECURE_OUTPUT2 | .HAL_PARAM_VENC_HIER_P_HYBRID_MODE
  | .HAL_CONFIG_BUFFER_REQUIREMENTS | .HAL_CONFIG_PRIORITY | .HAL_CONFIG_BATCH_INFO
  | .HAL_PARAM_METADATA_PASS_THROUGH | .HAL_SYS_IDLE_INDICATOR
  | .HAL_PARAM_UNCOMPRESSED_FORMAT_SUPPORTED | .HAL_PARAM_INTERLACE_FORMAT_SUPPORTED
  | .HAL_PARAM_CHROMA_SITE | .HAL_PARAM_PROPERTIES_SUPPORTED
  | .HAL_PARAM_PROFILE_LEVEL_SUPPORTED | .HAL_PARAM_CAPABILITY_SUPPORTED
  | .HAL_PARAM_NAL_STREAM_FORMAT_SUPPORTED | .HAL_PARAM_MULTI_VIEW_FORMAT
  | .HAL_PARAM_MAX_SEQUENCE_HEADER_SIZE | .HAL_PARAM_CODEC_SUPPORTED
  | .HAL_PARAM_VDEC_MULTI_VIEW_SELECT | .HAL_PARAM_VDEC_MB_QUANTIZATION
  | .HAL_PARAM_VDEC_NUM_CONCEALED_MB | .HAL_PARAM_VDEC_H264_ENTROPY_SWITCHING
  | .HAL_PARAM_VENC_MPEG4_DATA_PARTITIONING | .HAL_CONFIG_BUFFER_COUNT_ACTUAL
  | .HAL_CONFIG_VDEC_MULTI_STREAM | .HAL_PARAM_VENC_MULTI_SLICE_INFO
  | .HAL_CONFIG_VENC_TIMESTAMP_SCALE | .HAL_PARAM_VENC_LOW_LATENCY => true
  | _ => false

/-- Whether a property identifier is in the explicit list of the properties that are not
implemented (lines 1676 to 1700). -/
def not_implemented : hal_property → Bool
  | .HAL_CONFIG_BUFFER_REQUIREMENTS | .HAL_CONFIG_PRIORITY | .HAL_CONFIG_BATCH_INFO
  | .HAL_PARAM_METADATA_PASS_THROUGH | .HAL_SYS_IDLE_INDICATOR
  | .HAL_PARAM_UNCOMPRESSED_FORMAT_SUPPORTED | .HAL_PARAM_INTERLACE_FORMAT_SUPPORTED
  | .HAL_PARAM_CHROMA_SITE | .HAL_PARAM_PROPERTIES_SUPPORTED
  | .HAL_PARAM_PROFILE_LEVEL_SUPPORTED | .HAL_PARAM_CAPABILITY_SUPPORTED
  | .HAL_PARAM_NAL_STREAM_FORMAT_SUPPORTED | .HAL_PARAM_MULTI_VIEW_FORMAT
  | .HAL_PARAM_MAX_SEQUENCE_HEADER_SIZE | .HAL_PARAM_CODEC_SUPPORTED
  | .HAL_PARAM_VDEC_MULTI_VIEW_SELECT | .HAL_PARAM_VDEC_MB_QUANTIZATION
  | .HAL_PARAM_VDEC_NUM_CONCEALED_MB | .HAL_PARAM_VDEC_H264_ENTROPY_SWITCHING
  | .HAL_PARAM_VENC_MPEG4_DATA_PARTITIONING | .HAL_CONFIG_BUFFER_COUNT_ACTUAL
  | .HAL_CONFIG_VDEC_MULTI_STREAM | .HAL_PARAM_VENC_MULTI_SLICE_INFO
  | .HAL_CONFIG_VENC_TIMESTAMP_SCALE | .HAL_PARAM_VENC_LOW_LATENCY => true
  | _ => false

/-- Whether the case of a property identifier is a bare break: it stores no tag and no
payload and adds nothing to size. -/
def placeholder : hal_property → Bool
  | .HAL_PARAM_UNCOMPRESSED_PLANE_ACTUAL_CONSTRAINTS_INFO
  | .HAL_PARAM_UNCOMPRESSED_PLANE_ACTUAL_INFO | .HAL_PARAM_EXTRA_DATA_HEADER_CONFIG
  | .HAL_PARAM_VENC_MPEG4_SHORT_HEADER | .HAL_PARAM_VENC_MPEG4_AC_PREDICTION => true
  | _ => false

/-- The wire tag that the case of a property stores in rg_property_data[0]: the
HFI_PROPERTY_* constant assigned there, and for HAL_PARAM_INDEX_EXTRADATA the result of
to_hfi_extradata_index; none for an identifier whose case stores no tag. -/
def property_tag (E : hdr) (ptype : hal_property) (pdata : pdata_of ptype) : Option Nat :=
  match ptype, pdata with
  | .HAL_CONFIG_FRAME_RATE, _ => some (E.val .HFI_PROPERTY_CONFIG_FRAME_RATE)
  | .HAL_PARAM_UNCOMPRESSED_FORMAT_SELECT, _ =>
    some (E.val .HFI_PROPERTY_PARAM_UNCOMPRESSED_FORMAT_SELECT)
  | .HAL_PARAM_FRAME_SIZE, _ => some (E.val .HFI_PROPERTY_PARAM_FRAME_SIZE)
  | .HAL_CONFIG_REALTIME, _ => some (E.val .HFI_PROPERTY_CONFIG_REALTIME)
  | .HAL_PARAM_BUFFER_COUNT_ACTUAL, _ => some (E.val .HFI_PROPERTY_PARAM_BUFFER_COUNT_ACTUAL)
  | .HAL_PARAM_BUFFER_SIZE_ACTUAL, _ => some (E.val .HFI_PROPERTY_PARAM_BUFFER_SIZE_ACTUAL)
  | .HAL_PARAM_BUFFER_DISPLAY_HOLD_COUNT_ACTUAL, _ =>
    some (E.val .HFI_PROPERTY_PARAM_BUFFER_DISPLAY_HOLD_COUNT_ACTUAL)
  | .HAL_PARAM_NAL_STREAM_FORMAT_SELECT, _ =>
    some (E.val .HFI_PROPERTY_PARAM_NAL_STREAM_FORMAT_SELECT)
  | .HAL_PARAM_VDEC_OUTPUT_ORDER, _ => some (E.val .HFI_PROPERTY_PARAM_VDEC_OUTPUT_ORDER)
  | .HAL_PARAM_VDEC_PICTURE_TYPE_DECODE, _ =>
    some (E.val .HFI_PROPERTY_PARAM_VDEC_PICTURE_TYPE_DECODE)
  | hal_property.HAL_PARAM_VDEC_OUTPUT2_KEEP_ASPECT_RATIO, _ =>
    some (E.val hdr_const.HFI_PROPERTY_PARAM_VDEC_OUTPUT2_KEEP_ASPECT_RATIO)
  | .HAL_CONFIG_VDEC_POST_LOOP_DEBLOCKER, _ =>
    some (E.val .HFI_PROPERTY_CONFIG_VDEC_POST_LOOP_DEBLOCKER)
  | .HAL_PARAM_VDEC_MULTI_STREAM, _ => some (E.val .HFI_PROPERTY_PARAM_VDEC_MULTI_STREAM)
  | .HAL_PARAM_VDEC_DISPLAY_PICTURE_BUFFER_COUNT, _ =>
    some (E.val .HFI_PROPERTY_PARAM_VDEC_DISPLAY_PICTURE_BUFFER_COUNT)
  | .HAL_PARAM_DIVX_FORMAT, _ => some (E.val .HFI_PROPERTY_PARAM_DIVX_FORMAT)
  | .HAL_CONFIG_VDEC_MB_ERROR_MAP_REPORTING, _ =>
    some (E.val .HFI_PROPERTY_CONFIG_VDEC_MB_ERROR_MAP_REPORTING)
  | .HAL_PARAM_VDEC_CONTINUE_DATA_TRANSFER, _ =>
    some (E.val .HFI_PROPERTY_PARAM_VDEC_CONTINUE_DATA_TRANSFER)
  | .HAL_PARAM_VDEC_SYNC_FRAME_DECODE, _ => some (E.val .HFI_PROPERTY_PARAM_VDEC_THUMBNAIL_MODE)
  | .HAL_PARAM_VENC_SYNC_FRAME_SEQUENCE_HEADER, _ =>
    some (E.val .HFI_PROPERTY_CONFIG_VENC_SYNC_FRAME_SEQUENCE_HEADER)
  | .HAL_CONFIG_VENC_REQUEST_IFRAME, _ => some (E.val .HFI_PROPERTY_CONFIG_VENC_REQUEST_SYNC_FRAME)
  | .HAL_CONFIG_VENC_TARGET_BITRATE, _ => some (E.val .HFI_PROPERTY_CONFIG_VENC_TARGET_BITRATE)
  | .HAL_CONFIG_VENC_MAX_BITRATE, _ => some (E.val .HFI_PROPERTY_CONFIG_VENC_MAX_BITRATE)
  | .HAL_PARAM_PROFILE_LEVEL_CURRENT, _ => some (E.val .HFI_PROPERTY_PARAM_PROFILE_LEVEL_CURRENT)
  | .HAL_PARAM_VENC_H264_ENTROPY_CONTROL, _ =>
    some (E.val .HFI_PROPERTY_PARAM_VENC_H264_ENTROPY_CONTROL)
  | .HAL_PARAM_VENC_RATE_CONTROL, _ => some (E.val .HFI_PROPERTY_PARAM_VENC_RATE_CONTROL)
  | .HAL_PARAM_VENC_MPEG4_TIME_RESOLUTION, _ =>
    some (E.val .HFI_PROPERTY_PARAM_VENC_MPEG4_TIME_RESOLUTION)
  | .HAL_PARAM_VENC_MPEG4_HEADER_EXTENSION, _ =>
    some (E.val .HFI_PROPERTY_PARAM_VENC_MPEG4_HEADER_EXTENSION)
  | .HAL_PARAM_VENC_H264_DEBLOCK_CONTROL, _ =>
    some (E.val .HFI_PROPERTY_PARAM_VENC_H264_DEBLOCK_CONTROL)
  | .HAL_PARAM_VENC_SESSION_QP, _ => some (E.val .HFI_PROPERTY_PARAM_VENC_SESSION_QP)
  | .HAL_PARAM_VENC_SESSION_QP_RANGE, _ => some (E.val .HFI_PROPERTY_PARAM_VENC_SESSION_QP_RANGE)
  | .HAL_PARAM_VENC_SEARCH_RANGE, _ => some (E.val .HFI_PROPERTY_PARAM_VENC_VC1_PERF_CFG)
  | .HAL_PARAM_VENC_MAX_NUM_B_FRAMES, _ => some (E.val .HFI_PROPERTY_PARAM_VENC_MAX_NUM_B_FRAMES)
  | .HAL_CONFIG_VENC_INTRA_PERIOD, _ => some (E.val .HFI_PROPERTY_CONFIG_VENC_INTRA_PERIOD)
  | .HAL_CONFIG_VENC_IDR_PERIOD, _ => some (E.val .HFI_PROPERTY_CONFIG_VENC_IDR_PERIOD)
  | .HAL_PARAM_VDEC_CONCEAL_COLOR, _ => some (E.val .HFI_PROPERTY_PARAM_VDEC_CONCEAL_COLOR)
  | .HAL_CONFIG_VPE_OPERATIONS, _ => some (E.val .HFI_PROPERTY_CONFIG_VPE_OPERATIONS)
  | .HAL_PARAM_VENC_INTRA_REFRESH, _ => some (E.val .HFI_PROPERTY_PARAM_VENC_INTRA_REFRESH)
  | .HAL_PARAM_VENC_MULTI_SLICE_CONTROL, _ =>
    some (E.val .HFI_PROPERTY_PARAM_VENC_MULTI_SLICE_CONTROL)
  | .HAL_PARAM_INDEX_EXTRADATA, extra => some (u32 (to_hfi_extradata_index E extra.index))
  | .HAL_PARAM_VENC_SLICE_DELIVERY_MODE, _ =>
    some (E.val .HFI_PROPERTY_PARAM_VENC_SLICE_DELIVERY_MODE)
  | .HAL_PARAM_VENC_H264_VUI_TIMING_INFO, _ =>
    some (E.val .HFI_PROPERTY_PARAM_VENC_H264_VUI_TIMING_INFO)
  | .HAL_CONFIG_VPE_DEINTERLACE, _ => some (E.val .HFI_PROPERTY_CONFIG_VPE_DEINTERLACE)
  | .HAL_PARAM_VENC_H264_GENERATE_AUDNAL, _ =>
    some (E.val .HFI_PROPERTY_PARAM_VENC_H264_GENERATE_AUDNAL)
  | .HAL_PARAM_BUFFER_ALLOC_MODE, _ => some (E.val .HFI_PROPERTY_PARAM_BUFFER_ALLOC_MODE)
  | .HAL_PARAM_VDEC_FRAME_ASSEMBLY, _ => some (E.val .HFI_PROPERTY_PARAM_VDEC_FRAME_ASSEMBLY)
  | .HAL_PARAM_VENC_H264_VUI_BITSTREAM_RESTRC, _ =>
    some (E.val .HFI_PROPERTY_PARAM_VENC_H264_VUI_BITSTREAM_RESTRC)
  | .HAL_PARAM_VENC_PRESERVE_TEXT_QUALITY, _ =>
    some (E.val .HFI_PROPERTY_PARAM_VENC_PRESERVE_TEXT_QUALITY)
  | .HAL_PARAM_VDEC_SCS_THRESHOLD, _ => some (E.val .HFI_PROPERTY_PARAM_VDEC_SCS_THRESHOLD)
  | .HAL_PARAM_MVC_BUFFER_LAYOUT, _ => some (E.val .HFI_PROPERTY_PARAM_MVC_BUFFER_LAYOUT)
  | .HAL_PARAM_VENC_LTRMODE, _ => some (E.val .HFI_PROPERTY_PARAM_VENC_LTRMODE)
  | .HAL_CONFIG_VENC_USELTRFRAME, _ => some (E.val .HFI_PROPERTY_CONFIG_VENC_USELTRFRAME)
  | .HAL_CONFIG_VENC_MARKLTRFRAME, _ => some (E.val .HFI_PROPERTY_CONFIG_VENC_MARKLTRFRAME)
  | .HAL_PARAM_VENC_HIER_P_MAX_ENH_LAYERS, _ =>
    some (E.val .HFI_PROPERTY_PARAM_VENC_HIER_P_MAX_NUM_ENH_LAYER)
  | .HAL_CONFIG_VENC_HIER_P_NUM_FRAMES, _ => some (E.val .HFI_PROPERTY_CONFIG_VENC_HIER_P_ENH_LAYER)
  | .HAL_PARAM_VENC_DISABLE_RC_TIMESTAMP, _ =>
    some (E.val .HFI_PROPERTY_PARAM_VENC_DISABLE_RC_TIMESTAMP)
  | .HAL_PARAM_VENC_ENABLE_INITIAL_QP, _ => some (E.val .HFI_PROPERTY_PARAM_VENC_INITIAL_QP)
  | .HAL_PARAM_VPE_COLOR_SPACE_CONVERSION, _ =>
    some (E.val .HFI_PROPERTY_PARAM_VPE_COLOR_SPACE_CONVERSION)
  | .HAL_PARAM_VENC_VPX_ERROR_RESILIENCE_MODE, _ =>
    some (E.val .HFI_PROPERTY_PARAM_VENC_VPX_ERROR_RESILIENCE_MODE)
  | .HAL_PARAM_VENC_H264_NAL_SVC_EXT, _ => some (E.val .HFI_PROPERTY_PARAM_VENC_H264_NAL_SVC_EXT)
  | .HAL_CONFIG_VENC_PERF_MODE, _ => some (E.val .HFI_PROPERTY_CONFIG_VENC_PERF_MODE)
  | .HAL_PARAM_VENC_HIER_B_MAX_ENH_LAYERS, _ =>
    some (E.val .HFI_PROPERTY_PARAM_VENC_HIER_B_MAX_NUM_ENH_LAYER)
  | .HAL_PARAM_VDEC_NON_SECURE_OUTPUT2, _ => some (E.val .HFI_PROPERTY_PARAM_VDEC_NONCP_OUTPUT2)
  | .HAL_PARAM_VENC_HIER_P_HYBRID_MODE, _ =>
    some (E.val .HFI_PROPERTY_PARAM_VENC_HIER_P_HYBRID_MODE)
  | _, _ => none

/-- The size in bytes of the payload that the case of a property puts after the tag: the
sizeof of the payload struct of the case, 4 for a case whose payload is one bare 32-bit
word, and 0 for HAL_CONFIG_VENC_REQUEST_IFRAME, which has no payload. -/
def property_payload_size (E : hdr) : hal_property → Nat
  | .HAL_CONFIG_FRAME_RATE => E.sizeof "hfi_frame_rate"
  | .HAL_PARAM_UNCOMPRESSED_FORMAT_SELECT => E.sizeof "hfi_uncompressed_format_select"
  | .HAL_PARAM_FRAME_SIZE => E.sizeof "hfi_frame_size"
  | .HAL_CONFIG_REALTIME => E.sizeof "hfi_enable"
  | .HAL_PARAM_BUFFER_COUNT_ACTUAL => E.sizeof "hfi_buffer_count_actual"
  | .HAL_PARAM_BUFFER_SIZE_ACTUAL => E.sizeof "hfi_buffer_size_actual"
  | .HAL_PARAM_BUFFER_DISPLAY_HOLD_COUNT_ACTUAL => E.sizeof "hfi_buffer_display_hold_count_actual"
  | .HAL_PARAM_NAL_STREAM_FORMAT_SELECT => E.sizeof "hfi_nal_stream_format_select"
  | .HAL_PARAM_VDEC_OUTPUT_ORDER => 4
  | .HAL_PARAM_VDEC_PICTURE_TYPE_DECODE => E.sizeof "hfi_enable_picture"
  | hal_property.HAL_PARAM_VDEC_OUTPUT2_KEEP_ASPECT_RATIO => E.sizeof "hfi_enable"
  | .HAL_CONFIG_VDEC_POST_LOOP_DEBLOCKER => E.sizeof "hfi_enable"
  | .HAL_PARAM_VDEC_MULTI_STREAM => E.sizeof "hfi_multi_stream"
  | .HAL_PARAM_VDEC_DISPLAY_PICTURE_BUFFER_COUNT => E.sizeof "hfi_display_picture_buffer_count"
  | .HAL_PARAM_DIVX_FORMAT => 4
  | .HAL_CONFIG_VDEC_MB_ERROR_MAP_REPORTING => E.sizeof "hfi_enable"
  | .HAL_PARAM_VDEC_CONTINUE_DATA_TRANSFER => E.sizeof "hfi_enable"
  | .HAL_PARAM_VDEC_SYNC_FRAME_DECODE => E.sizeof "hfi_enable"
  | .HAL_PARAM_VENC_SYNC_FRAME_SEQUENCE_HEADER => E.sizeof "hfi_enable"
  | .HAL_CONFIG_VENC_REQUEST_IFRAME => 0
  | .HAL_CONFIG_VENC_TARGET_BITRATE => E.sizeof "hfi_bitrate"
  | .HAL_CONFIG_VENC_MAX_BITRATE => E.sizeof "hfi_bitrate"
  | .HAL_PARAM_PROFILE_LEVEL_CURRENT => E.sizeof "hfi_profile_level"
  | .HAL_PARAM_VENC_H264_ENTROPY_CONTROL => E.sizeof "hfi_h264_entropy_control"
  | .HAL_PARAM_VENC_RATE_CONTROL => 4
  | .HAL_PARAM_VENC_MPEG4_TIME_RESOLUTION => E.sizeof "hfi_mpeg4_time_resolution"
  | .HAL_PARAM_VENC_MPEG4_HEADER_EXTENSION => E.sizeof "hfi_mpeg4_header_extension"
  | .HAL_PARAM_VENC_H264_DEBLOCK_CONTROL => E.sizeof "hfi_h264_db_control"
  | .HAL_PARAM_VENC_SESSION_QP => E.sizeof "hfi_quantization"
  | .HAL_PARAM_VENC_SESSION_QP_RANGE => E.sizeof "hfi_quantization_range"
  | .HAL_PARAM_VENC_SEARCH_RANGE => E.sizeof "hfi_vc1e_perf_cfg_type"
  | .HAL_PARAM_VENC_MAX_NUM_B_FRAMES => E.sizeof "hfi_max_num_b_frames"
  | .HAL_CONFIG_VENC_INTRA_PERIOD => E.sizeof "hfi_intra_period"
  | .HAL_CONFIG_VENC_IDR_PERIOD => E.sizeof "hfi_idr_period"
  | .HAL_PARAM_VDEC_CONCEAL_COLOR => E.sizeof "hfi_conceal_color"
  | .HAL_CONFIG_VPE_OPERATIONS => E.sizeof "hfi_operations_type"
  | .HAL_PARAM_VENC_INTRA_REFRESH => E.sizeof "hfi_intra_refresh"
  | .HAL_PARAM_VENC_MULTI_SLICE_CONTROL => E.sizeof "hfi_multi_slice_control"
  | .HAL_PARAM_INDEX_EXTRADATA => E.sizeof "hfi_index_extradata_config"
  | .HAL_PARAM_VENC_SLICE_DELIVERY_MODE => E.sizeof "hfi_enable"
  | .HAL_PARAM_VENC_H264_VUI_TIMING_INFO => E.sizeof "hfi_h264_vui_timing_info"
  | .HAL_CONFIG_VPE_DEINTERLACE => E.sizeof "hfi_enable"
  | .HAL_PARAM_VENC_H264_GENERATE_AUDNAL => E.sizeof "hfi_enable"
  | .HAL_PARAM_BUFFER_ALLOC_MODE => E.sizeof "hfi_buffer_alloc_mode"
  | .HAL_PARAM_VDEC_FRAME_ASSEMBLY => E.sizeof "hfi_enable"
  | .HAL_PARAM_VENC_H264_VUI_BITSTREAM_RESTRC => E.sizeof "hfi_enable"
  | .HAL_PARAM_VENC_PRESERVE_TEXT_QUALITY => E.sizeof "hfi_enable"
  | .HAL_PARAM_VDEC_SCS_THRESHOLD => E.sizeof "hfi_scs_threshold"
  | .HAL_PARAM_MVC_BUFFER_LAYOUT => E.sizeof "hfi_mvc_buffer_layout_descp_type"
  | .HAL_PARAM_VENC_LTRMODE => E.sizeof "hfi_ltr_mode"
  | .HAL_CONFIG_VENC_USELTRFRAME => E.sizeof "hfi_ltr_use"
  | .HAL_CONFIG_VENC_MARKLTRFRAME => E.sizeof "hfi_ltr_mark"
  | .HAL_PARAM_VENC_HIER_P_MAX_ENH_LAYERS => 4
  | .HAL_CONFIG_VENC_HIER_P_NUM_FRAMES => 4
  | .HAL_PARAM_VENC_DISABLE_RC_TIMESTAMP => E.sizeof "hfi_enable"
  | .HAL_PARAM_VENC_ENABLE_INITIAL_QP => E.sizeof "hfi_initial_quantization"
  | .HAL_PARAM_VPE_COLOR_SPACE_CONVERSION => E.sizeof "hfi_vpe_color_space_conversion"
  | .HAL_PARAM_VENC_VPX_ERROR_RESILIENCE_MODE => E.sizeof "hfi_enable"
  | .HAL_PARAM_VENC_H264_NAL_SVC_EXT => E.sizeof "hfi_enable"
  | .HAL_CONFIG_VENC_PERF_MODE => 4
  | .HAL_PARAM_VENC_HIER_B_MAX_ENH_LAYERS => 4
  | .HAL_PARAM_VDEC_NON_SECURE_OUTPUT2 => E.sizeof "hfi_enable"
  | .HAL_PARAM_VENC_HIER_P_HYBRID_MODE => E.sizeof "hfi_hybrid_hierp"
  | _ => 0

/-- The payload structs of the cases that count their payload as one 32-bit word, with
size += sizeof(u32) * 2, in place of the sizeof of the struct. -/
def one_word_structs : List String :=
  ["hfi_conceal_color", "hfi_enable", "hfi_enable_picture", "hfi_idr_period",
   "hfi_mpeg4_header_extension", "hfi_mpeg4_time_resolution"]

/-! ## The operation table -/

/-- The enum hfi_packetization_type, the protocol revision asked of hfi_get_pkt_ops. -/
inductive hfi_packetization_type where
  | HFI_PACKETIZATION_LEGACY | HFI_PACKETIZATION_3XX
  | unlisted (v : Int)
  deriving DecidableEq

/-- The packet encoders defined in the source, as the values that a function pointer of the
operation table can take: a pointer to one of them is the name of that function. -/
inductive pkt_encoder where
  | pkt_sys_init | pkt_sys_pc_prep | pkt_sys_idle_indicator | pkt_sys_power_control
  | pkt_sys_set_resource | pkt_sys_debug_config | pkt_sys_coverage_config
  | pkt_sys_release_resource | pkt_sys_ping | pkt_sys_image_version | pkt_ssr_cmd
  | pkt_session_init | pkt_session_cmd | pkt_session_set_buffers | pkt_session_release_buffers
  | pkt_session_etb_decoder | pkt_session_etb_encoder | pkt_session_ftb
  | pkt_session_parse_seq_header | pkt_session_get_seq_hdr | pkt_session_flush
  | pkt_session_get_property | pkt_session_set_property
  deriving DecidableEq

/-- The struct hfi_packetization_ops, with the members that the source initialises.  Each
member is a function pointer; the value none is the NULL pointer. -/
structure hfi_packetization_ops where
  sys_init : Option pkt_encoder
  sys_pc_prep : Option pkt_encoder
  sys_idle_indicator : Option pkt_encoder
  sys_power_control : Option pkt_encoder
  sys_set_resource : Option pkt_encoder
  sys_debug_config : Option pkt_encoder
  sys_coverage_config : Option pkt_encoder
  sys_release_resource : Option pkt_encoder
  sys_ping : Option pkt_encoder
  sys_image_version : Option pkt_encoder
  ssr_cmd : Option pkt_encoder
  session_init : Option pkt_encoder
  session_cmd : Option pkt_encoder
  session_set_buffers : Option pkt_encoder
  session_release_buffers : Option pkt_encoder
  session_etb_decoder : Option pkt_encoder
  session_etb_encoder : Option pkt_encoder
  session_ftb : Option pkt_encoder
  session_parse_seq_header : Option pkt_encoder
  session_get_seq_hdr : Option pkt_encoder
  session_flush : Option pkt_encoder
  session_get_property : Option pkt_encoder
  session_set_property : Option pkt_encoder
  deriving DecidableEq

/-- The table hfi_default (lines 1746 to 1770). -/
def hfi_default : hfi_packetization_ops where
  sys_init := some .pkt_sys_init
  sys_pc_prep := some .pkt_sys_pc_prep
  sys_idle_indicator := some .pkt_sys_idle_indicator
  sys_power_control := some .pkt_sys_power_control
  sys_set_resource := some .pkt_sys_set_resource
  sys_debug_config := some .pkt_sys_debug_config
  sys_coverage_config := some .pkt_sys_coverage_config
  sys_release_resource := some .pkt_sys_release_resource
  sys_ping := some .pkt_sys_ping
  sys_image_version := some .pkt_sys_image_version
  ssr_cmd := some .pkt_ssr_cmd
  session_init := some .pkt_session_init
  session_cmd := some .pkt_session_cmd
  session_set_buffers := some .pkt_session_set_buffers
  session_release_buffers := some .pkt_session_release_buffers
  session_etb_decoder := some .pkt_session_etb_decoder
  session_etb_encoder := some .pkt_session_etb_encoder
  session_ftb := some .pkt_session_ftb
  session_parse_seq_header := some .pkt_session_parse_seq_header
  session_get_seq_hdr := some .pkt_session_get_seq_hdr
  session_flush := some .pkt_session_flush
  session_get_property := some .pkt_session_get_property
  session_set_property := some .pkt_session_set_property

/-- The function get_venus_3_x_ops (lines 1772 to 1781): it returns the address of
hfi_default, no member is overridden. -/
def get_venus_3_x_ops : hfi_packetization_ops :=
  let hfi_venus_3_x := hfi_default
  hfi_venus_3_x

/-- The function hfi_get_pkt_ops (lines 1783 to 1799).  The result is a pointer to a table;
the value none is the NULL pointer returned after the switch. -/
def hfi_get_pkt_ops (type : hfi_packetization_type) : Option hfi_packetization_ops :=
  match type with
  | .HFI_PACKETIZATION_LEGACY => some hfi_default
  | .HFI_PACKETIZATION_3XX => some get_venus_3_x_ops
  | _ => none

/-- The 23 members of a table, in the order of the initialiser of hfi_default. -/
def ops_entries (t : hfi_packetization_ops) : List (Option pkt_encoder) :=
  [t.sys_init, t.sys_pc_prep, t.sys_idle_indicator, t.sys_power_control, t.sys_set_resource,
   t.sys_debug_config, t.sys_coverage_config, t.sys_release_resource, t.sys_ping,
   t.sys_image_version, t.ssr_cmd, t.session_init, t.session_cmd, t.session_set_buffers,
   t.session_release_buffers, t.session_etb_decoder, t.session_etb_encoder, t.session_ftb,
   t.session_parse_seq_header, t.session_get_seq_hdr, t.session_flush,
   t.session_get_property, t.session_set_property]

/-! ## System packet encoders -/

/-- The enum vidc_resource_id, as far as the source names it. -/
inductive vidc_resource_id where
  | VIDC_RESOURCE_OCMEM | VIDC_RESOURCE_VMEM
  | unlisted (v : Int)
  deriving DecidableEq

/-- The enum hal_ssr_trigger_type. -/
inductive hal_ssr_trigger_type where
  | SSR_ERR_FATAL | SSR_SW_DIV_BY_ZERO | SSR_HW_WDOG_IRQ
  | unlisted (v : Int)
  deriving DecidableEq

/-- The struct vidc_resource_hdr, with the members the source reads; resource_handle is a
pointer. -/
structure vidc_resource_hdr where
  resource_id : vidc_resource_id
  resource_handle : Nat
  size : Nat

/-- The struct hfi_sys_init_pkt. -/
structure hfi_sys_init_pkt where
  size : Nat
  packet_type : Nat
  arch_type : Nat

/-- The struct hfi_sys_pc_prep_pkt. -/
structure hfi_sys_pc_prep_pkt where
  size : Nat
  packet_type : Nat

/-- The struct hfi_sys_set_property_pkt. -/
structure hfi_sys_set_property_pkt where
  size : Nat
  packet_type : Nat
  num_properties : Nat
  rg_property_data : Nat → Nat

/-- The struct hfi_sys_set_resource_pkt. -/
structure hfi_sys_set_resource_pkt where
  size : Nat
  packet_type : Nat
  resource_handle : Nat
  resource_type : Nat
  rg_resource_data : Nat → Nat

/-- The struct hfi_sys_release_resource_pkt. -/
structure hfi_sys_release_resource_pkt where
  size : Nat
  packet_type : Nat
  resource_type : Nat
  resource_handle : Nat

/-- The struct hfi_cmd_sys_ping_packet, with the members the source writes. -/
structure hfi_cmd_sys_ping_packet where
  size : Nat
  packet_type : Nat

/-- The struct hfi_sys_test_ssr_pkt. -/
structure hfi_sys_test_ssr_pkt where
  size : Nat
  packet_type : Nat
  trigger_type : Nat

/-- The struct hfi_sys_get_property_pkt. -/
structure hfi_sys_get_property_pkt where
  size : Nat
  packet_type : Nat
  num_properties : Nat
  rg_property_data : Nat → Nat

/-- The function pkt_sys_init (lines 167 to 174). -/
def pkt_sys_init (E : hdr) (pkt : hfi_sys_init_pkt) (arch_type : Nat) :
    Int × hfi_sys_init_pkt :=
  let pkt := { pkt with packet_type := E.val .HFI_CMD_SYS_INIT }
  let pkt := { pkt with size := E.sizeof "hfi_sys_init_pkt" % 4294967296 }
  let pkt := { pkt with arch_type := arch_type }
  (0, pkt)

/-- The function pkt_sys_pc_prep (lines 176 to 182). -/
def pkt_sys_pc_prep (E : hdr) (pkt : hfi_sys_pc_prep_pkt) : Int × hfi_sys_pc_prep_pkt :=
  let pkt := { pkt with packet_type := E.val .HFI_CMD_SYS_PC_PREP }
  let pkt := { pkt with size := E.sizeof "hfi_sys_pc_prep_pkt" % 4294967296 }
  (0, pkt)

/-- The function pkt_sys_idle_indicator (lines 184 to 197). -/
def pkt_sys_idle_indicator (E : hdr) (pkt : hfi_sys_set_property_pkt) (enable : Nat) :
    Int × hfi_sys_set_property_pkt :=
  let size :=
    (E.sizeof "hfi_sys_set_property_pkt" + E.sizeof "hfi_enable" + 4) % 4294967296
  let pkt := { pkt with size := size }
  let pkt := { pkt with packet_type := E.val .HFI_CMD_SYS_SET_PROPERTY }
  let pkt := { pkt with num_properties := 1 }
  let rg :=
    Function.update pkt.rg_property_data 0 (E.val .HFI_PROPERTY_SYS_IDLE_INDICATOR)
  let pkt := { pkt with rg_property_data := rg }
  let rg :=
    Function.update pkt.rg_property_data (1 + E.word_of "hfi_enable" "enable") enable
  let pkt := { pkt with rg_property_data := rg }
  (0, pkt)

/-- The function pkt_sys_coverage_config (lines 219 to 232). -/
def pkt_sys_coverage_config (E : hdr) (pkt : hfi_sys_set_property_pkt) (mode : Nat) :
    Int × hfi_sys_set_property_pkt :=
  let pkt := { pkt with size := (E.sizeof "hfi_sys_set_property_pkt" + 4) % 4294967296 }
  let pkt := { pkt with packet_type := E.val .HFI_CMD_SYS_SET_PROPERTY }
  let pkt := { pkt with num_properties := 1 }
  let rg :=
    Function.update pkt.rg_property_data 0 (E.val .HFI_PROPERTY_SYS_CONFIG_COVERAGE)
  let pkt := { pkt with rg_property_data := rg }
  let pkt := { pkt with rg_property_data := Function.update pkt.rg_property_data 1 mode }
  (0, pkt)

/-- The function pkt_sys_set_resource (lines 234 to 263).  Each of the three pointers may
be NULL: the value none for the packet and for the resource header, the address 0 for
resource_value, which the function converts to a physical address and never
dereferences. -/
def pkt_sys_set_resource (E : hdr) (pkt : Option hfi_sys_set_resource_pkt)
    (resource_hdr : Option vidc_resource_hdr) (resource_value : Nat) :
    Int × Option hfi_sys_set_resource_pkt :=
  match pkt, resource_hdr with
  | none, _ => (-EINVAL, pkt)
  | some _, none => (-EINVAL, pkt)
  | some p, some resource_hdr =>
    if resource_value = 0 then (-EINVAL, pkt) else
    let p := { p with packet_type := E.val .HFI_CMD_SYS_SET_RESOURCE }
    let p := { p with size := E.sizeof "hfi_sys_set_resource_pkt" % 4294967296 }
    let p := { p with resource_handle := E.hash32_ptr resource_hdr.resource_handle }
    match resource_hdr.resource_id with
    | .VIDC_RESOURCE_OCMEM | .VIDC_RESOURCE_VMEM =>
      let imem_addr := resource_value
      let p := { p with resource_type := E.val .HFI_RESOURCE_OCMEM }
      let size :=
        u32 ((p.size : Int) + ((E.sizeof "hfi_resource_ocmem" : Int) - 4))
      let p := { p with size := size }
      let rg :=
        Function.update p.rg_resource_data (E.word_of "hfi_resource_ocmem" "size")
          (resource_hdr.size % 4294967296)
      let p := { p with rg_resource_data := rg }
      let rg :=
        Function.update p.rg_resource_data (E.word_of "hfi_resource_ocmem" "mem")
          (imem_addr % 4294967296)
      let p := { p with rg_resource_data := rg }
      (0, some p)
    | _ => (-ENOTSUPP, some p)

/-- The function pkt_sys_release_resource (lines 265 to 283). -/
def pkt_sys_release_resource (E : hdr) (pkt : hfi_sys_release_resource_pkt)
    (resource_hdr : vidc_resource_hdr) : Int × hfi_sys_release_resource_pkt :=
  let pkt := { pkt with size := E.sizeof "hfi_sys_release_resource_pkt" % 4294967296 }
  let pkt := { pkt with packet_type := E.val .HFI_CMD_SYS_RELEASE_RESOURCE }
  let pkt := { pkt with resource_handle := E.hash32_ptr resource_hdr.resource_handle }
  match resource_hdr.resource_id with
  | .VIDC_RESOURCE_OCMEM | .VIDC_RESOURCE_VMEM =>
    (0, { pkt with resource_type := E.val .HFI_RESOURCE_OCMEM })
  | _ => (-ENOTSUPP, pkt)

/-- The function pkt_sys_ping (lines 285 to 291). -/
def pkt_sys_ping (E : hdr) (pkt : hfi_cmd_sys_ping_packet) : Int × hfi_cmd_sys_ping_packet :=
  let pkt := { pkt with size := E.sizeof "hfi_cmd_sys_ping_packet" % 4294967296 }
  let pkt := { pkt with packet_type := E.val .HFI_CMD_SYS_PING }
  (0, pkt)

/-- The function pkt_sys_power_control (lines 319 to 332). -/
def pkt_sys_power_control (E : hdr) (pkt : hfi_sys_set_property_pkt) (enable : Nat) :
    Int × hfi_sys_set_property_pkt :=
  let size :=
    (E.sizeof "hfi_sys_set_property_pkt" + E.sizeof "hfi_enable" + 4) % 4294967296
  let pkt := { pkt with size := size }
  let pkt := { pkt with packet_type := E.val .HFI_CMD_SYS_SET_PROPERTY }
  let pkt := { pkt with num_properties := 1 }
  let rg :=
    Function.update pkt.rg_property_data 0 (E.val .HFI_PROPERTY_SYS_CODEC_POWER_PLANE_CTRL)
  let pkt := { pkt with rg_property_data := rg }
  let rg :=
    Function.update pkt.rg_property_data (1 + E.word_of "hfi_enable" "enable") enable
  let pkt := { pkt with rg_property_data := rg }
  (0, pkt)

/-- The function to_hfi_ssr_type (lines 1708 to 1724). -/
def to_hfi_ssr_type (E : hdr) (type : hal_ssr_trigger_type) : Nat :=
  match type with
  | .SSR_ERR_FATAL => E.val .HFI_TEST_SSR_SW_ERR_FATAL
  | .SSR_SW_DIV_BY_ZERO => E.val .HFI_TEST_SSR_SW_DIV_BY_ZERO
  | .SSR_HW_WDOG_IRQ => E.val .HFI_TEST_SSR_HW_WDOG_IRQ
  | _ => E.val .HFI_TEST_SSR_HW_WDOG_IRQ

/-- The function pkt_ssr_cmd (lines 1726 to 1734). -/
def pkt_ssr_cmd (E : hdr) (type : hal_ssr_trigger_type) (pkt : hfi_sys_test_ssr_pkt) :
    Int × hfi_sys_test_ssr_pkt :=
  let pkt := { pkt with size := E.sizeof "hfi_sys_test_ssr_pkt" % 4294967296 }
  let pkt := { pkt with packet_type := E.val .HFI_CMD_SYS_TEST_SSR }
  let pkt := { pkt with trigger_type := to_hfi_ssr_type E type }
  (0, pkt)

/-- The function pkt_sys_image_version (lines 1736 to 1744). -/
def pkt_sys_image_version (E : hdr) (pkt : hfi_sys_get_property_pkt) :
    Int × hfi_sys_get_property_pkt :=
  let pkt := { pkt with size := E.sizeof "hfi_sys_get_property_pkt" % 4294967296 }
  let pkt := { pkt with packet_type := E.val .HFI_CMD_SYS_GET_PROPERTY }
  let pkt := { pkt with num_properties := 1 }
  let rg :=
    Function.update pkt.rg_property_data 0 (E.val .HFI_PROPERTY_SYS_IMAGE_VERSION)
  let pkt := { pkt with rg_property_data := rg }
  (0, pkt)

/-! ## The image sensor driver

The functions of drivers/media/i2c/ov5640.c that walk a register array and the mode
table. -/

/-- The struct reg_value: a 16-bit register address and an 8-bit value. -/
structure reg_value where
  reg : Nat
  val : Nat

/-- The bus behind msm_cci_ctrl_write, a function that is not part of these sources: a
state of the bus and of the device behind it, and the result of the call
msm_cci_ctrl_write(i2c_addr, reg, &val, 1), which is its return value and the state after
the call. -/
structure cci_bus (σ : Type) where
  msm_cci_ctrl_write : σ → Nat → Nat → Nat → Int × σ

/-- The function ov5640_write_reg (lines 984 to 995): it returns what msm_cci_ctrl_write
returns; the message it logs for a negative value has no other effect. -/
def ov5640_write_reg {σ : Type} (bus : cci_bus σ) (s : σ) (i2c_addr reg val : Nat) :
    Int × σ :=
  bus.msm_cci_ctrl_write s i2c_addr reg val

/-- The loop of ov5640_set_register_array with n iterations left, at index i, with the
value ret of the previous iteration: the write of settings[i], then goto err for a negative
result, else the next index. -/
def set_register_array_loop {σ : Type} (bus : cci_bus σ) (i2c_addr : Nat)
    (settings : Nat → reg_value) : Nat → Nat → Int → σ → Int × σ
  | 0, _, ret, s => (ret, s)
  | n + 1, i, _, s =>
    let reg := (settings i).reg
    let val := (settings i).val
    let r := ov5640_write_reg bus s i2c_addr reg val
    if r.1 < 0 then r else set_register_array_loop bus i2c_addr settings n (i + 1) r.1 r.2

/-- The function ov5640_set_register_array (lines 1053 to 1072): settings[i] is the i-th
element from the pointer settings, and the result is the return value with the state of
the bus after the call. -/
def ov5640_set_register_array {σ : Type} (bus : cci_bus σ) (i2c_addr : Nat)
    (settings : Nat → reg_value) (num_settings : Nat) (s : σ) : Int × σ :=
  set_register_array_loop bus i2c_addr settings num_settings 0 0 s

/-- The state of the bus after the first k writes of a register array have been issued in
array order, each on the state that the one before it left. -/
def writes_applied {σ : Type} (bus : cci_bus σ) (i2c_addr : Nat) (settings : Nat → reg_value)
    (s : σ) : Nat → σ
  | 0 => s
  | k + 1 =>
    (ov5640_write_reg bus (writes_applied bus i2c_addr settings s k) i2c_addr
      (settings k).reg (settings k).val).2

/-- The return value of the write of settings[k], issued after the k writes before it. -/
def write_result {σ : Type} (bus : cci_bus σ) (i2c_addr : Nat) (settings : Nat → reg_value)
    (s : σ) (k : Nat) : Int :=
  (ov5640_write_reg bus (writes_applied bus i2c_addr settings s k) i2c_addr
    (settings k).reg (settings k).val).1

/-- A bus that records every write: its state is the list of the (register, value) pairs
written so far, oldest first, and the write number k (counted from 0) returns resp k. -/
def recording_bus (resp : Nat → Int) : cci_bus (List (Nat × Nat)) where
  msm_cci_ctrl_write := fun log _ reg val => (resp log.length, log ++ [(reg, val)])

/-- The enumerator OV5640_MODE_MAX of enum ov5640_mode (line 90). -/
def OV5640_MODE_MAX : Nat := 2

/-- The struct ov5640_mode_info, with the members mode, width and height; the members data
and data_size, which name the register array of the mode, are not read by the functions
below. -/
structure ov5640_mode_info where
  mode : Nat
  width : Nat
  height : Nat

/-- The array ov5640_mode_info_data (lines 911 to 933), of OV5640_MODE_MAX + 1 elements. -/
def ov5640_mode_info_data : List ov5640_mode_info :=
  [⟨0, 1280, 720⟩, ⟨1, 1920, 1080⟩, ⟨2, 2592, 1944⟩]

/-- The element ov5640_mode_info_data[i] for an index inside the array. -/
def mode_info (i : Nat) (h : i ≤ OV5640_MODE_MAX) : ov5640_mode_info :=
  ov5640_mode_info_data.get ⟨i, Nat.lt_of_le_of_lt h (by decide)⟩

/-- The test of the loop of ov5640_find_nearest_mode (lines 1417 and 1418).  The members
width and height are u32 and the arguments are int, so each comparison is made on the
argument converted to u32. -/
def mode_fits (i : Nat) (h : i ≤ OV5640_MODE_MAX) (width height : Int) : Bool :=
  decide ((mode_info i h).width ≤ u32 width ∧ (mode_info i h).height ≤ u32 height)

/-- The loop of ov5640_find_nearest_mode from index i downwards: the value of i after the
loop, which is -1 when no test succeeded. -/
def find_nearest_loop (width height : Int) : (i : Nat) → i ≤ OV5640_MODE_MAX → Int
  | 0, h => if mode_fits 0 h width height then 0 else -1
  | i + 1, h =>
    if mode_fits (i + 1) h width height then ((i + 1 : Nat) : Int)
    else find_nearest_loop width height i (Nat.le_of_succ_le h)

/-- The function ov5640_find_nearest_mode (lines 1411 to 1426). -/
def ov5640_find_nearest_mode (width height : Int) : Int :=
  let i := find_nearest_loop width height OV5640_MODE_MAX (Nat.le_refl _)
  if i < 0 then 0 else i

/-- The struct v4l2_subdev_frame_size_enum, with the members the source uses. -/
structure v4l2_subdev_frame_size_enum where
  index : Nat
  min_width : Nat
  max_width : Nat
  min_height : Nat
  max_height : Nat

/-- The function ov5640_enum_frame_size (lines 1355 to 1368). -/
def ov5640_enum_frame_size (fse : v4l2_subdev_frame_size_enum) :
    Int × v4l2_subdev_frame_size_enum :=
  if h : fse.index ≥ OV5640_MODE_MAX then (-EINVAL, fse) else
  have hi : fse.index ≤ OV5640_MODE_MAX := Nat.le_of_lt (Nat.lt_of_not_ge h)
  let fse := { fse with min_width := (mode_info fse.index hi).width }
  let fse := { fse with max_width := (mode_info fse.index hi).width }
  let fse := { fse with min_height := (mode_info fse.index hi).height }
  let fse := { fse with max_height := (mode_info fse.index hi).height }
  (0, fse)

/-! ## The bit-flag domains -/

/-- The table that to_hfi_type consults for a property identifier: one for each of the five
bit-flag domains, none for every other identifier. -/
def flag_table (E : hdr) : hal_property → Option (List Int)
  | .HAL_PARAM_PROFILE_LEVEL_CURRENT => some (profile_table E)
  | .HAL_PARAM_VENC_H264_ENTROPY_CONTROL => some (entropy_mode E)
  | .HAL_PARAM_VENC_H264_ENTROPY_CABAC_MODEL => some (cabac_model E)
  | .HAL_PARAM_UNCOMPRESSED_FORMAT_SELECT => some (color_format E)
  | .HAL_PARAM_NAL_STREAM_FORMAT_SELECT => some (nal_type E)
  | _ => none

/-! ## A sample header

One assignment of values to the header parameters, used to evaluate the encoders on
concrete inputs.  The bit-flag HAL values are powers of two, HAL_BUFFER_NONE is 0, every
wire constant is positive, and every payload struct is a sequence of 32-bit members
declared u32. -/

/-- Sample values of the named constants. -/
def val0 : hdr_const → Nat
  | .HAL_BUFFER_NONE => 0
  | .HAL_H264_PROFILE_BASELINE => 0x1
  | .HAL_H264_PROFILE_MAIN => 0x2
  | .HAL_H264_PROFILE_HIGH => 0x4
  | .HAL_H264_PROFILE_CONSTRAINED_BASE => 0x80
  | .HAL_H264_PROFILE_CONSTRAINED_HIGH => 0x100
  | .HAL_VPX_PROFILE_VERSION_1 => 0x8
  | .HAL_MVC_PROFILE_STEREO_HIGH => 0x1000
  | .HAL_H264_ENTROPY_CAVLC => 0x1
  | .HAL_H264_ENTROPY_CABAC => 0x2
  | .HAL_H264_CABAC_MODEL_0 => 0x1
  | .HAL_H264_CABAC_MODEL_1 => 0x2
  | .HAL_H264_CABAC_MODEL_2 => 0x4
  | .HAL_COLOR_FORMAT_MONOCHROME => 0x1
  | .HAL_COLOR_FORMAT_NV12 => 0x2
  | .HAL_COLOR_FORMAT_NV21 => 0x4
  | .HAL_COLOR_FORMAT_NV12_4x4TILE => 0x8
  | .HAL_COLOR_FORMAT_NV21_4x4TILE => 0x10
  | .HAL_COLOR_FORMAT_YUYV => 0x20
  | .HAL_COLOR_FORMAT_YVYU => 0x40
  | .HAL_COLOR_FORMAT_UYVY => 0x80
  | .HAL_COLOR_FORMAT_VYUY => 0x100
  | .HAL_COLOR_FORMAT_RGB565 => 0x200
  | .HAL_COLOR_FORMAT_BGR565 => 0x400
  | .HAL_COLOR_FORMAT_RGB888 => 0x800
  | .HAL_COLOR_FORMAT_BGR888 => 0x1000
  | .HAL_COLOR_FORMAT_NV12_UBWC => 0x2000
  | .HAL_COLOR_FORMAT_NV12_TP10_UBWC => 0x4000
  | .HAL_NAL_FORMAT_STARTCODES => 0x1
  | .HAL_NAL_FORMAT_ONE_NAL_PER_BUFFER => 0x2
  | .HAL_NAL_FORMAT_ONE_BYTE_LENGTH => 0x4
  | .HAL_NAL_FORMAT_TWO_BYTE_LENGTH => 0x8
  | .HAL_NAL_FORMAT_FOUR_BYTE_LENGTH => 0x10
  | c => 0x100 + c.toCtorIdx

/-- Sample struct sizes in bytes. -/
def sizeof0 : String → Nat
  | "hfi_session_init_pkt" => 20
  | "vidc_hal_session_cmd_pkt" => 12
  | "hfi_session_set_buffers_pkt" => 36
  | "hfi_buffer_info" => 8
  | "hfi_session_set_property_pkt" => 20
  | "hfi_cmd_session_get_property_packet" => 20
  | "hfi_cmd_session_flush_packet" => 16
  | "hfi_quantization_range" => 12
  | "hfi_frame_rate" => 8
  | "hfi_enable" => 4
  | "hfi_enable_picture" => 4
  | "hfi_mpeg4_time_resolution" => 4
  | "hfi_mpeg4_header_extension" => 4
  | "hfi_idr_period" => 4
  | "hfi_conceal_color" => 4
  | "hfi_frame_size" => 12
  | "hfi_sys_init_pkt" => 12
  | "hfi_sys_set_property_pkt" => 16
  | "hfi_sys_get_property_pkt" => 16
  | "hfi_sys_set_resource_pkt" => 20
  | "hfi_sys_release_resource_pkt" => 16
  | "hfi_sys_test_ssr_pkt" => 12
  | "hfi_vpe_color_space_conversion" => 72
  | "hfi_vpe_color_space_conversion.csc_matrix" => 36
  | "hfi_vpe_color_space_conversion.csc_bias" => 12
  | "hfi_vpe_color_space_conversion.csc_limit" => 24
  | "hfi_ltr_mode" => 12
  | _ => 8

/-- Sample member positions, in 32-bit words from the start of the struct. -/
def word_of0 : String → String → Nat
  | "hfi_buffer_info", "buffer_addr" => 0
  | "hfi_buffer_info", "extra_data_addr" => 1
  | "hfi_quantization_range", "min_qp" => 0
  | "hfi_quantization_range", "max_qp" => 1
  | "hfi_quantization_range", "layer_id" => 2
  | "hfi_frame_rate", "buffer_type" => 0
  | "hfi_frame_rate", "frame_rate" => 1
  | "hfi_uncompressed_format_select", "buffer_type" => 0
  | "hfi_uncompressed_format_select", "format" => 1
  | "hfi_frame_size", "buffer_type" => 0
  | "hfi_frame_size", "width" => 1
  | "hfi_frame_size", "height" => 2
  | "hfi_buffer_count_actual", "type" => 0
  | "hfi_buffer_count_actual", "count_actual" => 1
  | "hfi_buffer_size_actual", "type" => 0
  | "hfi_buffer_size_actual", "size" => 1
  | "hfi_profile_level", "profile" => 0
  | "hfi_profile_level", "level" => 1
  | "hfi_vpe_color_space_conversion", "csc_matrix" => 0
  | "hfi_vpe_color_space_conversion", "csc_bias" => 9
  | "hfi_vpe_color_space_conversion", "csc_limit" => 12
  | "hfi_ltr_mode", "ltr_mode" => 0
  | "hfi_ltr_mode", "ltr_count" => 1
  | "hfi_ltr_mode", "trust_mode" => 2
  | "hfi_buffer_alloc_mode", "type" => 0
  | "hfi_buffer_alloc_mode", "mode" => 1
  | "hfi_resource_ocmem", "size" => 0
  | "hfi_resource_ocmem", "mem" => 1
  | "hfi_h264_entropy_control", "entropy_mode" => 0
  | "hfi_h264_entropy_control", "cabac_model" => 1
  | "hfi_operations_type", "rotation" => 0
  | "hfi_operations_type", "flip" => 1
  | "hfi_index_extradata_config", "enable" => 0
  | "hfi_index_extradata_config", "index_extra_data_id" => 1
  | _, _ => 0

/-- The sample header. -/
def hdr0 : hdr where
  val := val0
  sizeof := sizeof0
  word_of := word_of0
  member_signed := fun _ _ => false
  hash32_ptr := fun p => p % 4294967296

/-- A set-property packet whose words are all 0. -/
def zero_property_pkt : hfi_session_set_property_pkt :=
  { size := 0, packet_type := 0, session_id := 0, num_properties := 0,
    rg_property_data := fun _ => 0 }

/-- A set-buffers packet whose words are all 0. -/
def zero_buffers_pkt : hfi_session_set_buffers_pkt :=
  { size := 0, packet_type := 0, session_id := 0, buffer_type := 0, buffer_size := 0,
    extra_data_size := 0, min_buffer_size := 0, num_buffers := 0, rg_buffer_info := fun _ => 0 }

/-- A release-buffers packet whose words are all 0. -/
def zero_release_pkt : hfi_cmd_session_release_buffer_packet :=
  { size := 0, packet_type := 0, session_id := 0, buffer_type := 0, buffer_size := 0,
    extra_data_size := 0, response_req := 0, num_buffers := 0, rg_buffer_info := fun _ => 0 }

/-! ## Bit arithmetic -/

theorem fls_aux_le_iff (fuel : Nat) :
    ∀ x n : Nat, x ≤ fuel → (fls_aux fuel x ≤ n ↔ x < 2 ^ n) := by
  induction fuel with
  | zero =>
    intro x n hx
    have hx0 : x = 0 := Nat.le_zero.mp hx
    subst hx0
    simp [fls_aux]
  | succ fuel ih =>
    intro x n hx
    by_cases h0 : x = 0
    · subst h0
      simp [fls_aux]
    · have hdiv : x / 2 ≤ fuel := by omega
      simp only [fls_aux, h0, if_false]
      cases n with
      | zero =>
        simp
        omega
      | succ n =>
        rw [Nat.add_le_add_iff_right, ih (x / 2) n hdiv, Nat.pow_succ]
        omega

theorem fls_long_le_iff (x n : Nat) : fls_long x ≤ n ↔ x < 2 ^ n :=
  fls_aux_le_iff x x n (Nat.le_refl x)

theorem fls_long_two_pow (k : Nat) : fls_long (2 ^ k) = k + 1 := by
  have h1 : fls_long (2 ^ k) ≤ k + 1 :=
    (fls_long_le_iff _ _).mpr (Nat.pow_lt_pow_right (by decide) (Nat.lt_succ_self k))
  have h2 : ¬ fls_long (2 ^ k) ≤ k := by
    rw [fls_long_le_iff]
    exact Nat.lt_irrefl _
  omega

theorem fls_long_two_pow_sub_one (k : Nat) : fls_long (2 ^ k - 1) = k := by
  have hpos : 0 < 2 ^ k := Nat.two_pow_pos _
  have h1 : fls_long (2 ^ k - 1) ≤ k := (fls_long_le_iff _ _).mpr (by omega)
  cases k with
  | zero => simpa using h1
  | succ k =>
    have h2 : ¬ fls_long (2 ^ (k + 1) - 1) ≤ k := by
      rw [fls_long_le_iff, Nat.pow_succ]
      have : 0 < 2 ^ k := Nat.two_pow_pos _
      omega
    omega

theorem ilog2_two_pow (k : Nat) : ilog2 (2 ^ k) = k := by
  simp [ilog2, fls_long_two_pow]

theorem roundup_pow_of_two_two_pow (k : Nat) : roundup_pow_of_two (2 ^ k) = 2 ^ k := by
  simp [roundup_pow_of_two, fls_long_two_pow_sub_one, Nat.one_shiftLeft]

theorem roundup_pow_of_two_is_pow (n : Nat) : ∃ k, roundup_pow_of_two n = 2 ^ k :=
  ⟨fls_long (n - 1), by simp [roundup_pow_of_two, Nat.one_shiftLeft]⟩

/-! ## The translator to_hfi_type -/

theorem to_hfi_type_two_pow (E : hdr) (property : hal_property) (k : Nat) :
    to_hfi_type E property (2 ^ k) =
      match flag_table E property with
      | some t => table_lookup t k
      | none => -ENOTSUPP := by
  have hne : (2 : Nat) ^ k ≠ 0 := Nat.pos_iff_ne_zero.mp (Nat.two_pow_pos k)
  unfold to_hfi_type
  simp only [roundup_pow_of_two_two_pow, ilog2_two_pow, hne, ne_eq, not_true_eq_false,
    not_false_eq_true, and_false, if_false, if_true]
  cases property <;> rfl

/-- C3, as amended: for every property identifier, so for each of the five bit-flag
domains, and every abstract value that is non-zero and not an exact power of two,
to_hfi_type fails with -EINVAL (the claim names -ENOTSUPP). -/
theorem C3_non_power_of_two_is_EINVAL (E : hdr) (property : hal_property) (hal_type : Nat)
    (h0 : hal_type ≠ 0) (hnp : ∀ k : Nat, hal_type ≠ 2 ^ k) :
    to_hfi_type E property hal_type = -EINVAL := by
  obtain ⟨k, hk⟩ := roundup_pow_of_two_is_pow hal_type
  have hne : roundup_pow_of_two hal_type ≠ hal_type := by
    intro h
    exact hnp k (h.symm.trans hk)
  simp [to_hfi_type, h0, hne]

/-- C3, witness of the amended claim: the value 3 in the profile domain. -/
theorem C3_non_power_of_two_is_EINVAL_witness :
    (3 : Nat) ≠ 0 ∧ to_hfi_type hdr0 .HAL_PARAM_PROFILE_LEVEL_CURRENT 3 = -EINVAL :=
  ⟨by decide, C3_non_power_of_two_is_EINVAL hdr0 .HAL_PARAM_PROFILE_LEVEL_CURRENT 3 (by decide)
    (fun k h => by
      match k with
      | 0 => simp at h
      | 1 => simp at h
      | k + 2 =>
        rw [Nat.pow_add] at h
        omega)⟩

/-- C3, counterexample to the claim as stated: in the profile domain the value 3, which is
neither zero nor a power of two, is answered with -EINVAL and not with -ENOTSUPP. -/
theorem C3_counterexample :
    to_hfi_type hdr0 .HAL_PARAM_PROFILE_LEVEL_CURRENT 3 = -EINVAL ∧
    to_hfi_type hdr0 .HAL_PARAM_PROFILE_LEVEL_CURRENT 3 ≠ -ENOTSUPP := by
  decide

/-- C4: for a power of two 2^k that an int can hold, k ≤ 30, whose bit index k is at or
beyond the length of the table of the domain, and for every such power of two when the
property identifier is none of the five domains, to_hfi_type returns -ENOTSUPP.  The table
is only read through table_lookup, whose index carries the proof that it is below the
length. -/
theorem C4_beyond_table_is_ENOTSUPP (E : hdr) (property : hal_property) (k : Nat)
    (hint : k ≤ 30)
    (hk : ∀ t : List Int, flag_table E property = some t → t.length ≤ k) :
    to_hfi_type E property (2 ^ k) = -ENOTSUPP := by
  have _hval : 2 ^ k < 2147483648 :=
    Nat.lt_of_le_of_lt (Nat.pow_le_pow_right (by decide) hint) (by decide)
  rw [to_hfi_type_two_pow]
  cases hft : flag_table E property with
  | none => rfl
  | some t =>
    have hlen : t.length ≤ k := hk t hft
    simp [table_lookup, hlen]

/-- C4, witness: bit 13 in the profile domain, whose sample table has 13 entries, bit 30,
the last one of an int, in the same domain, and bit 0 for a property identifier outside the
five domains. -/
theorem C4_beyond_table_is_ENOTSUPP_witness :
    (profile_table hdr0).length ≤ 13 ∧
    to_hfi_type hdr0 .HAL_PARAM_PROFILE_LEVEL_CURRENT (2 ^ 13) = -ENOTSUPP ∧
    to_hfi_type hdr0 .HAL_PARAM_PROFILE_LEVEL_CURRENT (2 ^ 30) = -ENOTSUPP ∧
    to_hfi_type hdr0 .HAL_CONFIG_REALTIME (2 ^ 0) = -ENOTSUPP :=
  ⟨by decide,
   C4_beyond_table_is_ENOTSUPP hdr0 .HAL_PARAM_PROFILE_LEVEL_CURRENT 13 (by decide)
     (fun t ht => by
       have h : t = profile_table hdr0 := (Option.some.inj ht).symm
       subst h
       decide),
   C4_beyond_table_is_ENOTSUPP hdr0 .HAL_PARAM_PROFILE_LEVEL_CURRENT 30 (by decide)
     (fun t ht => by
       have h : t = profile_table hdr0 := (Option.some.inj ht).symm
       subst h
       decide),
   C4_beyond_table_is_ENOTSUPP hdr0 .HAL_CONFIG_REALTIME 0 (by decide)
     (fun t ht => by simp [flag_table] at ht)⟩

/-- C5: for a power of two 2^k with k below the length of the table of the domain,
to_hfi_type returns the entry of that table at index k. -/
theorem C5_in_table_is_entry (E : hdr) (property : hal_property) (t : List Int) (k : Nat)
    (ht : flag_table E property = some t) (hk : k < t.length) :
    to_hfi_type E property (2 ^ k) = t.get ⟨k, hk⟩ := by
  rw [to_hfi_type_two_pow, ht]
  have hge : ¬ k ≥ t.length := Nat.not_le.mpr hk
  simp [table_lookup, hge]

/-- C5, witness: the flag 4 = 2^2 of the profile domain is translated to the entry at
index 2 of the sample profile table, the wire constant of the high profile. -/
theorem C5_in_table_is_entry_witness :
    2 < (profile_table hdr0).length ∧
    to_hfi_type hdr0 .HAL_PARAM_PROFILE_LEVEL_CURRENT (2 ^ 2) =
      (hdr0.val .HFI_H264_PROFILE_HIGH : Int) :=
  ⟨by decide,
   (C5_in_table_is_entry hdr0 .HAL_PARAM_PROFILE_LEVEL_CURRENT (profile_table hdr0) 2 rfl
     (by decide)).trans (by decide)⟩

/-! ## Quantization range -/

theorem qp_pack_lt (v : Nat) (hv : v ≤ 0xff) :
    (v ||| v <<< 8 ||| v <<< 16) % 4294967296 = v ||| v <<< 8 ||| v <<< 16 := by
  apply Nat.mod_eq_of_lt
  have h1 : v < 2 ^ 32 := by omega
  have h2 : v <<< 8 < 2 ^ 32 := by
    rw [Nat.shiftLeft_eq]
    omega
  have h3 : v <<< 16 < 2 ^ 32 := by
    rw [Nat.shiftLeft_eq]
    omega
  exact Nat.or_lt_two_pow (Nat.or_lt_two_pow h1 h2) h3

/-- C1: for a non-null session and min_qp, max_qp both at most 0xff, the call for
HAL_PARAM_VENC_SESSION_QP_RANGE succeeds and the payload members min_qp and max_qp hold
v | v << 8 | v << 16 for the respective value v, and layer_id holds the caller's layer_id.
The three members are distinct members of struct hfi_quantization_range, so they lie at
three different words. -/
theorem C1_qp_range_packed (E : hdr) (pkt : hfi_session_set_property_pkt) (session : Nat)
    (hal_range : hfi_quantization_range) (hs : session ≠ 0)
    (hmin : hal_range.min_qp ≤ 0xff) (hmax : hal_range.max_qp ≤ 0xff)
    (h12 : E.word_of "hfi_quantization_range" "min_qp" ≠
      E.word_of "hfi_quantization_range" "max_qp")
    (h13 : E.word_of "hfi_quantization_range" "min_qp" ≠
      E.word_of "hfi_quantization_range" "layer_id")
    (h23 : E.word_of "hfi_quantization_range" "max_qp" ≠
      E.word_of "hfi_quantization_range" "layer_id") :
    (pkt_session_set_property E pkt session .HAL_PARAM_VENC_SESSION_QP_RANGE hal_range).1 = 0 ∧
    get_hfi E
      (pkt_session_set_property E pkt session .HAL_PARAM_VENC_SESSION_QP_RANGE hal_range).2
      "hfi_quantization_range" "min_qp" =
      (hal_range.min_qp ||| hal_range.min_qp <<< 8 ||| hal_range.min_qp <<< 16) ∧
    get_hfi E
      (pkt_session_set_property E pkt session .HAL_PARAM_VENC_SESSION_QP_RANGE hal_range).2
      "hfi_quantization_range" "max_qp" =
      (hal_range.max_qp ||| hal_range.max_qp <<< 8 ||| hal_range.max_qp <<< 16) ∧
    get_hfi E
      (pkt_session_set_property E pkt session .HAL_PARAM_VENC_SESSION_QP_RANGE hal_range).2
      "hfi_quantization_range" "layer_id" = hal_range.layer_id := by
  have hc : ¬ (hal_range.min_qp > 0xff ∨ hal_range.max_qp > 0xff) := by omega
  simp only [pkt_session_set_property, hs, if_false, hc, get_hfi, set_hfi, set_word, add_size,
    qp_pack_lt _ hmin, qp_pack_lt _ hmax]
  refine ⟨trivial, ?_, ?_, ?_⟩
  · simp [Function.update, h12, h13]
  · simp [Function.update, h23]
  · simp [Function.update]

/-- C1, witness: min_qp = 0x10 and max_qp = 0x33 are packed as 0x101010 and 0x333333, and
layer_id = 2 is copied. -/
theorem C1_qp_range_packed_witness :
    (pkt_session_set_property hdr0 zero_property_pkt 1 .HAL_PARAM_VENC_SESSION_QP_RANGE
      ⟨0x10, 0x33, 2⟩).1 = 0 ∧
    get_hfi hdr0 (pkt_session_set_property hdr0 zero_property_pkt 1
      .HAL_PARAM_VENC_SESSION_QP_RANGE ⟨0x10, 0x33, 2⟩).2
      "hfi_quantization_range" "min_qp" = 0x101010 ∧
    get_hfi hdr0 (pkt_session_set_property hdr0 zero_property_pkt 1
      .HAL_PARAM_VENC_SESSION_QP_RANGE ⟨0x10, 0x33, 2⟩).2
      "hfi_quantization_range" "max_qp" = 0x333333 ∧
    get_hfi hdr0 (pkt_session_set_property hdr0 zero_property_pkt 1
      .HAL_PARAM_VENC_SESSION_QP_RANGE ⟨0x10, 0x33, 2⟩).2
      "hfi_quantization_range" "layer_id" = 2 :=
  C1_qp_range_packed hdr0 zero_property_pkt 1 ⟨0x10, 0x33, 2⟩ (by decide) (by decide)
    (by decide) (by decide) (by decide) (by decide)

/-- C2, as amended: for a non-null session, whenever min_qp or max_qp exceeds 0xff the call
for HAL_PARAM_VENC_SESSION_QP_RANGE fails with -ERANGE, every word of rg_property_data after
the tag word is as it was before the call, and size is left at sizeof(*pkt); the header
members and the tag word rg_property_data[0] have been written by then. -/
theorem C2_qp_range_out_of_range (E : hdr) (pkt : hfi_session_set_property_pkt)
    (session : Nat) (hal_range : hfi_quantization_range) (hs : session ≠ 0)
    (h : hal_range.min_qp > 0xff ∨ hal_range.max_qp > 0xff) :
    (pkt_session_set_property E pkt session .HAL_PARAM_VENC_SESSION_QP_RANGE hal_range).1
      = -ERANGE ∧
    (∀ i : Nat, i ≠ 0 →
      (pkt_session_set_property E pkt session .HAL_PARAM_VENC_SESSION_QP_RANGE
        hal_range).2.rg_property_data i = pkt.rg_property_data i) ∧
    (pkt_session_set_property E pkt session .HAL_PARAM_VENC_SESSION_QP_RANGE hal_range).2 =
      { size := E.sizeof "hfi_session_set_property_pkt" % 4294967296,
        packet_type := E.val .HFI_CMD_SESSION_SET_PROPERTY,
        session_id := E.hash32_ptr session,
        num_properties := 1,
        rg_property_data := Function.update pkt.rg_property_data 0
          (E.val .HFI_PROPERTY_PARAM_VENC_SESSION_QP_RANGE) } := by
  simp only [pkt_session_set_property, hs, if_false, h, if_true, set_word]
  refine ⟨trivial, ?_, trivial⟩
  intro i hi
  simp [Function.update, hi]

/-- C2, witness of the amended claim: min_qp = 256. -/
theorem C2_qp_range_out_of_range_witness :
    (pkt_session_set_property hdr0 zero_property_pkt 1 .HAL_PARAM_VENC_SESSION_QP_RANGE
      ⟨256, 0, 0⟩).1 = -ERANGE ∧
    (pkt_session_set_property hdr0 zero_property_pkt 1 .HAL_PARAM_VENC_SESSION_QP_RANGE
      ⟨256, 0, 0⟩).2.rg_property_data 1 = zero_property_pkt.rg_property_data 1 :=
  have h := C2_qp_range_out_of_range hdr0 zero_property_pkt 1 ⟨256, 0, 0⟩ (by decide)
    (Or.inl (by decide))
  ⟨h.1, h.2.1 1 (by decide)⟩

/-- C2, counterexample to the claim as stated: with min_qp = 256 the call fails with
-ERANGE, but the packet is not as before: num_properties, which was 0, is now 1 (and the
other header members and the tag word have been written as well). -/
theorem C2_counterexample :
    (pkt_session_set_property hdr0 zero_property_pkt 1 .HAL_PARAM_VENC_SESSION_QP_RANGE
      ⟨256, 0, 0⟩).1 = -ERANGE ∧
    zero_property_pkt.num_properties = 0 ∧
    (pkt_session_set_property hdr0 zero_property_pkt 1 .HAL_PARAM_VENC_SESSION_QP_RANGE
      ⟨256, 0, 0⟩).2.num_properties = 1 ∧
    (pkt_session_set_property hdr0 zero_property_pkt 1 .HAL_PARAM_VENC_SESSION_QP_RANGE
      ⟨256, 0, 0⟩).2 ≠ zero_property_pkt := by
  refine ⟨by decide, by decide, by decide, ?_⟩
  intro h
  have h1 := congrArg hfi_session_set_property_pkt.num_properties h
  revert h1
  decide

/-! ## Null session handles -/

/-- C6: each of the ten encoders that test the session handle, called with a null session
and any other arguments, returns -EINVAL and leaves the packet exactly as it was. -/
theorem C6_null_session_rejected (E : hdr) :
    (∀ pkt bai, pkt_session_set_buffers E pkt 0 bai = (-EINVAL, pkt)) ∧
    (∀ pkt bai, pkt_session_release_buffers E pkt 0 bai = (-EINVAL, pkt)) ∧
    (∀ pkt in_frame, pkt_session_etb_decoder E pkt 0 in_frame = (-EINVAL, pkt)) ∧
    (∀ pkt in_frame, pkt_session_etb_encoder E pkt 0 in_frame = (-EINVAL, pkt)) ∧
    (∀ pkt out_frame, pkt_session_ftb E pkt 0 out_frame = (-EINVAL, pkt)) ∧
    (∀ pkt seq_hdr, pkt_session_parse_seq_header E pkt 0 seq_hdr = (-EINVAL, pkt)) ∧
    (∀ pkt seq_hdr, pkt_session_get_seq_hdr E pkt 0 seq_hdr = (-EINVAL, pkt)) ∧
    (∀ pkt type, pkt_session_flush E pkt 0 type = (-EINVAL, pkt)) ∧
    (∀ pkt ptype, pkt_session_get_property E pkt 0 ptype = (-EINVAL, pkt)) ∧
    (∀ pkt ptype (pdata : pdata_of ptype),
      pkt_session_set_property E pkt 0 ptype pdata = (-EINVAL, pkt)) := by
  refine ⟨?_, ?_, ?_, ?_, ?_, ?_, ?_, ?_, ?_, ?_⟩
  · intro pkt bai
    simp [pkt_session_set_buffers]
  · intro pkt bai
    simp [pkt_session_release_buffers]
  · intro pkt in_frame
    simp [pkt_session_etb_decoder]
  · intro pkt in_frame
    simp [pkt_session_etb_encoder]
  · intro pkt out_frame
    cases out_frame <;> simp [pkt_session_ftb]
  · intro pkt seq_hdr
    cases seq_hdr <;> simp [pkt_session_parse_seq_header]
  · intro pkt seq_hdr
    cases seq_hdr <;> simp [pkt_session_get_seq_hdr]
  · intro pkt type
    simp [pkt_session_flush]
  · intro pkt ptype
    simp [pkt_session_get_property]
  · intro pkt ptype pdata
    simp [pkt_session_set_property]

/-- C7, the code at a null session: pkt_session_cmd never tests the handle, it returns 0 and
writes size, packet_type and session_id; pkt_session_init does not test it either, it
writes its five members and returns 0 for every codec with a non-zero wire code, here H264
under the sample header.  Neither returns -EINVAL because of the null handle. -/
theorem C7_null_session_not_rejected :
    (∀ (E : hdr) (pkt : vidc_hal_session_cmd_pkt) (pkt_type : Int),
      pkt_session_cmd E pkt pkt_type 0 =
        (0, { size := E.sizeof "vidc_hal_session_cmd_pkt" % 4294967296,
              packet_type := u32 pkt_type,
              session_id := E.hash32_ptr 0 })) ∧
    (∀ (E : hdr) (pkt : hfi_session_init_pkt) (session_domain : Nat)
        (session_codec : hal_video_codec),
      (pkt_session_init E pkt 0 session_domain session_codec).2 =
        { size := E.sizeof "hfi_session_init_pkt" % 4294967296,
          packet_type := E.val .HFI_CMD_SYS_SESSION_INIT,
          session_id := E.hash32_ptr 0,
          session_domain := session_domain,
          session_codec := to_hfi_codec E session_codec }) ∧
    (pkt_session_init hdr0 ⟨0, 0, 0, 0, 0⟩ 0 1 .HAL_VIDEO_CODEC_H264).1 = 0 ∧
    (pkt_session_init hdr0 ⟨0, 0, 0, 0, 0⟩ 0 1 .HAL_VIDEO_CODEC_H264).2.size = 20 ∧
    (pkt_session_cmd hdr0 ⟨0, 0, 0⟩ 7 0).1 = 0 ∧
    (pkt_session_cmd hdr0 ⟨0, 0, 0⟩ 7 0).2.size = 12 := by
  refine ⟨?_, ?_, by decide, by decide, by decide, by decide⟩
  · intro E pkt pkt_type
    rfl
  · intro E pkt session_domain session_codec
    simp only [pkt_session_init]
    split <;> rfl

/-! ## Buffer grant -/

theorem u32_natCast (n : Nat) : u32 (n : Int) = n % 4294967296 := by
  unfold u32
  omega

theorem for_loop_write_buffer_addr (bai : vidc_buffer_addr_info) (rg : Nat → Nat) (n i : Nat) :
    for_loop n (write_buffer_addr bai) rg i =
      if i < n then bai.device_addr % 4294967296 else rg i := by
  induction n with
  | zero => simp [for_loop]
  | succ n ih =>
    simp only [for_loop, write_buffer_addr, Function.update_apply]
    by_cases h : i = n
    · subst h
      simp
    · rw [if_neg h, ih]
      by_cases h2 : i < n
      · have h3 : i < n + 1 := Nat.lt_succ_of_lt h2
        simp [h2, h3]
      · have h3 : ¬ i < n + 1 := by omega
        simp [h2, h3]

theorem write_buffer_info_idem (E : hdr) (bai : vidc_buffer_addr_info) (i j : Nat)
    (rg : Nat → Nat) :
    write_buffer_info E bai i (write_buffer_info E bai j rg) = write_buffer_info E bai 0 rg := by
  funext x
  simp only [write_buffer_info, Function.update_apply]
  by_cases h1 : x = E.word_of "hfi_buffer_info" "extra_data_addr"
  · simp [h1]
  · by_cases h2 : x = E.word_of "hfi_buffer_info" "buffer_addr"
    · simp [h2]
    · simp [h1, h2]

theorem for_loop_write_buffer_info (E : hdr) (bai : vidc_buffer_addr_info) (rg : Nat → Nat)
    (n : Nat) :
    for_loop n (write_buffer_info E bai) rg =
      if n = 0 then rg else write_buffer_info E bai 0 rg := by
  induction n with
  | zero => simp [for_loop]
  | succ n ih =>
    simp only [for_loop, ih]
    by_cases h : n = 0
    · subst h
      simp [write_buffer_info]
    · simp [h, write_buffer_info_idem]

/-- What the output branch of pkt_session_set_buffers leaves in rg_buffer_info, for every
count: the loop, whose pointer bi is not advanced, writes the two words of the first
record and no other word. -/
theorem set_buffers_output_writes_first_record_only (E : hdr)
    (pkt : hfi_session_set_buffers_pkt) (session : Nat) (bai : vidc_buffer_addr_info)
    (hs : session ≠ 0)
    (hrole : bai.buffer_type = .HAL_BUFFER_OUTPUT ∨ bai.buffer_type = .HAL_BUFFER_OUTPUT2)
    (i : Nat) (h1 : i ≠ E.word_of "hfi_buffer_info" "buffer_addr")
    (h2 : i ≠ E.word_of "hfi_buffer_info" "extra_data_addr") :
    (pkt_session_set_buffers E pkt session bai).2.rg_buffer_info i = pkt.rg_buffer_info i := by
  simp only [pkt_session_set_buffers, hs, if_false, hrole, if_true,
    for_loop_write_buffer_info]
  split <;> split <;> simp [write_buffer_info, Function.update, h1, h2]

/-- C8, the code at the failing input: three buffers of role HAL_BUFFER_OUTPUT2 with device
address 0x1000, extra-data address 0x2000 and extra-data size 64, written into a zeroed
packet under the sample header, where a record of struct hfi_buffer_info is two words.
The call succeeds, extra_data_size is 64 and the first record (words 0 and 1) holds the
two addresses, but the second and third record (words 2 to 5) are still 0: the loop runs
three times over the first record. -/
theorem C8_set_buffers_output_records :
    (pkt_session_set_buffers hdr0 zero_buffers_pkt 1
      ⟨.HAL_BUFFER_OUTPUT2, 4096, 3, 0x1000, 0x2000, 64, 0⟩).1 = 0 ∧
    (pkt_session_set_buffers hdr0 zero_buffers_pkt 1
      ⟨.HAL_BUFFER_OUTPUT2, 4096, 3, 0x1000, 0x2000, 64, 0⟩).2.extra_data_size = 64 ∧
    (pkt_session_set_buffers hdr0 zero_buffers_pkt 1
      ⟨.HAL_BUFFER_OUTPUT2, 4096, 3, 0x1000, 0x2000, 64, 0⟩).2.num_buffers = 3 ∧
    (List.range 6).map (pkt_session_set_buffers hdr0 zero_buffers_pkt 1
      ⟨.HAL_BUFFER_OUTPUT2, 4096, 3, 0x1000, 0x2000, 64, 0⟩).2.rg_buffer_info =
      [0x1000, 0x2000, 0, 0, 0, 0] := by
  decide

/-- C9: for a non-null session and a role other than HAL_BUFFER_OUTPUT and
HAL_BUFFER_OUTPUT2 that to_hfi_buffer translates to a non-zero wire role, the call
succeeds, rg_buffer_info[i] is the device address (as a 32-bit word) for every
i < num_buffers and is untouched for every other i, and extra_data_size is 0 whatever
bai->extradata_size is. -/
theorem C9_set_buffers_flat_array (E : hdr) (pkt : hfi_session_set_buffers_pkt)
    (session : Nat) (bai : vidc_buffer_addr_info) (hs : session ≠ 0)
    (h1 : bai.buffer_type ≠ .HAL_BUFFER_OUTPUT) (h2 : bai.buffer_type ≠ .HAL_BUFFER_OUTPUT2)
    (hrec : to_hfi_buffer E bai.buffer_type ≠ 0) :
    (pkt_session_set_buffers E pkt session bai).1 = 0 ∧
    (∀ i : Nat, i < bai.num_buffers →
      (pkt_session_set_buffers E pkt session bai).2.rg_buffer_info i =
        bai.device_addr % 4294967296) ∧
    (bai.device_addr < 4294967296 → ∀ i : Nat, i < bai.num_buffers →
      (pkt_session_set_buffers E pkt session bai).2.rg_buffer_info i = bai.device_addr) ∧
    (∀ i : Nat, bai.num_buffers ≤ i →
      (pkt_session_set_buffers E pkt session bai).2.rg_buffer_info i = pkt.rg_buffer_info i) ∧
    (pkt_session_set_buffers E pkt session bai).2.extra_data_size = 0 ∧
    (pkt_session_set_buffers E pkt session bai).2.num_buffers = bai.num_buffers := by
  have hrole : ¬ (bai.buffer_type = .HAL_BUFFER_OUTPUT ∨
      bai.buffer_type = .HAL_BUFFER_OUTPUT2) := by
    intro h
    cases h with
    | inl h => exact h1 h
    | inr h => exact h2 h
  simp only [pkt_session_set_buffers, hs, if_false, hrole, hrec, for_loop_write_buffer_addr]
  refine ⟨trivial, ?_, ?_, ?_, trivial, trivial⟩
  · intro i hi
    simp [hi]
  · intro hlt i hi
    simp [hi, Nat.mod_eq_of_lt hlt]
  · intro i hi
    have h : ¬ i < bai.num_buffers := Nat.not_lt.mpr hi
    simp [h]

/-- C9, witness: three buffers of role HAL_BUFFER_INTERNAL_SCRATCH with device address
0x1000 and a caller-side extra-data size of 64. -/
theorem C9_set_buffers_flat_array_witness :
    (pkt_session_set_buffers hdr0 zero_buffers_pkt 1
      ⟨.HAL_BUFFER_INTERNAL_SCRATCH, 4096, 3, 0x1000, 0x2000, 64, 0⟩).1 = 0 ∧
    (∀ i : Nat, i < 3 →
      (pkt_session_set_buffers hdr0 zero_buffers_pkt 1
        ⟨.HAL_BUFFER_INTERNAL_SCRATCH, 4096, 3, 0x1000, 0x2000, 64, 0⟩).2.rg_buffer_info i =
        0x1000) ∧
    (pkt_session_set_buffers hdr0 zero_buffers_pkt 1
      ⟨.HAL_BUFFER_INTERNAL_SCRATCH, 4096, 3, 0x1000, 0x2000, 64, 0⟩).2.extra_data_size = 0 :=
  have h := C9_set_buffers_flat_array hdr0 zero_buffers_pkt 1
    ⟨.HAL_BUFFER_INTERNAL_SCRATCH, 4096, 3, 0x1000, 0x2000, 64, 0⟩
    (by decide) (by decide) (by decide) (by decide)
  ⟨h.1, h.2.2.1 (by decide), h.2.2.2.2.1⟩

/-- C10: with H = sizeof(packet) - 4, the header without its one embedded 32-bit slot, the
size member written by pkt_session_set_buffers for N = num_buffers is
H + N * sizeof(struct hfi_buffer_info) for the two output roles and H + N * 4 for every
other role, as a 32-bit value (modulo 2^32), so exactly when the sum fits in 32 bits it is
the sum itself; in particular N = 0 gives H. -/
theorem C10_set_buffers_size (E : hdr) (pkt : hfi_session_set_buffers_pkt) (session : Nat)
    (bai : vidc_buffer_addr_info) (hs : session ≠ 0)
    (hH : 4 ≤ E.sizeof "hfi_session_set_buffers_pkt") :
    (bai.buffer_type = .HAL_BUFFER_OUTPUT ∨ bai.buffer_type = .HAL_BUFFER_OUTPUT2 →
      (pkt_session_set_buffers E pkt session bai).2.size =
        (E.sizeof "hfi_session_set_buffers_pkt" - 4 +
          bai.num_buffers * E.sizeof "hfi_buffer_info") % 4294967296) ∧
    (¬ (bai.buffer_type = .HAL_BUFFER_OUTPUT ∨ bai.buffer_type = .HAL_BUFFER_OUTPUT2) →
      (pkt_session_set_buffers E pkt session bai).2.size =
        (E.sizeof "hfi_session_set_buffers_pkt" - 4 + bai.num_buffers * 4) % 4294967296) ∧
    (bai.buffer_type = .HAL_BUFFER_OUTPUT ∨ bai.buffer_type = .HAL_BUFFER_OUTPUT2 →
      E.sizeof "hfi_session_set_buffers_pkt" - 4 +
        bai.num_buffers * E.sizeof "hfi_buffer_info" < 4294967296 →
      (pkt_session_set_buffers E pkt session bai).2.size =
        E.sizeof "hfi_session_set_buffers_pkt" - 4 +
          bai.num_buffers * E.sizeof "hfi_buffer_info") ∧
    (¬ (bai.buffer_type = .HAL_BUFFER_OUTPUT ∨ bai.buffer_type = .HAL_BUFFER_OUTPUT2) →
      E.sizeof "hfi_session_set_buffers_pkt" - 4 + bai.num_buffers * 4 < 4294967296 →
      (pkt_session_set_buffers E pkt session bai).2.size =
        E.sizeof "hfi_session_set_buffers_pkt" - 4 + bai.num_buffers * 4) := by
  have hout : bai.buffer_type = .HAL_BUFFER_OUTPUT ∨ bai.buffer_type = .HAL_BUFFER_OUTPUT2 →
      (pkt_session_set_buffers E pkt session bai).2.size =
        (E.sizeof "hfi_session_set_buffers_pkt" - 4 +
          bai.num_buffers * E.sizeof "hfi_buffer_info") % 4294967296 := by
    intro hrole
    simp only [pkt_session_set_buffers, hs, if_false, hrole, if_true]
    have hcast : ((E.sizeof "hfi_session_set_buffers_pkt" : Int) - 4 +
        (bai.num_buffers : Int) * (E.sizeof "hfi_buffer_info" : Int)) =
        ((E.sizeof "hfi_session_set_buffers_pkt" - 4 +
          bai.num_buffers * E.sizeof "hfi_buffer_info" : Nat) : Int) := by
      push_cast [hH]
      ring
    split <;> simp only [hcast, u32_natCast]
  have hflat : ¬ (bai.buffer_type = .HAL_BUFFER_OUTPUT ∨
      bai.buffer_type = .HAL_BUFFER_OUTPUT2) →
      (pkt_session_set_buffers E pkt session bai).2.size =
        (E.sizeof "hfi_session_set_buffers_pkt" - 4 + bai.num_buffers * 4) % 4294967296 := by
    intro hrole
    simp only [pkt_session_set_buffers, hs, if_false, hrole]
    have hu : u32 ((E.sizeof "hfi_session_set_buffers_pkt" : Int) +
        (u32 ((bai.num_buffers : Int) - 1) : Int) * 4) =
        (E.sizeof "hfi_session_set_buffers_pkt" - 4 + bai.num_buffers * 4) % 4294967296 := by
      unfold u32
      omega
    split <;> simp only [hu]
  refine ⟨hout, hflat, ?_, ?_⟩
  · intro hrole hfit
    rw [hout hrole, Nat.mod_eq_of_lt hfit]
  · intro hrole hfit
    rw [hflat hrole, Nat.mod_eq_of_lt hfit]

/-- C10, witness: under the sample header, where the packet struct has 36 bytes and a
record of struct hfi_buffer_info has 8, three buffers give 32 + 3 * 8 = 56 for an output
role and 32 + 3 * 4 = 44 for a scratch role, and no buffer gives 32. -/
theorem C10_set_buffers_size_witness :
    (pkt_session_set_buffers hdr0 zero_buffers_pkt 1
      ⟨.HAL_BUFFER_OUTPUT, 4096, 3, 0x1000, 0x2000, 64, 0⟩).2.size = 56 ∧
    (pkt_session_set_buffers hdr0 zero_buffers_pkt 1
      ⟨.HAL_BUFFER_INTERNAL_SCRATCH, 4096, 3, 0x1000, 0x2000, 64, 0⟩).2.size = 44 ∧
    (pkt_session_set_buffers hdr0 zero_buffers_pkt 1
      ⟨.HAL_BUFFER_INTERNAL_SCRATCH, 4096, 0, 0x1000, 0x2000, 64, 0⟩).2.size = 32 :=
  ⟨((C10_set_buffers_size hdr0 zero_buffers_pkt 1
      ⟨.HAL_BUFFER_OUTPUT, 4096, 3, 0x1000, 0x2000, 64, 0⟩
      (by decide) (by decide)).1 (Or.inl rfl)).trans (by decide),
   ((C10_set_buffers_size hdr0 zero_buffers_pkt 1
      ⟨.HAL_BUFFER_INTERNAL_SCRATCH, 4096, 3, 0x1000, 0x2000, 64, 0⟩
      (by decide) (by decide)).2.1 (by decide)).trans (by decide),
   ((C10_set_buffers_size hdr0 zero_buffers_pkt 1
      ⟨.HAL_BUFFER_INTERNAL_SCRATCH, 4096, 0, 0x1000, 0x2000, 64, 0⟩
      (by decide) (by decide)).2.1 (by decide)).trans (by decide)⟩

/-! ## Buffer roles in grant and revoke -/

/-- C11, as amended: for a non-null session and the two output roles with extradata,
HAL_BUFFER_EXTRADATA_OUTPUT and HAL_BUFFER_EXTRADATA_OUTPUT2, both pkt_session_set_buffers
and pkt_session_release_buffers write the flat array, rg_buffer_info[i] = device address (as
a 32-bit word) for every i < num_buffers and no other word, and both set extra_data_size
to 0; the extended record and the negotiated extra-data size belong to the plain output
roles HAL_BUFFER_OUTPUT and HAL_BUFFER_OUTPUT2 only, for which pkt_session_set_buffers
stores bai->extradata_size. -/
theorem C11_extradata_output_roles_are_flat (E : hdr) (session : Nat)
    (bai : vidc_buffer_addr_info) (hs : session ≠ 0) :
    (bai.buffer_type = .HAL_BUFFER_EXTRADATA_OUTPUT ∨
        bai.buffer_type = .HAL_BUFFER_EXTRADATA_OUTPUT2 →
      (∀ pkt : hfi_session_set_buffers_pkt,
        (pkt_session_set_buffers E pkt session bai).2.extra_data_size = 0 ∧
        (∀ i : Nat, i < bai.num_buffers →
          (pkt_session_set_buffers E pkt session bai).2.rg_buffer_info i =
            bai.device_addr % 4294967296) ∧
        (∀ i : Nat, bai.num_buffers ≤ i →
          (pkt_session_set_buffers E pkt session bai).2.rg_buffer_info i =
            pkt.rg_buffer_info i)) ∧
      (∀ pkt : hfi_cmd_session_release_buffer_packet,
        (pkt_session_release_buffers E pkt session bai).2.extra_data_size = 0 ∧
        (∀ i : Nat, i < bai.num_buffers →
          (pkt_session_release_buffers E pkt session bai).2.rg_buffer_info i =
            bai.device_addr % 4294967296) ∧
        (∀ i : Nat, bai.num_buffers ≤ i →
          (pkt_session_release_buffers E pkt session bai).2.rg_buffer_info i =
            pkt.rg_buffer_info i))) ∧
    (bai.buffer_type = .HAL_BUFFER_OUTPUT ∨ bai.buffer_type = .HAL_BUFFER_OUTPUT2 →
      ∀ pkt : hfi_session_set_buffers_pkt,
        (pkt_session_set_buffers E pkt session bai).2.extra_data_size = bai.extradata_size) := by
  constructor
  · intro hrole
    have hnot : ¬ (bai.buffer_type = .HAL_BUFFER_OUTPUT ∨
        bai.buffer_type = .HAL_BUFFER_OUTPUT2) := by
      rcases hrole with h | h <;> rw [h] <;> decide
    constructor
    · intro pkt
      simp only [pkt_session_set_buffers, hs, if_false, hnot, for_loop_write_buffer_addr]
      refine ⟨?_, ?_, ?_⟩
      · split <;> rfl
      · intro i hi
        split <;> simp [for_loop_write_buffer_addr, hi]
      · intro i hi
        have h : ¬ i < bai.num_buffers := Nat.not_lt.mpr hi
        split <;> simp [for_loop_write_buffer_addr, h]
    · intro pkt
      simp only [pkt_session_release_buffers, hs, if_false, hnot, for_loop_write_buffer_addr]
      refine ⟨?_, ?_, ?_⟩
      · split <;> rfl
      · intro i hi
        split <;> simp [for_loop_write_buffer_addr, hi]
      · intro i hi
        have h : ¬ i < bai.num_buffers := Nat.not_lt.mpr hi
        split <;> simp [for_loop_write_buffer_addr, h]
  · intro hrole pkt
    simp only [pkt_session_set_buffers, hs, if_false, hrole, if_true]
    split <;> rfl

/-- C11, witness of the amended claim: one buffer of role HAL_BUFFER_EXTRADATA_OUTPUT with
a caller-side extra-data size of 64. -/
theorem C11_extradata_output_roles_are_flat_witness :
    (pkt_session_set_buffers hdr0 zero_buffers_pkt 1
      ⟨.HAL_BUFFER_EXTRADATA_OUTPUT, 4096, 1, 0x1000, 0x2000, 64, 0⟩).2.extra_data_size = 0 ∧
    (pkt_session_release_buffers hdr0 zero_release_pkt 1
      ⟨.HAL_BUFFER_EXTRADATA_OUTPUT, 4096, 1, 0x1000, 0x2000, 64, 0⟩).2.rg_buffer_info 0 =
      0x1000 :=
  have h := (C11_extradata_output_roles_are_flat hdr0 1
    ⟨.HAL_BUFFER_EXTRADATA_OUTPUT, 4096, 1, 0x1000, 0x2000, 64, 0⟩ (by decide)).1 (Or.inl rfl)
  ⟨(h.1 zero_buffers_pkt).1, (h.2 zero_release_pkt).2.1 0 (by decide)⟩

/-- C11, counterexample to the claim as stated: one buffer of role
HAL_BUFFER_EXTRADATA_OUTPUT with device address 0x1000, extra-data address 0x2000 and
extra-data size 64, written into zeroed packets under the sample header, where the second
word of a record of struct hfi_buffer_info is its extra_data_addr.  Both calls succeed;
pkt_session_set_buffers stores extra_data_size 0 and not 64, and in both packets the first
word holds the device address while the second word, where the record would carry 0x2000,
is still 0. -/
theorem C11_counterexample :
    (pkt_session_set_buffers hdr0 zero_buffers_pkt 1
      ⟨.HAL_BUFFER_EXTRADATA_OUTPUT, 4096, 1, 0x1000, 0x2000, 64, 0⟩).1 = 0 ∧
    (pkt_session_set_buffers hdr0 zero_buffers_pkt 1
      ⟨.HAL_BUFFER_EXTRADATA_OUTPUT, 4096, 1, 0x1000, 0x2000, 64, 0⟩).2.extra_data_size = 0 ∧
    (List.range 2).map (pkt_session_set_buffers hdr0 zero_buffers_pkt 1
      ⟨.HAL_BUFFER_EXTRADATA_OUTPUT, 4096, 1, 0x1000, 0x2000, 64, 0⟩).2.rg_buffer_info =
      [0x1000, 0] ∧
    (pkt_session_release_buffers hdr0 zero_release_pkt 1
      ⟨.HAL_BUFFER_EXTRADATA_OUTPUT, 4096, 1, 0x1000, 0x2000, 64, 0⟩).1 = 0 ∧
    (List.range 2).map (pkt_session_release_buffers hdr0 zero_release_pkt 1
      ⟨.HAL_BUFFER_EXTRADATA_OUTPUT, 4096, 1, 0x1000, 0x2000, 64, 0⟩).2.rg_buffer_info =
      [0x1000, 0] ∧
    hdr0.word_of "hfi_buffer_info" "extra_data_addr" = 1 := by
  decide

/-- C12, as amended: for a non-null session and a role that to_hfi_buffer does not
recognise, so that it returns HAL_BUFFER_NONE, whose value is 0, both
pkt_session_set_buffers and pkt_session_release_buffers return -EINVAL (the claim names the
Unsupported error). -/
theorem C12_unrecognised_role_is_EINVAL (E : hdr) (session : Nat)
    (bai : vidc_buffer_addr_info) (hs : session ≠ 0)
    (hnone : E.val .HAL_BUFFER_NONE = 0)
    (hrole : to_hfi_buffer E bai.buffer_type = E.val .HAL_BUFFER_NONE) :
    (∀ pkt : hfi_session_set_buffers_pkt,
      (pkt_session_set_buffers E pkt session bai).1 = -EINVAL) ∧
    (∀ pkt : hfi_cmd_session_release_buffer_packet,
      (pkt_session_release_buffers E pkt session bai).1 = -EINVAL) := by
  have hz : to_hfi_buffer E bai.buffer_type = 0 := hrole.trans hnone
  constructor
  · intro pkt
    simp [pkt_session_set_buffers, hs, hz]
  · intro pkt
    simp [pkt_session_release_buffers, hs, hz]

/-- C12, witness of the amended claim: a role outside the enumerators that to_hfi_buffer
names. -/
theorem C12_unrecognised_role_is_EINVAL_witness :
    (pkt_session_set_buffers hdr0 zero_buffers_pkt 1
      ⟨.unlisted 99, 4096, 1, 0x1000, 0x2000, 64, 0⟩).1 = -EINVAL ∧
    (pkt_session_release_buffers hdr0 zero_release_pkt 1
      ⟨.unlisted 99, 4096, 1, 0x1000, 0x2000, 64, 0⟩).1 = -EINVAL :=
  have h := C12_unrecognised_role_is_EINVAL hdr0 1
    ⟨.unlisted 99, 4096, 1, 0x1000, 0x2000, 64, 0⟩ (by decide) (by decide) (by decide)
  ⟨h.1 zero_buffers_pkt, h.2 zero_release_pkt⟩

/-- C12, counterexample to the claim as stated: for a role that to_hfi_buffer does not name
both calls return -EINVAL, which is not -ENOTSUPP. -/
theorem C12_counterexample :
    (pkt_session_set_buffers hdr0 zero_buffers_pkt 1
      ⟨.unlisted 99, 4096, 1, 0x1000, 0x2000, 64, 0⟩).1 = -EINVAL ∧
    (pkt_session_release_buffers hdr0 zero_release_pkt 1
      ⟨.unlisted 99, 4096, 1, 0x1000, 0x2000, 64, 0⟩).1 = -EINVAL ∧
    to_hfi_buffer hdr0 (.unlisted 99) = hdr0.val .HAL_BUFFER_NONE ∧
    -EINVAL ≠ -ENOTSUPP := by
  decide

/-! ## Frame lemmas of the property codec -/

theorem memcpy_words_frame (pkt : hfi_session_set_property_pkt) (dst : Nat) (src : Nat → Nat)
    (n : Nat) :
    (memcpy_words pkt dst src n).size = pkt.size ∧
    (memcpy_words pkt dst src n).packet_type = pkt.packet_type ∧
    (memcpy_words pkt dst src n).session_id = pkt.session_id ∧
    (memcpy_words pkt dst src n).num_properties = pkt.num_properties ∧
    (∀ i : Nat, i < dst → (memcpy_words pkt dst src n).rg_property_data i =
      pkt.rg_property_data i) := by
  unfold memcpy_words
  induction n / 4 with
  | zero => simp [for_loop]
  | succ k ih =>
    obtain ⟨h1, h2, h3, h4, h5⟩ := ih
    simp only [for_loop]
    refine ⟨h1, h2, h3, h4, ?_⟩
    intro i hi
    have hne : i ≠ dst + k := by omega
    have h := h5 i hi
    simp only [set_word, Function.update_apply, hne, if_false]
    exact h

theorem update_one_add_zero (f : Nat → Nat) (k v : Nat) :
    Function.update f (1 + k) v 0 = f 0 :=
  Function.update_noteq (by omega) v f

theorem update_one_add_add_zero (f : Nat → Nat) (k j v : Nat) :
    Function.update f (1 + k + j) v 0 = f 0 :=
  Function.update_noteq (by omega) v f

theorem update_one_zero (f : Nat → Nat) (v : Nat) : Function.update f 1 v 0 = f 0 :=
  Function.update_noteq (by decide) v f

/-! ## Properties that embed a buffer role -/

/-- C13: for a non-null session, each of the eight properties that embed a buffer role
(frame rate, uncompressed format, frame size, actual buffer count, actual buffer size,
display hold count, multi-stream, buffer alloc mode) returns -EINVAL for every role that
to_hfi_buffer translates to zero, whatever the other members are. -/
theorem C13_zero_role_is_EINVAL (E : hdr) (pkt : hfi_session_set_property_pkt) (session : Nat)
    (hs : session ≠ 0) :
    (∀ prop : hal_frame_rate, to_hfi_buffer E prop.buffer_type = 0 →
      (pkt_session_set_property E pkt session .HAL_CONFIG_FRAME_RATE prop).1 = -EINVAL) ∧
    (∀ prop : hal_uncompressed_format_select, to_hfi_buffer E prop.buffer_type = 0 →
      (pkt_session_set_property E pkt session .HAL_PARAM_UNCOMPRESSED_FORMAT_SELECT prop).1 =
        -EINVAL) ∧
    (∀ prop : hal_frame_size, to_hfi_buffer E prop.buffer_type = 0 →
      (pkt_session_set_property E pkt session .HAL_PARAM_FRAME_SIZE prop).1 = -EINVAL) ∧
    (∀ prop : hal_buffer_count_actual, to_hfi_buffer E prop.type = 0 →
      (pkt_session_set_property E pkt session .HAL_PARAM_BUFFER_COUNT_ACTUAL prop).1 =
        -EINVAL) ∧
    (∀ prop : hal_buffer_size_actual, to_hfi_buffer E prop.type = 0 →
      (pkt_session_set_property E pkt session .HAL_PARAM_BUFFER_SIZE_ACTUAL prop).1 =
        -EINVAL) ∧
    (∀ prop : hal_buffer_display_hold_count_actual, to_hfi_buffer E prop.buffer_type = 0 →
      (pkt_session_set_property E pkt session .HAL_PARAM_BUFFER_DISPLAY_HOLD_COUNT_ACTUAL
        prop).1 = -EINVAL) ∧
    (∀ prop : hal_multi_stream, to_hfi_buffer E prop.buffer_type = 0 →
      (pkt_session_set_property E pkt session .HAL_PARAM_VDEC_MULTI_STREAM prop).1 =
        -EINVAL) ∧
    (∀ hal : hal_buffer_alloc_mode, to_hfi_buffer E hal.type = 0 →
      (pkt_session_set_property E pkt session .HAL_PARAM_BUFFER_ALLOC_MODE hal).1 =
        -EINVAL) := by
  refine ⟨?_, ?_, ?_, ?_, ?_, ?_, ?_, ?_⟩ <;>
    intro prop hz <;>
    simp only [pkt_session_set_property, hs, if_false, hz, if_true]

/-- C13, witness: a frame rate and a buffer alloc mode for a role outside the enumerators
that to_hfi_buffer names, which the sample header translates to 0. -/
theorem C13_zero_role_is_EINVAL_witness :
    to_hfi_buffer hdr0 (.unlisted 99) = 0 ∧
    (pkt_session_set_property hdr0 zero_property_pkt 1 .HAL_CONFIG_FRAME_RATE
      ⟨.unlisted 99, 30⟩).1 = -EINVAL ∧
    (pkt_session_set_property hdr0 zero_property_pkt 1 .HAL_PARAM_BUFFER_ALLOC_MODE
      ⟨.unlisted 99, .HAL_BUFFER_MODE_STATIC⟩).1 = -EINVAL :=
  have h := C13_zero_role_is_EINVAL hdr0 zero_property_pkt 1 (by decide)
  ⟨by decide, h.1 ⟨.unlisted 99, 30⟩ (by decide),
    h.2.2.2.2.2.2.2 ⟨.unlisted 99, .HAL_BUFFER_MODE_STATIC⟩ (by decide)⟩

/-- C14, as amended: for a non-null session, when frame rate, frame size, uncompressed
format, actual buffer count or actual buffer size is encoded with a role that to_hfi_buffer
translates to zero, the call returns -EINVAL and the property is not counted, size stays at
sizeof(*pkt); the tag word rg_property_data[0] has been written by then.  For frame rate,
frame size and uncompressed format every word after the tag is as before the call; for
actual buffer count and actual buffer size this holds for every word after the tag other
than the count_actual, respectively size, member. -/
theorem C14_failed_role_translation (E : hdr) (pkt : hfi_session_set_property_pkt)
    (session : Nat) (hs : session ≠ 0) :
    (∀ prop : hal_frame_rate, to_hfi_buffer E prop.buffer_type = 0 →
      (pkt_session_set_property E pkt session .HAL_CONFIG_FRAME_RATE prop).1 = -EINVAL ∧
      (pkt_session_set_property E pkt session .HAL_CONFIG_FRAME_RATE prop).2.size =
        E.sizeof "hfi_session_set_property_pkt" % 4294967296 ∧
      (pkt_session_set_property E pkt session .HAL_CONFIG_FRAME_RATE
        prop).2.rg_property_data 0 = E.val .HFI_PROPERTY_CONFIG_FRAME_RATE ∧
      ∀ i : Nat, i ≠ 0 →
        (pkt_session_set_property E pkt session .HAL_CONFIG_FRAME_RATE
          prop).2.rg_property_data i = pkt.rg_property_data i) ∧
    (∀ prop : hal_frame_size, to_hfi_buffer E prop.buffer_type = 0 →
      (pkt_session_set_property E pkt session .HAL_PARAM_FRAME_SIZE prop).1 = -EINVAL ∧
      (pkt_session_set_property E pkt session .HAL_PARAM_FRAME_SIZE prop).2.size =
        E.sizeof "hfi_session_set_property_pkt" % 4294967296 ∧
      (pkt_session_set_property E pkt session .HAL_PARAM_FRAME_SIZE
        prop).2.rg_property_data 0 = E.val .HFI_PROPERTY_PARAM_FRAME_SIZE ∧
      ∀ i : Nat, i ≠ 0 →
        (pkt_session_set_property E pkt session .HAL_PARAM_FRAME_SIZE
          prop).2.rg_property_data i = pkt.rg_property_data i) ∧
    (∀ prop : hal_uncompressed_format_select, to_hfi_buffer E prop.buffer_type = 0 →
      (pkt_session_set_property E pkt session .HAL_PARAM_UNCOMPRESSED_FORMAT_SELECT
        prop).1 = -EINVAL ∧
      (pkt_session_set_property E pkt session .HAL_PARAM_UNCOMPRESSED_FORMAT_SELECT
        prop).2.size = E.sizeof "hfi_session_set_property_pkt" % 4294967296 ∧
      (pkt_session_set_property E pkt session .HAL_PARAM_UNCOMPRESSED_FORMAT_SELECT
        prop).2.rg_property_data 0 = E.val .HFI_PROPERTY_PARAM_UNCOMPRESSED_FORMAT_SELECT ∧
      ∀ i : Nat, i ≠ 0 →
        (pkt_session_set_property E pkt session .HAL_PARAM_UNCOMPRESSED_FORMAT_SELECT
          prop).2.rg_property_data i = pkt.rg_property_data i) ∧
    (∀ prop : hal_buffer_count_actual, to_hfi_buffer E prop.type = 0 →
      (pkt_session_set_property E pkt session .HAL_PARAM_BUFFER_COUNT_ACTUAL prop).1 =
        -EINVAL ∧
      (pkt_session_set_property E pkt session .HAL_PARAM_BUFFER_COUNT_ACTUAL prop).2.size =
        E.sizeof "hfi_session_set_property_pkt" % 4294967296 ∧
      (pkt_session_set_property E pkt session .HAL_PARAM_BUFFER_COUNT_ACTUAL
        prop).2.rg_property_data 0 = E.val .HFI_PROPERTY_PARAM_BUFFER_COUNT_ACTUAL ∧
      ∀ i : Nat, i ≠ 0 → i ≠ 1 + E.word_of "hfi_buffer_count_actual" "count_actual" →
        (pkt_session_set_property E pkt session .HAL_PARAM_BUFFER_COUNT_ACTUAL
          prop).2.rg_property_data i = pkt.rg_property_data i) ∧
    (∀ prop : hal_buffer_size_actual, to_hfi_buffer E prop.type = 0 →
      (pkt_session_set_property E pkt session .HAL_PARAM_BUFFER_SIZE_ACTUAL prop).1 =
        -EINVAL ∧
      (pkt_session_set_property E pkt session .HAL_PARAM_BUFFER_SIZE_ACTUAL prop).2.size =
        E.sizeof "hfi_session_set_property_pkt" % 4294967296 ∧
      (pkt_session_set_property E pkt session .HAL_PARAM_BUFFER_SIZE_ACTUAL
        prop).2.rg_property_data 0 = E.val .HFI_PROPERTY_PARAM_BUFFER_SIZE_ACTUAL ∧
      ∀ i : Nat, i ≠ 0 → i ≠ 1 + E.word_of "hfi_buffer_size_actual" "size" →
        (pkt_session_set_property E pkt session .HAL_PARAM_BUFFER_SIZE_ACTUAL
          prop).2.rg_property_data i = pkt.rg_property_data i) := by
  refine ⟨?_, ?_, ?_, ?_, ?_⟩ <;>
    intro prop hz <;>
    simp only [pkt_session_set_property, hs, if_false, hz, if_true, set_hfi, set_word] <;>
    refine ⟨trivial, trivial, ?_, ?_⟩
  · simp
  · intro i hi
    simp [Function.update, hi]
  · simp
  · intro i hi
    simp [Function.update, hi]
  · simp
  · intro i hi
    simp [Function.update, hi]
  · simp [update_one_add_zero]
  · intro i hi hi2
    simp [Function.update, hi, hi2]
  · simp [update_one_add_zero]
  · intro i hi hi2
    simp [Function.update, hi, hi2]

/-- C14, witness of the amended claim: a frame rate for a role that to_hfi_buffer does not
name, written into a zeroed packet. -/
theorem C14_failed_role_translation_witness :
    (pkt_session_set_property hdr0 zero_property_pkt 1 .HAL_CONFIG_FRAME_RATE
      ⟨.unlisted 99, 30⟩).1 = -EINVAL ∧
    (pkt_session_set_property hdr0 zero_property_pkt 1 .HAL_CONFIG_FRAME_RATE
      ⟨.unlisted 99, 30⟩).2.size = 20 ∧
    (pkt_session_set_property hdr0 zero_property_pkt 1 .HAL_CONFIG_FRAME_RATE
      ⟨.unlisted 99, 30⟩).2.rg_property_data 1 = 0 :=
  have h := (C14_failed_role_translation hdr0 zero_property_pkt 1 (by decide)).1
    ⟨.unlisted 99, 30⟩ (by decide)
  ⟨h.1, h.2.1, h.2.2.2 1 (by decide)⟩

/-- C14, counterexample to the claim as stated: a frame rate for a role that to_hfi_buffer
does not name, written into a zeroed packet.  The call returns -EINVAL, but the property
slot is not as before: its first word rg_property_data[0], which was 0, holds the tag
HFI_PROPERTY_CONFIG_FRAME_RATE, a non-zero value of the sample header. -/
theorem C14_counterexample :
    (pkt_session_set_property hdr0 zero_property_pkt 1 .HAL_CONFIG_FRAME_RATE
      ⟨.unlisted 99, 30⟩).1 = -EINVAL ∧
    zero_property_pkt.rg_property_data 0 = 0 ∧
    (pkt_session_set_property hdr0 zero_property_pkt 1 .HAL_CONFIG_FRAME_RATE
      ⟨.unlisted 99, 30⟩).2.rg_property_data 0 = hdr0.val .HFI_PROPERTY_CONFIG_FRAME_RATE ∧
    hdr0.val .HFI_PROPERTY_CONFIG_FRAME_RATE ≠ 0 := by
  decide

/-- C15, the code at the failing input: for a non-null session and a role with a non-zero
wire code, the uncompressed format case returns 0 for every format and stores the result of
to_hfi_type, converted to u32, in the format member, with no test of that result.  Under
the sample header, with role HAL_BUFFER_OUTPUT, the format 3 (not a power of two) is stored
as 4294967274, which is -EINVAL as a 32-bit word, and the format 0x8000 (beyond the
color_format table) as 4294966772, which is -ENOTSUPP; both calls return success. -/
theorem C15_format_error_is_stored :
    (∀ (E : hdr) (pkt : hfi_session_set_property_pkt) (session : Nat)
        (prop : hal_uncompressed_format_select),
      session ≠ 0 → to_hfi_buffer E prop.buffer_type ≠ 0 →
      (pkt_session_set_property E pkt session .HAL_PARAM_UNCOMPRESSED_FORMAT_SELECT
        prop).1 = 0 ∧
      get_hfi E (pkt_session_set_property E pkt session .HAL_PARAM_UNCOMPRESSED_FORMAT_SELECT
        prop).2 "hfi_uncompressed_format_select" "format" =
        u32 (to_hfi_type E .HAL_PARAM_UNCOMPRESSED_FORMAT_SELECT prop.format)) ∧
    to_hfi_type hdr0 .HAL_PARAM_UNCOMPRESSED_FORMAT_SELECT 3 = -EINVAL ∧
    (pkt_session_set_property hdr0 zero_property_pkt 1 .HAL_PARAM_UNCOMPRESSED_FORMAT_SELECT
      ⟨.HAL_BUFFER_OUTPUT, 3⟩).1 = 0 ∧
    get_hfi hdr0 (pkt_session_set_property hdr0 zero_property_pkt 1
      .HAL_PARAM_UNCOMPRESSED_FORMAT_SELECT ⟨.HAL_BUFFER_OUTPUT, 3⟩).2
      "hfi_uncompressed_format_select" "format" = 4294967274 ∧
    to_hfi_type hdr0 .HAL_PARAM_UNCOMPRESSED_FORMAT_SELECT 0x8000 = -ENOTSUPP ∧
    (pkt_session_set_property hdr0 zero_property_pkt 1 .HAL_PARAM_UNCOMPRESSED_FORMAT_SELECT
      ⟨.HAL_BUFFER_OUTPUT, 0x8000⟩).1 = 0 ∧
    get_hfi hdr0 (pkt_session_set_property hdr0 zero_property_pkt 1
      .HAL_PARAM_UNCOMPRESSED_FORMAT_SELECT ⟨.HAL_BUFFER_OUTPUT, 0x8000⟩).2
      "hfi_uncompressed_format_select" "format" = 4294966772 := by
  refine ⟨?_, by decide, by decide, by decide, by decide, by decide, by decide⟩
  intro E pkt session prop hs hrole
  simp only [pkt_session_set_property, hs, if_false, hrole, get_hfi, set_hfi, set_word,
    add_size]
  simp

/-! ## Properties without an encoding -/

/-- C16: for a non-null session, a property identifier of the explicit not-implemented
list, or one that has no case in the switch, is rejected with -ENOTSUPP whatever pdata
points to. -/
theorem C16_not_implemented_is_ENOTSUPP (E : hdr) (pkt : hfi_session_set_property_pkt)
    (session : Nat) (ptype : hal_property) (pdata : pdata_of ptype) (hs : session ≠ 0)
    (hp : not_implemented ptype = true ∨ has_case ptype = false) :
    (pkt_session_set_property E pkt session ptype pdata).1 = -ENOTSUPP := by
  revert hp
  unfold not_implemented has_case
  cases ptype <;> intro hp <;>
    first
    | (exfalso; revert hp; decide)
    | simp only [pkt_session_set_property, hs, if_false]

/-- C16, witness: a listed identifier, HAL_CONFIG_PRIORITY, and an identifier outside the
enumeration, which has no case. -/
theorem C16_not_implemented_is_ENOTSUPP_witness :
    (pkt_session_set_property hdr0 zero_property_pkt 1 .HAL_CONFIG_PRIORITY ()).1 =
      -ENOTSUPP ∧
    (pkt_session_set_property hdr0 zero_property_pkt 1 (.unlisted 12345) ()).1 = -ENOTSUPP :=
  ⟨C16_not_implemented_is_ENOTSUPP hdr0 zero_property_pkt 1 .HAL_CONFIG_PRIORITY ()
      (by decide) (by decide),
    C16_not_implemented_is_ENOTSUPP hdr0 zero_property_pkt 1 (.unlisted 12345) ()
      (by decide) (by decide)⟩

/-- The header fields that pkt_session_set_property writes before its switch, for a
non-null session: they are the same after every case. -/
theorem set_property_header (E : hdr) (pkt : hfi_session_set_property_pkt) (session : Nat)
    (ptype : hal_property) (pdata : pdata_of ptype) (hs : session ≠ 0) :
    (pkt_session_set_property E pkt session ptype pdata).2.session_id =
      E.hash32_ptr session ∧
    (pkt_session_set_property E pkt session ptype pdata).2.packet_type =
      E.val .HFI_CMD_SESSION_SET_PROPERTY ∧
    (pkt_session_set_property E pkt session ptype pdata).2.num_properties = 1 := by
  cases ptype <;>
    simp only [pkt_session_set_property, hs, if_false] <;>
    (repeat' split) <;>
    simp [set_hfi, set_hfi_at, set_word, add_size, memcpy_words_frame]

set_option maxHeartbeats 8000000 in
/-- The tag word and the size after a successful case of pkt_session_set_property that is
not a bare break. -/
theorem set_property_tag_and_size (E : hdr) (pkt : hfi_session_set_property_pkt)
    (session : Nat) (ptype : hal_property) (pdata : pdata_of ptype) (hs : session ≠ 0)
    (hone : ∀ s ∈ one_word_structs, E.sizeof s = 4)
    (hret : (pkt_session_set_property E pkt session ptype pdata).1 = 0)
    (hph : placeholder ptype = false) :
    property_tag E ptype pdata =
      some ((pkt_session_set_property E pkt session ptype pdata).2.rg_property_data 0) ∧
    (pkt_session_set_property E pkt session ptype pdata).2.size =
      (E.sizeof "hfi_session_set_property_pkt" + 4 + property_payload_size E ptype)
        % 4294967296 := by
  have h1 := hone "hfi_conceal_color" (by simp [one_word_structs])
  have h2 := hone "hfi_enable" (by simp [one_word_structs])
  have h3 := hone "hfi_enable_picture" (by simp [one_word_structs])
  have h4 := hone "hfi_idr_period" (by simp [one_word_structs])
  have h5 := hone "hfi_mpeg4_header_extension" (by simp [one_word_structs])
  have h6 := hone "hfi_mpeg4_time_resolution" (by simp [one_word_structs])
  revert hret hph
  unfold property_tag property_payload_size placeholder
  cases ptype <;>
    simp only [pkt_session_set_property, hs, if_false] <;>
    (repeat' split) <;>
    intro hret hph <;>
    simp [set_hfi, set_hfi_at, set_word, add_size, memcpy_words_frame, EINVAL, ERANGE,
      ENOTSUPP, h1, h2, h3, h4, h5, h6, update_one_add_zero, update_one_add_add_zero,
      update_one_zero] at hret hph ⊢ <;>
    omega

/-- The packet after a bare-break case of pkt_session_set_property: only the three header
fields and size are written. -/
theorem set_property_placeholder (E : hdr) (pkt : hfi_session_set_property_pkt)
    (session : Nat) (ptype : hal_property) (pdata : pdata_of ptype) (hs : session ≠ 0)
    (hph : placeholder ptype = true) :
    pkt_session_set_property E pkt session ptype pdata =
      (0, { pkt with size := E.sizeof "hfi_session_set_property_pkt" % 4294967296,
                     packet_type := E.val .HFI_CMD_SESSION_SET_PROPERTY,
                     session_id := E.hash32_ptr session,
                     num_properties := 1 }) := by
  revert hph
  unfold placeholder
  cases ptype <;> intro hph <;>
    first
    | (exfalso; simp at hph; done)
    | simp only [pkt_session_set_property, hs, if_false]

/-! ## Slot accounting of the property codec -/

/-- C17, the code at the failing input.  The five property identifiers whose case is a
bare break are HAL_PARAM_UNCOMPRESSED_PLANE_ACTUAL_CONSTRAINTS_INFO,
HAL_PARAM_UNCOMPRESSED_PLANE_ACTUAL_INFO, HAL_PARAM_EXTRA_DATA_HEADER_CONFIG,
HAL_PARAM_VENC_MPEG4_SHORT_HEADER and HAL_PARAM_VENC_MPEG4_AC_PREDICTION.  For a non-null
session each of them makes pkt_session_set_property return 0 with num_properties = 1 while
rg_property_data is as before the call and size is sizeof(*pkt): no wire tag is stored and
no tag word is counted.  Under the sample header HAL_PARAM_EXTRA_DATA_HEADER_CONFIG on a
packet whose property words all hold 77 returns 0 with num_properties = 1, with
rg_property_data[0] still 77 and with size 20 = sizeof(*pkt), not 24.  Every other
identifier for which the call returns 0 has num_properties = 1, its wire tag in
rg_property_data[0] and the size sizeof(*pkt) + sizeof(u32) + payload size, in a header
whose one-word payload structs have size 4; so has HAL_CONFIG_FRAME_RATE under the sample
header.  An identifier of the not-implemented list, HAL_CONFIG_PRIORITY, is answered with
-ENOTSUPP. -/
theorem C17_bare_break_cases_store_no_tag :
    (∀ ptype : hal_property, placeholder ptype = true ↔
      (ptype = .HAL_PARAM_UNCOMPRESSED_PLANE_ACTUAL_CONSTRAINTS_INFO ∨
        ptype = .HAL_PARAM_UNCOMPRESSED_PLANE_ACTUAL_INFO ∨
        ptype = .HAL_PARAM_EXTRA_DATA_HEADER_CONFIG ∨
        ptype = .HAL_PARAM_VENC_MPEG4_SHORT_HEADER ∨
        ptype = .HAL_PARAM_VENC_MPEG4_AC_PREDICTION)) ∧
    (∀ (E : hdr) (pkt : hfi_session_set_property_pkt) (session : Nat)
        (ptype : hal_property) (pdata : pdata_of ptype),
      session ≠ 0 → placeholder ptype = true →
      (pkt_session_set_property E pkt session ptype pdata).1 = 0 ∧
      (pkt_session_set_property E pkt session ptype pdata).2.num_properties = 1 ∧
      (pkt_session_set_property E pkt session ptype pdata).2.rg_property_data =
        pkt.rg_property_data ∧
      (pkt_session_set_property E pkt session ptype pdata).2.size =
        E.sizeof "hfi_session_set_property_pkt" % 4294967296) ∧
    (∀ (E : hdr) (pkt : hfi_session_set_property_pkt) (session : Nat)
        (ptype : hal_property) (pdata : pdata_of ptype),
      session ≠ 0 → (∀ s ∈ one_word_structs, E.sizeof s = 4) →
      (pkt_session_set_property E pkt session ptype pdata).1 = 0 →
      placeholder ptype = false →
      (pkt_session_set_property E pkt session ptype pdata).2.num_properties = 1 ∧
      property_tag E ptype pdata =
        some ((pkt_session_set_property E pkt session ptype pdata).2.rg_property_data 0) ∧
      (pkt_session_set_property E pkt session ptype pdata).2.size =
        (E.sizeof "hfi_session_set_property_pkt" + 4 + property_payload_size E ptype)
          % 4294967296) ∧
    (pkt_session_set_property hdr0 { zero_property_pkt with rg_property_data := fun _ => 77 }
      1 .HAL_PARAM_EXTRA_DATA_HEADER_CONFIG ()).1 = 0 ∧
    (pkt_session_set_property hdr0 { zero_property_pkt with rg_property_data := fun _ => 77 }
      1 .HAL_PARAM_EXTRA_DATA_HEADER_CONFIG ()).2.num_properties = 1 ∧
    (pkt_session_set_property hdr0 { zero_property_pkt with rg_property_data := fun _ => 77 }
      1 .HAL_PARAM_EXTRA_DATA_HEADER_CONFIG ()).2.rg_property_data 0 = 77 ∧
    hdr0.sizeof "hfi_session_set_property_pkt" = 20 ∧
    (pkt_session_set_property hdr0 { zero_property_pkt with rg_property_data := fun _ => 77 }
      1 .HAL_PARAM_EXTRA_DATA_HEADER_CONFIG ()).2.size = 20 ∧
    (pkt_session_set_property hdr0 zero_property_pkt 1 .HAL_CONFIG_FRAME_RATE
      ⟨.HAL_BUFFER_OUTPUT, 30⟩).1 = 0 ∧
    (pkt_session_set_property hdr0 zero_property_pkt 1 .HAL_CONFIG_FRAME_RATE
      ⟨.HAL_BUFFER_OUTPUT, 30⟩).2.rg_property_data 0 =
      hdr0.val .HFI_PROPERTY_CONFIG_FRAME_RATE ∧
    (pkt_session_set_property hdr0 zero_property_pkt 1 .HAL_CONFIG_FRAME_RATE
      ⟨.HAL_BUFFER_OUTPUT, 30⟩).2.size = 20 + 4 + 8 ∧
    not_implemented .HAL_CONFIG_PRIORITY = true ∧
    (pkt_session_set_property hdr0 zero_property_pkt 1 .HAL_CONFIG_PRIORITY ()).1 =
      -ENOTSUPP := by
  refine ⟨?_, ?_, ?_, by decide, by decide, by decide, by decide, by decide, by decide,
    by decide, by decide, by decide, by decide⟩
  · intro ptype
    cases ptype <;> simp [placeholder]
  · intro E pkt session ptype pdata hs hph
    rw [set_property_placeholder E pkt session ptype pdata hs hph]
    exact ⟨rfl, rfl, rfl, rfl⟩
  · intro E pkt session ptype pdata hs hone hret hph
    exact ⟨(set_property_header E pkt session ptype pdata hs).2.2,
      set_property_tag_and_size E pkt session ptype pdata hs hone hret hph⟩

/-! ## The operation table -/

/-- C18: for every revision other than HFI_PACKETIZATION_LEGACY and HFI_PACKETIZATION_3XX
hfi_get_pkt_ops returns NULL, and for each of these two it returns a table all of whose 23
members are function pointers other than NULL. -/
theorem C18_get_pkt_ops_total (type : hfi_packetization_type) :
    (type ≠ .HFI_PACKETIZATION_LEGACY ∧ type ≠ .HFI_PACKETIZATION_3XX →
      hfi_get_pkt_ops type = none) ∧
    (type = .HFI_PACKETIZATION_LEGACY ∨ type = .HFI_PACKETIZATION_3XX →
      ∃ t : hfi_packetization_ops, hfi_get_pkt_ops type = some t ∧
        (ops_entries t).length = 23 ∧ ∀ e ∈ ops_entries t, e ≠ none) := by
  constructor
  · intro h
    cases type with
    | HFI_PACKETIZATION_LEGACY => exact absurd rfl h.1
    | HFI_PACKETIZATION_3XX => exact absurd rfl h.2
    | unlisted v => rfl
  · intro h
    rcases h with h | h <;> subst h
    · exact ⟨hfi_default, rfl, by decide, by decide⟩
    · exact ⟨get_venus_3_x_ops, rfl, by decide, by decide⟩

/-- C19: the table returned for HFI_PACKETIZATION_3XX is the table returned for
HFI_PACKETIZATION_LEGACY, namely hfi_default, so every one of its members is the same
encoder in both revisions. -/
theorem C19_revision_tables_agree :
    hfi_get_pkt_ops .HFI_PACKETIZATION_3XX = hfi_get_pkt_ops .HFI_PACKETIZATION_LEGACY ∧
    hfi_get_pkt_ops .HFI_PACKETIZATION_LEGACY = some hfi_default ∧
    get_venus_3_x_ops = hfi_default ∧
    ops_entries get_venus_3_x_ops = ops_entries hfi_default := by
  refine ⟨rfl, rfl, rfl, rfl⟩

/-! ## The session identifier -/

/-- C20: for a non-null session handle, each of the twelve session encoders that does not
reject its other arguments stores hash32_ptr(session) in session_id, whatever the command,
property, buffers or frame; hence two packets written for the same handle by different
encoders, or by one encoder for different properties, carry equal session_id fields. -/
theorem C20_session_id_is_hash_of_handle (E : hdr) (session : Nat) (hs : session ≠ 0) :
    (∀ pkt domain codec,
      (pkt_session_init E pkt session domain codec).2.session_id = E.hash32_ptr session) ∧
    (∀ pkt pkt_type,
      (pkt_session_cmd E pkt pkt_type session).2.session_id = E.hash32_ptr session) ∧
    (∀ pkt bai,
      (pkt_session_set_buffers E pkt session bai).2.session_id = E.hash32_ptr session) ∧
    (∀ pkt bai,
      (pkt_session_release_buffers E pkt session bai).2.session_id = E.hash32_ptr session) ∧
    (∀ pkt (in_frame : vidc_frame_data), in_frame.device_addr ≠ 0 →
      (pkt_session_etb_decoder E pkt session in_frame).2.session_id =
        E.hash32_ptr session) ∧
    (∀ pkt (in_frame : vidc_frame_data), in_frame.device_addr ≠ 0 →
      (pkt_session_etb_encoder E pkt session in_frame).2.session_id =
        E.hash32_ptr session) ∧
    (∀ pkt (out_frame : vidc_frame_data), out_frame.device_addr ≠ 0 →
      (pkt_session_ftb E pkt session (some out_frame)).2.session_id =
        E.hash32_ptr session) ∧
    (∀ pkt (seq_hdr : vidc_seq_hdr), seq_hdr.seq_hdr ≠ 0 →
      (pkt_session_parse_seq_header E pkt session (some seq_hdr)).2.session_id =
        E.hash32_ptr session) ∧
    (∀ pkt (seq_hdr : vidc_seq_hdr), seq_hdr.seq_hdr ≠ 0 →
      (pkt_session_get_seq_hdr E pkt session (some seq_hdr)).2.session_id =
        E.hash32_ptr session) ∧
    (∀ pkt type,
      (pkt_session_flush E pkt session type).2.session_id = E.hash32_ptr session) ∧
    (∀ pkt ptype,
      (pkt_session_get_property E pkt session ptype).2.session_id =
        E.hash32_ptr session) ∧
    (∀ pkt ptype pdata,
      (pkt_session_set_property E pkt session ptype pdata).2.session_id =
        E.hash32_ptr session) ∧
    (∀ pkt1 pkt2 pkt3 type ptype1 pdata1 ptype2 pdata2,
      (pkt_session_set_property E pkt1 session ptype1 pdata1).2.session_id =
        (pkt_session_set_property E pkt2 session ptype2 pdata2).2.session_id ∧
      (pkt_session_set_property E pkt1 session ptype1 pdata1).2.session_id =
        (pkt_session_flush E pkt3 session type).2.session_id) := by
  have hflush : ∀ pkt type,
      (pkt_session_flush E pkt session type).2.session_id = E.hash32_ptr session := by
    intro pkt type
    cases type <;> simp [pkt_session_flush, hs]
  have hset : ∀ pkt ptype pdata,
      (pkt_session_set_property E pkt session ptype pdata).2.session_id =
        E.hash32_ptr session :=
    fun pkt ptype pdata => (set_property_header E pkt session ptype pdata hs).1
  refine ⟨?_, ?_, ?_, ?_, ?_, ?_, ?_, ?_, ?_, hflush, ?_, hset, ?_⟩
  · intro pkt domain codec
    simp only [pkt_session_init]
    split <;> rfl
  · intro pkt pkt_type
    rfl
  · intro pkt bai
    simp only [pkt_session_set_buffers, hs, if_false]
    split <;> split <;> rfl
  · intro pkt bai
    simp only [pkt_session_release_buffers, hs, if_false]
    split <;> split <;> rfl
  · intro pkt in_frame h
    simp [pkt_session_etb_decoder, hs, h]
  · intro pkt in_frame h
    simp [pkt_session_etb_encoder, hs, h]
  · intro pkt out_frame h
    simp only [pkt_session_ftb, hs, h, or_self, if_false]
    split
    · rfl
    · split <;> rfl
  · intro pkt seq_hdr h
    simp [pkt_session_parse_seq_header, hs, h]
  · intro pkt seq_hdr h
    simp [pkt_session_get_seq_hdr, hs, h]
  · intro pkt ptype
    cases ptype <;> simp [pkt_session_get_property, hs]
  · intro pkt1 pkt2 pkt3 type ptype1 pdata1 ptype2 pdata2
    rw [hset, hset, hflush]
    exact ⟨rfl, rfl⟩

/-- C20, witness: under the sample header, whose hash32_ptr takes the low 32 bits of the
handle, a flush and a realtime property for the handle 0x12345678 carry the same
session_id. -/
theorem C20_session_id_is_hash_of_handle_witness :
    (pkt_session_flush hdr0 ⟨0, 0, 0, 0⟩ 0x12345678 .HAL_FLUSH_ALL).2.session_id =
      0x12345678 ∧
    (pkt_session_set_property hdr0 zero_property_pkt 0x12345678 .HAL_CONFIG_REALTIME
      ⟨1⟩).2.session_id = 0x12345678 :=
  have h := C20_session_id_is_hash_of_handle hdr0 0x12345678 (by decide)
  ⟨h.2.2.2.2.2.2.2.2.2.1 ⟨0, 0, 0, 0⟩ .HAL_FLUSH_ALL,
    h.2.2.2.2.2.2.2.2.2.2.2.1 zero_property_pkt .HAL_CONFIG_REALTIME ⟨1⟩⟩

/-! ## Frame descriptors -/

/-- The shift of an integer to the right by a non-negative amount is the floor division
by the power of two. -/
theorem int_shiftRight_eq_div (m : Int) (n : Nat) : m >>> (n : Int) = m / 2 ^ n := by
  cases m with
  | ofNat a =>
    rw [Int.ofNat_eq_coe, Int.shiftRight_coe_nat, Nat.shiftRight_eq_div_pow]
    norm_cast
  | negSucc a =>
    rw [Int.shiftRight_negSucc, Nat.shiftRight_eq_div_pow,
      Int.negSucc_ediv _ (by positivity)]
    rw [Int.negSucc_eq]
    norm_cast

/-- The two halves that upper_32_bits and lower_32_bits take of an integer recombine to
its low 64 bits. -/
theorem upper_lower_32_bits (n : Int) :
    (upper_32_bits n : Int) * 4294967296 + (lower_32_bits n : Int) =
      n % 18446744073709551616 := by
  unfold upper_32_bits lower_32_bits u32
  have h16 : (16 : Int) = ((16 : Nat) : Int) := rfl
  rw [h16, int_shiftRight_eq_div, int_shiftRight_eq_div,
    Int.toNat_of_nonneg (Int.emod_nonneg _ (by decide)),
    Int.toNat_of_nonneg (Int.emod_nonneg _ (by decide))]
  norm_num
  omega

/-- C21: for a non-null session and a frame with a non-zero device address,
pkt_session_etb_decoder returns 0; time_stamp_hi * 2^32 + time_stamp_lo is the 64-bit word
of the timestamp, which is the timestamp itself when that is not negative; input_tag is
clnt_data; packet_buffer is the device address as a 32-bit word, the address itself when
it fits in 32 bits; alloc_len, filled_len, offset and flags are those of the frame. -/
theorem C21_etb_decoder_round_trip (E : hdr)
    (pkt : hfi_cmd_session_empty_buffer_compressed_packet) (session : Nat)
    (in_frame : vidc_frame_data) (hs : session ≠ 0) (hd : in_frame.device_addr ≠ 0) :
    (pkt_session_etb_decoder E pkt session in_frame).1 = 0 ∧
    ((pkt_session_etb_decoder E pkt session in_frame).2.time_stamp_hi : Int) * 4294967296 +
      ((pkt_session_etb_decoder E pkt session in_frame).2.time_stamp_lo : Int) =
        in_frame.timestamp % 18446744073709551616 ∧
    (0 ≤ in_frame.timestamp → in_frame.timestamp < 18446744073709551616 →
      ((pkt_session_etb_decoder E pkt session in_frame).2.time_stamp_hi : Int) * 4294967296 +
        ((pkt_session_etb_decoder E pkt session in_frame).2.time_stamp_lo : Int) =
          in_frame.timestamp) ∧
    (pkt_session_etb_decoder E pkt session in_frame).2.time_stamp_hi < 4294967296 ∧
    (pkt_session_etb_decoder E pkt session in_frame).2.time_stamp_lo < 4294967296 ∧
    (pkt_session_etb_decoder E pkt session in_frame).2.input_tag = in_frame.clnt_data ∧
    (pkt_session_etb_decoder E pkt session in_frame).2.packet_buffer =
      in_frame.device_addr % 4294967296 ∧
    (in_frame.device_addr < 4294967296 →
      (pkt_session_etb_decoder E pkt session in_frame).2.packet_buffer =
        in_frame.device_addr) ∧
    (pkt_session_etb_decoder E pkt session in_frame).2.alloc_len = in_frame.alloc_len ∧
    (pkt_session_etb_decoder E pkt session in_frame).2.filled_len = in_frame.filled_len ∧
    (pkt_session_etb_decoder E pkt session in_frame).2.offset = in_frame.offset ∧
    (pkt_session_etb_decoder E pkt session in_frame).2.flags = in_frame.flags := by
  have h := upper_lower_32_bits in_frame.timestamp
  have hlt : ∀ x : Int, u32 x < 4294967296 := by
    intro x
    unfold u32
    have h1 := Int.emod_lt_of_pos x (show (0 : Int) < 4294967296 by decide)
    have h2 := Int.emod_nonneg x (show (4294967296 : Int) ≠ 0 by decide)
    omega
  simp only [pkt_session_etb_decoder, hs, hd, or_self, if_false]
  refine ⟨trivial, h, ?_, hlt _, hlt _, trivial, trivial, ?_, trivial, trivial, trivial,
    trivial⟩
  · intro h0 h1
    rw [h]
    exact Int.emod_eq_of_lt h0 h1
  · intro hlt
    exact Nat.mod_eq_of_lt hlt

/-- C21, witness: a frame at device address 0x1000 with the timestamp 2^32 + 5 and the
client tag 77. -/
theorem C21_etb_decoder_round_trip_witness :
    (pkt_session_etb_decoder hdr0 ⟨0, 0, 0, 0, 0, 0, 0, 0, 0, 0, 0, 0, 0⟩ 1
      ⟨.HAL_BUFFER_INPUT, 0x1000, 0, 4294967301, 3, 0, 0, 16, 4096, 100, 77, 0⟩).1 = 0 ∧
    (pkt_session_etb_decoder hdr0 ⟨0, 0, 0, 0, 0, 0, 0, 0, 0, 0, 0, 0, 0⟩ 1
      ⟨.HAL_BUFFER_INPUT, 0x1000, 0, 4294967301, 3, 0, 0, 16, 4096, 100, 77, 0⟩).2.input_tag
      = 77 :=
  have h := C21_etb_decoder_round_trip hdr0 ⟨0, 0, 0, 0, 0, 0, 0, 0, 0, 0, 0, 0, 0⟩ 1
    ⟨.HAL_BUFFER_INPUT, 0x1000, 0, 4294967301, 3, 0, 0, 16, 4096, 100, 77, 0⟩
    (by decide) (by decide)
  ⟨h.1, h.2.2.2.2.2.1⟩

/-! ## Flush -/

/-- C22: for a non-null session, pkt_session_flush returns 0 exactly when the target is
one of HAL_FLUSH_INPUT, HAL_FLUSH_OUTPUT, HAL_FLUSH_OUTPUT2 and HAL_FLUSH_ALL, and then
flush_type is the HFI_FLUSH_* constant of the same name; for every other target it returns
-EINVAL. -/
theorem C22_flush_targets (E : hdr) (pkt : hfi_cmd_session_flush_packet) (session : Nat)
    (type : hal_flush) (hs : session ≠ 0) :
    ((pkt_session_flush E pkt session type).1 = 0 ↔
      (type = .HAL_FLUSH_INPUT ∨ type = .HAL_FLUSH_OUTPUT ∨ type = .HAL_FLUSH_OUTPUT2 ∨
        type = .HAL_FLUSH_ALL)) ∧
    (type = .HAL_FLUSH_INPUT →
      (pkt_session_flush E pkt session type).2.flush_type = E.val .HFI_FLUSH_INPUT) ∧
    (type = .HAL_FLUSH_OUTPUT →
      (pkt_session_flush E pkt session type).2.flush_type = E.val .HFI_FLUSH_OUTPUT) ∧
    (type = .HAL_FLUSH_OUTPUT2 →
      (pkt_session_flush E pkt session type).2.flush_type = E.val .HFI_FLUSH_OUTPUT2) ∧
    (type = .HAL_FLUSH_ALL →
      (pkt_session_flush E pkt session type).2.flush_type = E.val .HFI_FLUSH_ALL) ∧
    (¬ (type = .HAL_FLUSH_INPUT ∨ type = .HAL_FLUSH_OUTPUT ∨ type = .HAL_FLUSH_OUTPUT2 ∨
        type = .HAL_FLUSH_ALL) →
      (pkt_session_flush E pkt session type).1 = -EINVAL) := by
  cases type <;> simp [pkt_session_flush, hs, EINVAL]

/-- C22, witness: a flush of both queues succeeds and a target outside the enumeration is
rejected. -/
theorem C22_flush_targets_witness :
    (pkt_session_flush hdr0 ⟨0, 0, 0, 0⟩ 1 .HAL_FLUSH_ALL).1 = 0 ∧
    (pkt_session_flush hdr0 ⟨0, 0, 0, 0⟩ 1 .HAL_FLUSH_ALL).2.flush_type =
      hdr0.val .HFI_FLUSH_ALL ∧
    (pkt_session_flush hdr0 ⟨0, 0, 0, 0⟩ 1 (.unlisted 9)).1 = -EINVAL :=
  ⟨(C22_flush_targets hdr0 ⟨0, 0, 0, 0⟩ 1 .HAL_FLUSH_ALL (by decide)).1.2 (by decide),
    (C22_flush_targets hdr0 ⟨0, 0, 0, 0⟩ 1 .HAL_FLUSH_ALL (by decide)).2.2.2.2.1 rfl,
    (C22_flush_targets hdr0 ⟨0, 0, 0, 0⟩ 1 (.unlisted 9) (by decide)).2.2.2.2.2 (by decide)⟩

/-! ## Fixed-layout encoders -/

/-- C23: each of the fourteen fixed-layout encoders, whenever it returns 0, has stored the
sizeof of its own packet struct, as a 32-bit word, in size and its command tag in
packet_type, which for pkt_session_cmd is the caller-supplied pkt_type converted to u32.
The six encoders that have no failing path store both for every input and return 0. -/
theorem C23_fixed_layout_size_and_type (E : hdr) :
    (∀ pkt arch_type,
      (pkt_sys_init E pkt arch_type).1 = 0 ∧
      (pkt_sys_init E pkt arch_type).2.size = E.sizeof "hfi_sys_init_pkt" % 4294967296 ∧
      (pkt_sys_init E pkt arch_type).2.packet_type = E.val .HFI_CMD_SYS_INIT) ∧
    (∀ pkt,
      (pkt_sys_pc_prep E pkt).1 = 0 ∧
      (pkt_sys_pc_prep E pkt).2.size = E.sizeof "hfi_sys_pc_prep_pkt" % 4294967296 ∧
      (pkt_sys_pc_prep E pkt).2.packet_type = E.val .HFI_CMD_SYS_PC_PREP) ∧
    (∀ pkt,
      (pkt_sys_ping E pkt).1 = 0 ∧
      (pkt_sys_ping E pkt).2.size = E.sizeof "hfi_cmd_sys_ping_packet" % 4294967296 ∧
      (pkt_sys_ping E pkt).2.packet_type = E.val .HFI_CMD_SYS_PING) ∧
    (∀ pkt,
      (pkt_sys_image_version E pkt).1 = 0 ∧
      (pkt_sys_image_version E pkt).2.size =
        E.sizeof "hfi_sys_get_property_pkt" % 4294967296 ∧
      (pkt_sys_image_version E pkt).2.packet_type = E.val .HFI_CMD_SYS_GET_PROPERTY) ∧
    (∀ type pkt,
      (pkt_ssr_cmd E type pkt).1 = 0 ∧
      (pkt_ssr_cmd E type pkt).2.size = E.sizeof "hfi_sys_test_ssr_pkt" % 4294967296 ∧
      (pkt_ssr_cmd E type pkt).2.packet_type = E.val .HFI_CMD_SYS_TEST_SSR) ∧
    (∀ pkt pkt_type session,
      (pkt_session_cmd E pkt pkt_type session).1 = 0 ∧
      (pkt_session_cmd E pkt pkt_type session).2.size =
        E.sizeof "vidc_hal_session_cmd_pkt" % 4294967296 ∧
      (pkt_session_cmd E pkt pkt_type session).2.packet_type = u32 pkt_type) ∧
    (∀ pkt session domain codec,
      (pkt_session_init E pkt session domain codec).1 = 0 →
      (pkt_session_init E pkt session domain codec).2.size =
        E.sizeof "hfi_session_init_pkt" % 4294967296 ∧
      (pkt_session_init E pkt session domain codec).2.packet_type =
        E.val .HFI_CMD_SYS_SESSION_INIT) ∧
    (∀ pkt session in_frame,
      (pkt_session_etb_decoder E pkt session in_frame).1 = 0 →
      (pkt_session_etb_decoder E pkt session in_frame).2.size =
        E.sizeof "hfi_cmd_session_empty_buffer_compressed_packet" % 4294967296 ∧
      (pkt_session_etb_decoder E pkt session in_frame).2.packet_type =
        E.val .HFI_CMD_SESSION_EMPTY_BUFFER) ∧
    (∀ pkt session in_frame,
      (pkt_session_etb_encoder E pkt session in_frame).1 = 0 →
      (pkt_session_etb_encoder E pkt session in_frame).2.size =
        E.sizeof "hfi_cmd_session_empty_buffer_uncompressed_plane0_packet" % 4294967296 ∧
      (pkt_session_etb_encoder E pkt session in_frame).2.packet_type =
        E.val .HFI_CMD_SESSION_EMPTY_BUFFER) ∧
    (∀ pkt session out_frame,
      (pkt_session_ftb E pkt session out_frame).1 = 0 →
      (pkt_session_ftb E pkt session out_frame).2.size =
        E.sizeof "hfi_cmd_session_fill_buffer_packet" % 4294967296 ∧
      (pkt_session_ftb E pkt session out_frame).2.packet_type =
        E.val .HFI_CMD_SESSION_FILL_BUFFER) ∧
    (∀ pkt session seq_hdr,
      (pkt_session_parse_seq_header E pkt session seq_hdr).1 = 0 →
      (pkt_session_parse_seq_header E pkt session seq_hdr).2.size =
        E.sizeof "hfi_cmd_session_parse_sequence_header_packet" % 4294967296 ∧
      (pkt_session_parse_seq_header E pkt session seq_hdr).2.packet_type =
        E.val .HFI_CMD_SESSION_PARSE_SEQUENCE_HEADER) ∧
    (∀ pkt session seq_hdr,
      (pkt_session_get_seq_hdr E pkt session seq_hdr).1 = 0 →
      (pkt_session_get_seq_hdr E pkt session seq_hdr).2.size =
        E.sizeof "hfi_session_get_sequence_header_pkt" % 4294967296 ∧
      (pkt_session_get_seq_hdr E pkt session seq_hdr).2.packet_type =
        E.val .HFI_CMD_SESSION_GET_SEQUENCE_HEADER) ∧
    (∀ pkt session type,
      (pkt_session_flush E pkt session type).1 = 0 →
      (pkt_session_flush E pkt session type).2.size =
        E.sizeof "hfi_cmd_session_flush_packet" % 4294967296 ∧
      (pkt_session_flush E pkt session type).2.packet_type = E.val .HFI_CMD_SESSION_FLUSH) ∧
    (∀ pkt session ptype,
      (pkt_session_get_property E pkt session ptype).1 = 0 →
      (pkt_session_get_property E pkt session ptype).2.size =
        E.sizeof "hfi_cmd_session_get_property_packet" % 4294967296 ∧
      (pkt_session_get_property E pkt session ptype).2.packet_type =
        E.val .HFI_CMD_SESSION_GET_PROPERTY) := by
  refine ⟨fun _ _ => ⟨rfl, rfl, rfl⟩, fun _ => ⟨rfl, rfl, rfl⟩, fun _ => ⟨rfl, rfl, rfl⟩,
    fun _ => ⟨rfl, rfl, rfl⟩, fun _ _ => ⟨rfl, rfl, rfl⟩, fun _ _ _ => ⟨rfl, rfl, rfl⟩,
    ?_, ?_, ?_, ?_, ?_, ?_, ?_, ?_⟩
  · intro pkt session domain codec
    simp only [pkt_session_init]
    split <;> simp [EINVAL]
  · intro pkt session in_frame
    simp only [pkt_session_etb_decoder]
    split <;> simp [EINVAL]
  · intro pkt session in_frame
    simp only [pkt_session_etb_encoder]
    split <;> simp [EINVAL]
  · intro pkt session out_frame
    cases out_frame with
    | none => simp [pkt_session_ftb, EINVAL]
    | some f =>
      simp only [pkt_session_ftb]
      split
      · simp [EINVAL]
      · intro _
        split
        · exact ⟨rfl, rfl⟩
        · split <;> exact ⟨rfl, rfl⟩
  · intro pkt session seq_hdr
    cases seq_hdr with
    | none => simp [pkt_session_parse_seq_header, EINVAL]
    | some f =>
      simp only [pkt_session_parse_seq_header]
      split <;> simp [EINVAL]
  · intro pkt session seq_hdr
    cases seq_hdr with
    | none => simp [pkt_session_get_seq_hdr, EINVAL]
    | some f =>
      simp only [pkt_session_get_seq_hdr]
      split <;> simp [EINVAL]
  · intro pkt session type
    simp only [pkt_session_flush]
    split
    · simp [EINVAL]
    · cases type <;> simp [EINVAL]
  · intro pkt session ptype
    simp only [pkt_session_get_property]
    split
    · simp [EINVAL]
    · cases ptype <;> simp [ENOTSUPP]

/-- C23, on the sample header: a ping, a decoder input buffer and a get-property request
succeed with the sizes 8, 8 and 20 of their packet structs and their own command tags. -/
theorem C23_fixed_layout_size_and_type_witness :
    (pkt_sys_ping hdr0 ⟨0, 0⟩).2.size = 8 ∧
    (pkt_session_etb_decoder hdr0 ⟨0, 0, 0, 0, 0, 0, 0, 0, 0, 0, 0, 0, 0⟩ 1
      ⟨.HAL_BUFFER_INPUT, 0x1000, 0, 5, 0, 0, 0, 0, 4096, 100, 77, 0⟩).2.size = 8 ∧
    (pkt_session_get_property hdr0 ⟨0, 0, 0, 0, fun _ => 0⟩ 1
      .HAL_PARAM_PROFILE_LEVEL_CURRENT).2.size = 20 ∧
    (pkt_session_get_property hdr0 ⟨0, 0, 0, 0, fun _ => 0⟩ 1
      .HAL_PARAM_PROFILE_LEVEL_CURRENT).2.packet_type =
        hdr0.val .HFI_CMD_SESSION_GET_PROPERTY :=
  have h := C23_fixed_layout_size_and_type hdr0
  ⟨(h.2.2.1 ⟨0, 0⟩).2.1,
    (h.2.2.2.2.2.2.2.1 ⟨0, 0, 0, 0, 0, 0, 0, 0, 0, 0, 0, 0, 0⟩ 1
      ⟨.HAL_BUFFER_INPUT, 0x1000, 0, 5, 0, 0, 0, 0, 4096, 100, 77, 0⟩ (by decide)).1,
    (h.2.2.2.2.2.2.2.2.2.2.2.2.2 ⟨0, 0, 0, 0, fun _ => 0⟩ 1
      .HAL_PARAM_PROFILE_LEVEL_CURRENT (by decide)).1,
    (h.2.2.2.2.2.2.2.2.2.2.2.2.2 ⟨0, 0, 0, 0, fun _ => 0⟩ 1
      .HAL_PARAM_PROFILE_LEVEL_CURRENT (by decide)).2⟩

/-! ## System properties -/

/-- C24, the code at the failing input: pkt_sys_idle_indicator and pkt_sys_power_control
set size to sizeof(*pkt) + sizeof(struct hfi_enable) + sizeof(u32), pkt_sys_coverage_config
sets it to sizeof(*pkt) + sizeof(u32).  With the member enable at the start of struct
hfi_enable all three write the tag word rg_property_data[0] and the payload word
rg_property_data[1] and no other word of rg_property_data.  Whenever struct hfi_enable is
not empty and the larger size fits in 32 bits, the size of pkt_sys_coverage_config differs
from that of the other two; under the sample header the sizes are 24, 24 and 20. -/
theorem C24_sys_property_sizes_differ :
    (∀ (E : hdr) (pkt : hfi_sys_set_property_pkt) (enable : Nat),
      (pkt_sys_idle_indicator E pkt enable).2.size =
        (E.sizeof "hfi_sys_set_property_pkt" + E.sizeof "hfi_enable" + 4) % 4294967296 ∧
      (pkt_sys_power_control E pkt enable).2.size =
        (E.sizeof "hfi_sys_set_property_pkt" + E.sizeof "hfi_enable" + 4) % 4294967296) ∧
    (∀ (E : hdr) (pkt : hfi_sys_set_property_pkt) (mode : Nat),
      (pkt_sys_coverage_config E pkt mode).2.size =
        (E.sizeof "hfi_sys_set_property_pkt" + 4) % 4294967296) ∧
    (∀ (E : hdr) (pkt : hfi_sys_set_property_pkt) (v : Nat),
      E.word_of "hfi_enable" "enable" = 0 →
      (pkt_sys_idle_indicator E pkt v).2.rg_property_data 0 =
        E.val .HFI_PROPERTY_SYS_IDLE_INDICATOR ∧
      (pkt_sys_power_control E pkt v).2.rg_property_data 0 =
        E.val .HFI_PROPERTY_SYS_CODEC_POWER_PLANE_CTRL ∧
      (pkt_sys_coverage_config E pkt v).2.rg_property_data 0 =
        E.val .HFI_PROPERTY_SYS_CONFIG_COVERAGE ∧
      (pkt_sys_idle_indicator E pkt v).2.rg_property_data 1 = v ∧
      (pkt_sys_power_control E pkt v).2.rg_property_data 1 = v ∧
      (pkt_sys_coverage_config E pkt v).2.rg_property_data 1 = v ∧
      ∀ i : Nat, 2 ≤ i →
        (pkt_sys_idle_indicator E pkt v).2.rg_property_data i = pkt.rg_property_data i ∧
        (pkt_sys_power_control E pkt v).2.rg_property_data i = pkt.rg_property_data i ∧
        (pkt_sys_coverage_config E pkt v).2.rg_property_data i = pkt.rg_property_data i) ∧
    (∀ (E : hdr) (pkt : hfi_sys_set_property_pkt) (v : Nat),
      0 < E.sizeof "hfi_enable" →
      E.sizeof "hfi_sys_set_property_pkt" + E.sizeof "hfi_enable" + 4 < 4294967296 →
      (pkt_sys_coverage_config E pkt v).2.size ≠ (pkt_sys_idle_indicator E pkt v).2.size ∧
      (pkt_sys_coverage_config E pkt v).2.size ≠ (pkt_sys_power_control E pkt v).2.size) ∧
    (pkt_sys_idle_indicator hdr0 ⟨0, 0, 0, fun _ => 0⟩ 1).2.size = 24 ∧
    (pkt_sys_power_control hdr0 ⟨0, 0, 0, fun _ => 0⟩ 1).2.size = 24 ∧
    (pkt_sys_coverage_config hdr0 ⟨0, 0, 0, fun _ => 0⟩ 1).2.size = 20 := by
  refine ⟨fun _ _ _ => ⟨rfl, rfl⟩, fun _ _ _ => rfl, ?_, ?_, by decide, by decide,
    by decide⟩
  · intro E pkt v h0
    simp only [pkt_sys_idle_indicator, pkt_sys_power_control, pkt_sys_coverage_config, h0]
    refine ⟨by simp, by simp, by simp, by simp, by simp, by simp, ?_⟩
    intro i hi
    have h1 : i ≠ 1 + 0 := by omega
    have h2 : i ≠ 0 := by omega
    have h3 : i ≠ 1 := by omega
    simp [Function.update, h1, h2, h3]
  · intro E pkt v hpos hfit
    simp only [pkt_sys_idle_indicator, pkt_sys_power_control, pkt_sys_coverage_config]
    omega

/-! ## Profile and level -/

/-- C25, the code at the failing input.  For a non-null session the profile and level case
returns 0 for every input.  With the two members at different words, the level word is 1
for level 0 and the level of the caller otherwise; the profile word is
HFI_H264_PROFILE_HIGH when the comparison hfi->profile <= 0 holds for the stored
translation and the stored translation otherwise.  For a member declared u32 that
comparison holds for the word 0 only, so that a negative error code of to_hfi_type stays in
the profile word; for a member declared int it also holds for a negative error code.
Under the sample header, whose members are u32, the profile 3 (not a power of two) is
encoded as 4294967274, the word of -EINVAL, and the profile 0x2000 (beyond profile_table)
as 4294966772, the word of -ENOTSUPP, while profile 0 is encoded as the table entry of
index 0. -/
theorem C25_profile_error_is_stored :
    (∀ (E : hdr) (pkt : hfi_session_set_property_pkt) (session : Nat)
        (prop : hal_profile_level), session ≠ 0 →
      (pkt_session_set_property E pkt session .HAL_PARAM_PROFILE_LEVEL_CURRENT prop).1 = 0) ∧
    (∀ (E : hdr) (pkt : hfi_session_set_property_pkt) (session : Nat)
        (prop : hal_profile_level), session ≠ 0 →
      E.word_of "hfi_profile_level" "profile" ≠ E.word_of "hfi_profile_level" "level" →
      get_hfi E (pkt_session_set_property E pkt session .HAL_PARAM_PROFILE_LEVEL_CURRENT
        prop).2 "hfi_profile_level" "profile" =
        (if member_le_zero E "hfi_profile_level" "profile"
            (u32 (to_hfi_type E .HAL_PARAM_PROFILE_LEVEL_CURRENT prop.profile))
          then E.val .HFI_H264_PROFILE_HIGH
          else u32 (to_hfi_type E .HAL_PARAM_PROFILE_LEVEL_CURRENT prop.profile)) ∧
      get_hfi E (pkt_session_set_property E pkt session .HAL_PARAM_PROFILE_LEVEL_CURRENT
        prop).2 "hfi_profile_level" "level" = (if prop.level = 0 then 1 else prop.level)) ∧
    (∀ (E : hdr) (r : Int),
      E.member_signed "hfi_profile_level" "profile" = false → r < 0 → -4294967296 < r →
      member_le_zero E "hfi_profile_level" "profile" (u32 r) = false) ∧
    (∀ (E : hdr) (r : Int),
      E.member_signed "hfi_profile_level" "profile" = true → r ≤ 0 → -2147483648 ≤ r →
      member_le_zero E "hfi_profile_level" "profile" (u32 r) = true) ∧
    to_hfi_type hdr0 .HAL_PARAM_PROFILE_LEVEL_CURRENT 3 = -EINVAL ∧
    (pkt_session_set_property hdr0 zero_property_pkt 1 .HAL_PARAM_PROFILE_LEVEL_CURRENT
      ⟨3, 0⟩).1 = 0 ∧
    get_hfi hdr0 (pkt_session_set_property hdr0 zero_property_pkt 1
      .HAL_PARAM_PROFILE_LEVEL_CURRENT ⟨3, 0⟩).2 "hfi_profile_level" "profile" =
      4294967274 ∧
    hdr0.val .HFI_H264_PROFILE_HIGH = 258 ∧
    to_hfi_type hdr0 .HAL_PARAM_PROFILE_LEVEL_CURRENT 0x2000 = -ENOTSUPP ∧
    get_hfi hdr0 (pkt_session_set_property hdr0 zero_property_pkt 1
      .HAL_PARAM_PROFILE_LEVEL_CURRENT ⟨0x2000, 0⟩).2 "hfi_profile_level" "profile" =
      4294966772 ∧
    get_hfi hdr0 (pkt_session_set_property hdr0 zero_property_pkt 1
      .HAL_PARAM_PROFILE_LEVEL_CURRENT ⟨0, 0⟩).2 "hfi_profile_level" "profile" =
      hdr0.val .HFI_H264_PROFILE_BASELINE ∧
    get_hfi hdr0 (pkt_session_set_property hdr0 zero_property_pkt 1
      .HAL_PARAM_PROFILE_LEVEL_CURRENT ⟨3, 0⟩).2 "hfi_profile_level" "level" = 1 := by
  refine ⟨?_, ?_, ?_, ?_, by decide, by decide, by decide, by decide, by decide, by decide,
    by decide, by decide⟩
  · intro E pkt session prop hs
    simp only [pkt_session_set_property, hs, if_false]
  · intro E pkt session prop hs hw
    have hw1 : 1 + E.word_of "hfi_profile_level" "profile" ≠
        1 + E.word_of "hfi_profile_level" "level" := by omega
    have hw2 : 1 + E.word_of "hfi_profile_level" "level" ≠
        1 + E.word_of "hfi_profile_level" "profile" := by omega
    simp only [pkt_session_set_property, hs, if_false]
    constructor
    · split <;> split <;>
        simp [get_hfi, set_hfi, set_word, add_size, Function.update, hw1, hw2] at *
      all_goals simp_all
    · split <;> split <;>
        simp [get_hfi, set_hfi, set_word, add_size, Function.update, hw1, hw2] at *
      all_goals simp_all
  · intro E r hsig hneg hlow
    unfold member_le_zero u32
    rw [hsig]
    simp only [Bool.false_eq_true, if_false, decide_eq_false_iff_not]
    have h1 := Int.emod_emod_of_dvd r (show (4294967296 : Int) ∣ 4294967296 from dvd_rfl)
    omega
  · intro E r hsig hle hlow
    unfold member_le_zero u32
    rw [hsig]
    simp only [if_true, decide_eq_true_eq]
    omega

/-! ## Colour space conversion -/

/-- Every word after memcpy_words: a word of the destination range holds the source word
of the same position, every other word is as before. -/
theorem memcpy_words_rg (pkt : hfi_session_set_property_pkt) (dst : Nat) (src : Nat → Nat)
    (n j : Nat) :
    (memcpy_words pkt dst src n).rg_property_data j =
      if dst ≤ j ∧ j < dst + n / 4 then src (j - dst) else pkt.rg_property_data j := by
  unfold memcpy_words
  induction n / 4 with
  | zero =>
    have h : ¬ (dst ≤ j ∧ j < dst + 0) := by omega
    simp only [for_loop, h, if_false]
  | succ k ih =>
    simp only [for_loop]
    by_cases hj : j = dst + k
    · subst hj
      have h : dst ≤ dst + k ∧ dst + k < dst + (k + 1) := by omega
      simp [set_word, h]
    · simp only [set_word, Function.update_apply, hj, if_false]
      by_cases h1 : dst ≤ j ∧ j < dst + k
      · have h2 : dst ≤ j ∧ j < dst + (k + 1) := by omega
        rw [if_pos h1] at ih
        rw [if_pos h2]
        exact ih
      · have h2 : ¬ (dst ≤ j ∧ j < dst + (k + 1)) := by omega
        rw [if_neg h1] at ih
        rw [if_neg h2]
        exact ih

/-- C26: for a non-null session the colour space conversion case returns 0 and, with the
three member arrays of struct hfi_vpe_color_space_conversion at word ranges that do not
overlap, every element of csc_matrix, csc_bias and csc_limit in the payload is the element
of the same index of the array of the caller. -/
theorem C26_csc_arrays_copied (E : hdr) (pkt : hfi_session_set_property_pkt) (session : Nat)
    (hal : hal_vpe_color_space_conversion) (hs : session ≠ 0)
    (hmb : E.word_of "hfi_vpe_color_space_conversion" "csc_matrix" +
          E.sizeof "hfi_vpe_color_space_conversion.csc_matrix" / 4 ≤
        E.word_of "hfi_vpe_color_space_conversion" "csc_bias" ∨
      E.word_of "hfi_vpe_color_space_conversion" "csc_bias" +
          E.sizeof "hfi_vpe_color_space_conversion.csc_bias" / 4 ≤
        E.word_of "hfi_vpe_color_space_conversion" "csc_matrix")
    (hml : E.word_of "hfi_vpe_color_space_conversion" "csc_matrix" +
          E.sizeof "hfi_vpe_color_space_conversion.csc_matrix" / 4 ≤
        E.word_of "hfi_vpe_color_space_conversion" "csc_limit" ∨
      E.word_of "hfi_vpe_color_space_conversion" "csc_limit" +
          E.sizeof "hfi_vpe_color_space_conversion.csc_limit" / 4 ≤
        E.word_of "hfi_vpe_color_space_conversion" "csc_matrix")
    (hbl : E.word_of "hfi_vpe_color_space_conversion" "csc_bias" +
          E.sizeof "hfi_vpe_color_space_conversion.csc_bias" / 4 ≤
        E.word_of "hfi_vpe_color_space_conversion" "csc_limit" ∨
      E.word_of "hfi_vpe_color_space_conversion" "csc_limit" +
          E.sizeof "hfi_vpe_color_space_conversion.csc_limit" / 4 ≤
        E.word_of "hfi_vpe_color_space_conversion" "csc_bias") :
    (pkt_session_set_property E pkt session .HAL_PARAM_VPE_COLOR_SPACE_CONVERSION hal).1 = 0 ∧
    (∀ i : Nat, i < E.sizeof "hfi_vpe_color_space_conversion.csc_matrix" / 4 →
      (pkt_session_set_property E pkt session .HAL_PARAM_VPE_COLOR_SPACE_CONVERSION
        hal).2.rg_property_data
          (1 + E.word_of "hfi_vpe_color_space_conversion" "csc_matrix" + i) =
        hal.csc_matrix i) ∧
    (∀ i : Nat, i < E.sizeof "hfi_vpe_color_space_conversion.csc_bias" / 4 →
      (pkt_session_set_property E pkt session .HAL_PARAM_VPE_COLOR_SPACE_CONVERSION
        hal).2.rg_property_data
          (1 + E.word_of "hfi_vpe_color_space_conversion" "csc_bias" + i) =
        hal.csc_bias i) ∧
    (∀ i : Nat, i < E.sizeof "hfi_vpe_color_space_conversion.csc_limit" / 4 →
      (pkt_session_set_property E pkt session .HAL_PARAM_VPE_COLOR_SPACE_CONVERSION
        hal).2.rg_property_data
          (1 + E.word_of "hfi_vpe_color_space_conversion" "csc_limit" + i) =
        hal.csc_limit i) := by
  simp only [pkt_session_set_property, hs, if_false, add_size, memcpy_words_rg]
  refine ⟨trivial, ?_, ?_, ?_⟩
  · intro i hi
    rw [if_neg (by omega), if_neg (by omega), if_pos (by omega)]
    congr 1
    omega
  · intro i hi
    rw [if_neg (by omega), if_pos (by omega)]
    congr 1
    omega
  · intro i hi
    rw [if_pos (by omega)]
    congr 1
    omega

/-- C26, witness: under the sample header, where the matrix has 9 words, the bias 3 and
the limit 6, the arrays with elements 100 + i, 200 + i and 300 + i arrive at the words 1
to 18 of rg_property_data. -/
theorem C26_csc_arrays_copied_witness :
    (pkt_session_set_property hdr0 zero_property_pkt 1 .HAL_PARAM_VPE_COLOR_SPACE_CONVERSION
      ⟨fun i => 100 + i, fun i => 200 + i, fun i => 300 + i⟩).2.rg_property_data
        (1 + 0 + 8) = 108 ∧
    (pkt_session_set_property hdr0 zero_property_pkt 1 .HAL_PARAM_VPE_COLOR_SPACE_CONVERSION
      ⟨fun i => 100 + i, fun i => 200 + i, fun i => 300 + i⟩).2.rg_property_data
        (1 + 9 + 2) = 202 ∧
    (pkt_session_set_property hdr0 zero_property_pkt 1 .HAL_PARAM_VPE_COLOR_SPACE_CONVERSION
      ⟨fun i => 100 + i, fun i => 200 + i, fun i => 300 + i⟩).2.rg_property_data
        (1 + 12 + 5) = 305 :=
  have h := C26_csc_arrays_copied hdr0 zero_property_pkt 1
    ⟨fun i => 100 + i, fun i => 200 + i, fun i => 300 + i⟩ (by decide) (by decide)
    (by decide) (by decide)
  ⟨h.2.1 8 (by decide), h.2.2.1 2 (by decide), h.2.2.2 5 (by decide)⟩

/-! ## Translators with a default -/

/-- C27, as amended: for a non-null session the long-term-reference mode case returns 0
for every mode, also for one that to_hfi_ltr_mode does not recognise, which it translates
to HFI_LTR_MODE_DISABLE like HAL_LTR_MODE_DISABLE; with the three members of struct
hfi_ltr_mode at different words, ltr_mode holds the translation and ltr_count and
trust_mode hold the values of the caller; size counts the tag and the payload. -/
theorem C27_ltr_mode_default_is_disable (E : hdr) (pkt : hfi_session_set_property_pkt)
    (session : Nat) (hal : hal_ltr_mode) (hs : session ≠ 0) :
    (pkt_session_set_property E pkt session .HAL_PARAM_VENC_LTRMODE hal).1 = 0 ∧
    (∀ v : Int, to_hfi_ltr_mode E (.unlisted v) = E.val .HFI_LTR_MODE_DISABLE ∧
      to_hfi_ltr_mode E (.unlisted v) = to_hfi_ltr_mode E .HAL_LTR_MODE_DISABLE) ∧
    (pkt_session_set_property E pkt session .HAL_PARAM_VENC_LTRMODE hal).2.size =
      (E.sizeof "hfi_session_set_property_pkt" % 4294967296 + (4 + E.sizeof "hfi_ltr_mode"))
        % 4294967296 ∧
    (E.word_of "hfi_ltr_mode" "ltr_mode" ≠ E.word_of "hfi_ltr_mode" "ltr_count" →
      E.word_of "hfi_ltr_mode" "ltr_mode" ≠ E.word_of "hfi_ltr_mode" "trust_mode" →
      E.word_of "hfi_ltr_mode" "ltr_count" ≠ E.word_of "hfi_ltr_mode" "trust_mode" →
      get_hfi E (pkt_session_set_property E pkt session .HAL_PARAM_VENC_LTRMODE hal).2
        "hfi_ltr_mode" "ltr_mode" = to_hfi_ltr_mode E hal.mode ∧
      get_hfi E (pkt_session_set_property E pkt session .HAL_PARAM_VENC_LTRMODE hal).2
        "hfi_ltr_mode" "ltr_count" = hal.count ∧
      get_hfi E (pkt_session_set_property E pkt session .HAL_PARAM_VENC_LTRMODE hal).2
        "hfi_ltr_mode" "trust_mode" = hal.trust_mode) := by
  simp only [pkt_session_set_property, hs, if_false]
  refine ⟨trivial, fun v => ⟨rfl, rfl⟩, rfl, ?_⟩
  intro h1 h2 h3
  have e1 : 1 + E.word_of "hfi_ltr_mode" "ltr_mode" ≠
      1 + E.word_of "hfi_ltr_mode" "ltr_count" := by omega
  have e2 : 1 + E.word_of "hfi_ltr_mode" "ltr_mode" ≠
      1 + E.word_of "hfi_ltr_mode" "trust_mode" := by omega
  have e3 : 1 + E.word_of "hfi_ltr_mode" "ltr_count" ≠
      1 + E.word_of "hfi_ltr_mode" "trust_mode" := by omega
  simp [get_hfi, set_hfi, set_word, add_size, Function.update, e1, e2, e3]

/-- C27, witness of the amended claim: the manual mode with count 2 on the sample
header. -/
theorem C27_ltr_mode_default_is_disable_witness :
    (pkt_session_set_property hdr0 zero_property_pkt 1 .HAL_PARAM_VENC_LTRMODE
      ⟨.HAL_LTR_MODE_MANUAL, 2, 1⟩).1 = 0 ∧
    get_hfi hdr0 (pkt_session_set_property hdr0 zero_property_pkt 1 .HAL_PARAM_VENC_LTRMODE
      ⟨.HAL_LTR_MODE_MANUAL, 2, 1⟩).2 "hfi_ltr_mode" "ltr_mode" =
        hdr0.val .HFI_LTR_MODE_MANUAL :=
  have h := C27_ltr_mode_default_is_disable hdr0 zero_property_pkt 1
    ⟨.HAL_LTR_MODE_MANUAL, 2, 1⟩ (by decide)
  ⟨h.1, (h.2.2.2 (by decide) (by decide) (by decide)).1⟩

/-- C27, counterexample to the claim as stated: an LTR mode outside the three that
to_hfi_ltr_mode names, with count 2.  The call returns 0, the packet has the tag, the
payload and the size of an encoded property, and ltr_mode is HFI_LTR_MODE_DISABLE. -/
theorem C27_counterexample :
    (pkt_session_set_property hdr0 zero_property_pkt 1 .HAL_PARAM_VENC_LTRMODE
      ⟨.unlisted 7, 2, 1⟩).1 = 0 ∧
    (pkt_session_set_property hdr0 zero_property_pkt 1 .HAL_PARAM_VENC_LTRMODE
      ⟨.unlisted 7, 2, 1⟩).2.rg_property_data 0 = hdr0.val .HFI_PROPERTY_PARAM_VENC_LTRMODE ∧
    get_hfi hdr0 (pkt_session_set_property hdr0 zero_property_pkt 1 .HAL_PARAM_VENC_LTRMODE
      ⟨.unlisted 7, 2, 1⟩).2 "hfi_ltr_mode" "ltr_mode" = hdr0.val .HFI_LTR_MODE_DISABLE ∧
    get_hfi hdr0 (pkt_session_set_property hdr0 zero_property_pkt 1 .HAL_PARAM_VENC_LTRMODE
      ⟨.unlisted 7, 2, 1⟩).2 "hfi_ltr_mode" "ltr_count" = 2 ∧
    (pkt_session_set_property hdr0 zero_property_pkt 1 .HAL_PARAM_VENC_LTRMODE
      ⟨.unlisted 7, 2, 1⟩).2.size = 20 + 4 + 12 := by
  decide

/-- C28: pkt_session_init returns -EINVAL for a codec that to_hfi_codec translates to 0,
as it does every codec it has no case for, and for every other codec it returns 0 with
the translation in session_codec.  For a non-null session and a role with a non-zero wire
code, the buffer alloc mode case returns -EINVAL for a mode that to_hfi_buf_mode
translates to 0, as it does every mode it has no case for, and for every other mode it
returns 0 with the two translations in the members type and mode. -/
theorem C28_zero_translation_is_EINVAL (E : hdr) :
    (∀ v : Int, to_hfi_codec E (.unlisted v) = 0) ∧
    (∀ pkt session domain codec, to_hfi_codec E codec = 0 →
      (pkt_session_init E pkt session domain codec).1 = -EINVAL) ∧
    (∀ pkt session domain codec, to_hfi_codec E codec ≠ 0 →
      (pkt_session_init E pkt session domain codec).1 = 0 ∧
      (pkt_session_init E pkt session domain codec).2.session_codec =
        to_hfi_codec E codec) ∧
    (∀ v : Int, to_hfi_buf_mode E (.unlisted v) = 0) ∧
    (∀ pkt session (hal : hal_buffer_alloc_mode), session ≠ 0 →
      to_hfi_buffer E hal.type ≠ 0 → to_hfi_buf_mode E hal.mode = 0 →
      (pkt_session_set_property E pkt session .HAL_PARAM_BUFFER_ALLOC_MODE hal).1 =
        -EINVAL) ∧
    (∀ pkt session (hal : hal_buffer_alloc_mode), session ≠ 0 →
      to_hfi_buffer E hal.type ≠ 0 → to_hfi_buf_mode E hal.mode ≠ 0 →
      (pkt_session_set_property E pkt session .HAL_PARAM_BUFFER_ALLOC_MODE hal).1 = 0 ∧
      get_hfi E (pkt_session_set_property E pkt session .HAL_PARAM_BUFFER_ALLOC_MODE hal).2
        "hfi_buffer_alloc_mode" "mode" = to_hfi_buf_mode E hal.mode ∧
      (E.word_of "hfi_buffer_alloc_mode" "type" ≠ E.word_of "hfi_buffer_alloc_mode" "mode" →
        get_hfi E (pkt_session_set_property E pkt session .HAL_PARAM_BUFFER_ALLOC_MODE
          hal).2 "hfi_buffer_alloc_mode" "type" = to_hfi_buffer E hal.type)) := by
  refine ⟨fun _ => rfl, ?_, ?_, fun _ => rfl, ?_, ?_⟩
  · intro pkt session domain codec h
    simp [pkt_session_init, h]
  · intro pkt session domain codec h
    simp [pkt_session_init, h]
  · intro pkt session hal hs hr hm
    simp only [pkt_session_set_property, hs, if_false, hr, hm, if_true]
  · intro pkt session hal hs hr hm
    simp only [pkt_session_set_property, hs, if_false, hr, hm]
    refine ⟨trivial, ?_, ?_⟩
    · simp [get_hfi, set_hfi, set_word, add_size]
    · intro hw
      have e : 1 + E.word_of "hfi_buffer_alloc_mode" "type" ≠
          1 + E.word_of "hfi_buffer_alloc_mode" "mode" := by omega
      simp [get_hfi, set_hfi, set_word, add_size, Function.update, e]

/-- C28, on the sample header: an H264 session and a dynamic output buffer mode succeed
with the translated codes, a codec and a mode without a case are rejected. -/
theorem C28_zero_translation_is_EINVAL_witness :
    (pkt_session_init hdr0 ⟨0, 0, 0, 0, 0⟩ 1 2 (.unlisted 40)).1 = -EINVAL ∧
    (pkt_session_init hdr0 ⟨0, 0, 0, 0, 0⟩ 1 2 .HAL_VIDEO_CODEC_H264).1 = 0 ∧
    (pkt_session_init hdr0 ⟨0, 0, 0, 0, 0⟩ 1 2 .HAL_VIDEO_CODEC_H264).2.session_codec =
      hdr0.val .HFI_VIDEO_CODEC_H264 ∧
    (pkt_session_set_property hdr0 zero_property_pkt 1 .HAL_PARAM_BUFFER_ALLOC_MODE
      ⟨.HAL_BUFFER_OUTPUT, .unlisted 9⟩).1 = -EINVAL ∧
    (pkt_session_set_property hdr0 zero_property_pkt 1 .HAL_PARAM_BUFFER_ALLOC_MODE
      ⟨.HAL_BUFFER_OUTPUT, .HAL_BUFFER_MODE_DYNAMIC⟩).1 = 0 :=
  have h := C28_zero_translation_is_EINVAL hdr0
  ⟨h.2.1 ⟨0, 0, 0, 0, 0⟩ 1 2 (.unlisted 40) (by decide),
    (h.2.2.1 ⟨0, 0, 0, 0, 0⟩ 1 2 .HAL_VIDEO_CODEC_H264 (by decide)).1,
    (h.2.2.1 ⟨0, 0, 0, 0, 0⟩ 1 2 .HAL_VIDEO_CODEC_H264 (by decide)).2,
    h.2.2.2.2.1 zero_property_pkt 1 ⟨.HAL_BUFFER_OUTPUT, .unlisted 9⟩ (by decide)
      (by decide) (by decide),
    (h.2.2.2.2.2 zero_property_pkt 1 ⟨.HAL_BUFFER_OUTPUT, .HAL_BUFFER_MODE_DYNAMIC⟩
      (by decide) (by decide) (by decide)).1⟩

/-! ## Codec translation -/

/-- C29, as amended: when the twelve HFI_VIDEO_CODEC_* constants are pairwise different,
to_hfi_codec maps different codecs among those it has a case for, HAL_VIDEO_CODEC_MVC
apart, to different wire codes, and there is a reverse mapping whose composition with
to_hfi_codec is the identity on these codecs; HAL_VIDEO_CODEC_MVC itself is translated to
HFI_VIDEO_CODEC_H264, the code of HAL_VIDEO_CODEC_H264. -/
theorem C29_codec_translation_injective (E : hdr)
    (hnd : (List.map E.val [.HFI_VIDEO_CODEC_H264, .HFI_VIDEO_CODEC_H263,
      .HFI_VIDEO_CODEC_MPEG1, .HFI_VIDEO_CODEC_MPEG2, .HFI_VIDEO_CODEC_MPEG4,
      .HFI_VIDEO_CODEC_DIVX_311, .HFI_VIDEO_CODEC_DIVX, .HFI_VIDEO_CODEC_VC1,
      .HFI_VIDEO_CODEC_SPARK, .HFI_VIDEO_CODEC_VP8, .HFI_VIDEO_CODEC_HEVC,
      .HFI_VIDEO_CODEC_HEVC_HYBRID]).Nodup) :
    (∀ c d : hal_video_codec, (∀ v, c ≠ .unlisted v) → (∀ v, d ≠ .unlisted v) →
      c ≠ .HAL_VIDEO_CODEC_MVC → d ≠ .HAL_VIDEO_CODEC_MVC →
      to_hfi_codec E c = to_hfi_codec E d → c = d) ∧
    (∃ g : Nat → hal_video_codec, ∀ c : hal_video_codec, (∀ v, c ≠ .unlisted v) →
      c ≠ .HAL_VIDEO_CODEC_MVC → g (to_hfi_codec E c) = c) ∧
    to_hfi_codec E .HAL_VIDEO_CODEC_MVC = E.val .HFI_VIDEO_CODEC_H264 ∧
    to_hfi_codec E .HAL_VIDEO_CODEC_MVC = to_hfi_codec E .HAL_VIDEO_CODEC_H264 := by
  have hinj : ∀ c d : hal_video_codec, (∀ v, c ≠ .unlisted v) → (∀ v, d ≠ .unlisted v) →
      c ≠ .HAL_VIDEO_CODEC_MVC → d ≠ .HAL_VIDEO_CODEC_MVC →
      to_hfi_codec E c = to_hfi_codec E d → c = d := by
    have key := List.inj_on_of_nodup_map hnd
    intro c d hc hd hcm hdm h
    cases c <;> cases d <;>
      first
      | rfl
      | exact absurd rfl (hc _)
      | exact absurd rfl (hd _)
      | exact absurd rfl hcm
      | exact absurd rfl hdm
      | exact absurd (key (by decide) (by decide) h) (by decide)
  refine ⟨hinj, ?_, rfl, rfl⟩
  classical
  refine ⟨fun x => if h : ∃ c : hal_video_codec, (∀ v, c ≠ .unlisted v) ∧
      c ≠ .HAL_VIDEO_CODEC_MVC ∧ to_hfi_codec E c = x then Classical.choose h
      else .HAL_VIDEO_CODEC_MVC, ?_⟩
  intro c hc hcm
  have hex : ∃ c' : hal_video_codec, (∀ v, c' ≠ .unlisted v) ∧
      c' ≠ .HAL_VIDEO_CODEC_MVC ∧ to_hfi_codec E c' = to_hfi_codec E c := ⟨c, hc, hcm, rfl⟩
  simp only [hex, dif_pos]
  have hsp := Classical.choose_spec hex
  exact hinj _ _ hsp.1 hc hsp.2.1 hcm hsp.2.2

/-- C29, witness of the amended claim: under the sample header H263 and HEVC have
different wire codes and MVC has the code of H264. -/
theorem C29_codec_translation_injective_witness :
    (to_hfi_codec hdr0 .HAL_VIDEO_CODEC_H263 = to_hfi_codec hdr0 .HAL_VIDEO_CODEC_HEVC →
      hal_video_codec.HAL_VIDEO_CODEC_H263 = .HAL_VIDEO_CODEC_HEVC) ∧
    to_hfi_codec hdr0 .HAL_VIDEO_CODEC_MVC = to_hfi_codec hdr0 .HAL_VIDEO_CODEC_H264 :=
  have h := C29_codec_translation_injective hdr0 (by decide)
  ⟨h.1 .HAL_VIDEO_CODEC_H263 .HAL_VIDEO_CODEC_HEVC (fun _ h => hal_video_codec.noConfusion h)
      (fun _ h => hal_video_codec.noConfusion h)
      (by decide) (by decide),
    h.2.2.2⟩

/-- C29, counterexample to the claim as stated: HAL_VIDEO_CODEC_MVC and
HAL_VIDEO_CODEC_H264 are different codecs that to_hfi_codec recognises, both with the
non-zero wire code HFI_VIDEO_CODEC_H264, so no mapping of wire codes returns each of
them. -/
theorem C29_counterexample :
    hal_video_codec.HAL_VIDEO_CODEC_MVC ≠ .HAL_VIDEO_CODEC_H264 ∧
    to_hfi_codec hdr0 .HAL_VIDEO_CODEC_MVC = to_hfi_codec hdr0 .HAL_VIDEO_CODEC_H264 ∧
    to_hfi_codec hdr0 .HAL_VIDEO_CODEC_MVC ≠ 0 ∧
    ¬ (∃ g : Nat → hal_video_codec,
      g (to_hfi_codec hdr0 .HAL_VIDEO_CODEC_MVC) = .HAL_VIDEO_CODEC_MVC ∧
      g (to_hfi_codec hdr0 .HAL_VIDEO_CODEC_H264) = .HAL_VIDEO_CODEC_H264) := by
  refine ⟨by decide, by decide, by decide, ?_⟩
  rintro ⟨g, h1, h2⟩
  have h : to_hfi_codec hdr0 .HAL_VIDEO_CODEC_MVC = to_hfi_codec hdr0 .HAL_VIDEO_CODEC_H264 :=
    rfl
  rw [h, h2] at h1
  exact absurd h1 (by decide)

/-! ## Resources -/

/-- C30: pkt_sys_set_resource returns -EINVAL and leaves the packet as it is when the
packet, the resource header or the resource value is NULL.  With the three present, for a
resource id other than VIDC_RESOURCE_OCMEM and VIDC_RESOURCE_VMEM it returns -ENOTSUPP,
and so does pkt_sys_release_resource; for these two ids both return 0 with resource_type =
HFI_RESOURCE_OCMEM, and pkt_sys_set_resource sets size to sizeof(*pkt) +
sizeof(struct hfi_resource_ocmem) - 4 as a 32-bit word, which is that number itself when
the struct has at least 4 bytes and the sum fits in 32 bits. -/
theorem C30_resource_encoders (E : hdr) :
    (∀ resource_hdr resource_value,
      pkt_sys_set_resource E none resource_hdr resource_value = (-EINVAL, none)) ∧
    (∀ pkt resource_value,
      pkt_sys_set_resource E (some pkt) none resource_value = (-EINVAL, some pkt)) ∧
    (∀ pkt resource_hdr,
      pkt_sys_set_resource E (some pkt) (some resource_hdr) 0 = (-EINVAL, some pkt)) ∧
    (∀ pkt (resource_hdr : vidc_resource_hdr) resource_value v, resource_value ≠ 0 →
      resource_hdr.resource_id = .unlisted v →
      (pkt_sys_set_resource E (some pkt) (some resource_hdr) resource_value).1 =
        -ENOTSUPP) ∧
    (∀ pkt (resource_hdr : vidc_resource_hdr) v, resource_hdr.resource_id = .unlisted v →
      (pkt_sys_release_resource E pkt resource_hdr).1 = -ENOTSUPP) ∧
    (∀ pkt (resource_hdr : vidc_resource_hdr) resource_value, resource_value ≠ 0 →
      resource_hdr.resource_id = .VIDC_RESOURCE_OCMEM ∨
        resource_hdr.resource_id = .VIDC_RESOURCE_VMEM →
      ∃ q : hfi_sys_set_resource_pkt,
        pkt_sys_set_resource E (some pkt) (some resource_hdr) resource_value =
          (0, some q) ∧
        q.resource_type = E.val .HFI_RESOURCE_OCMEM ∧
        (q.size : Int) = ((E.sizeof "hfi_sys_set_resource_pkt" : Int) +
          (E.sizeof "hfi_resource_ocmem" : Int) - 4) % 4294967296 ∧
        (4 ≤ E.sizeof "hfi_resource_ocmem" →
          E.sizeof "hfi_sys_set_resource_pkt" + E.sizeof "hfi_resource_ocmem" - 4 <
            4294967296 →
          q.size = E.sizeof "hfi_sys_set_resource_pkt" + E.sizeof "hfi_resource_ocmem" - 4)) ∧
    (∀ pkt (resource_hdr : vidc_resource_hdr),
      resource_hdr.resource_id = .VIDC_RESOURCE_OCMEM ∨
        resource_hdr.resource_id = .VIDC_RESOURCE_VMEM →
      (pkt_sys_release_resource E pkt resource_hdr).1 = 0 ∧
      (pkt_sys_release_resource E pkt resource_hdr).2.resource_type =
        E.val .HFI_RESOURCE_OCMEM) := by
  have hsize : ∀ a b : Nat, (u32 (((a % 4294967296 : Nat) : Int) + ((b : Int) - 4)) : Int) =
      ((a : Int) + (b : Int) - 4) % 4294967296 := by
    intro a b
    unfold u32
    rw [Int.toNat_of_nonneg (Int.emod_nonneg _ (by decide))]
    omega
  refine ⟨fun _ _ => rfl, fun _ _ => rfl, ?_, ?_, ?_, ?_, ?_⟩
  · intro pkt resource_hdr
    simp [pkt_sys_set_resource]
  · intro pkt resource_hdr resource_value v hv hid
    simp [pkt_sys_set_resource, hv, hid]
  · intro pkt resource_hdr v hid
    simp [pkt_sys_release_resource, hid]
  · intro pkt resource_hdr resource_value hv hid
    rcases hid with hid | hid
    all_goals
      simp only [pkt_sys_set_resource, hv, if_false, hid]
      refine ⟨_, rfl, rfl, hsize _ _, ?_⟩
      intro h4 hfit
      have h := hsize (E.sizeof "hfi_sys_set_resource_pkt") (E.sizeof "hfi_resource_ocmem")
      dsimp only
      omega
  · intro pkt resource_hdr hid
    rcases hid with hid | hid <;> simp [pkt_sys_release_resource, hid]

/-- C30, on the sample header: an OCMEM resource of size 0x4000 at address 0x8000 is
encoded with size 20 + 8 - 4, and a resource id outside the enumeration is rejected by
both encoders. -/
theorem C30_resource_encoders_witness :
    (pkt_sys_set_resource hdr0 (some ⟨0, 0, 0, 0, fun _ => 0⟩)
      (some ⟨.VIDC_RESOURCE_OCMEM, 0x100, 0x4000⟩) 0x8000).1 = 0 ∧
    (pkt_sys_set_resource hdr0 (some ⟨0, 0, 0, 0, fun _ => 0⟩)
      (some ⟨.unlisted 5, 0x100, 0x4000⟩) 0x8000).1 = -ENOTSUPP ∧
    (pkt_sys_release_resource hdr0 ⟨0, 0, 0, 0⟩ ⟨.unlisted 5, 0x100, 0x4000⟩).1 =
      -ENOTSUPP ∧
    (pkt_sys_release_resource hdr0 ⟨0, 0, 0, 0⟩ ⟨.VIDC_RESOURCE_VMEM, 0x100, 0x4000⟩).1 = 0 :=
  have h := C30_resource_encoders hdr0
  ⟨by
      obtain ⟨q, hq, _⟩ := h.2.2.2.2.2.1 ⟨0, 0, 0, 0, fun _ => 0⟩
        ⟨.VIDC_RESOURCE_OCMEM, 0x100, 0x4000⟩ 0x8000 (by decide) (Or.inl rfl)
      rw [hq],
    h.2.2.2.1 ⟨0, 0, 0, 0, fun _ => 0⟩ ⟨.unlisted 5, 0x100, 0x4000⟩ 0x8000 5 (by decide) rfl,
    h.2.2.2.2.1 ⟨0, 0, 0, 0⟩ ⟨.unlisted 5, 0x100, 0x4000⟩ 5 rfl,
    (h.2.2.2.2.2.2 ⟨0, 0, 0, 0⟩ ⟨.VIDC_RESOURCE_VMEM, 0x100, 0x4000⟩ (Or.inr rfl)).1⟩

/-! ## Nested switches of the property codec -/

/-- C31: for a non-null session, the output order case and the DivX format case with a
value that their nested switch does not name return 0, store the tag of the property in
rg_property_data[0], leave every other word of rg_property_data, the payload word
rg_property_data[1] among them, as before the call, and add two 32-bit words to size. -/
theorem C31_unrecognised_sub_value_continues (E : hdr) (pkt : hfi_session_set_property_pkt)
    (session : Nat) (v : Int) (hs : session ≠ 0) :
    (pkt_session_set_property E pkt session .HAL_PARAM_VDEC_OUTPUT_ORDER (.unlisted v)).1 = 0 ∧
    (pkt_session_set_property E pkt session .HAL_PARAM_VDEC_OUTPUT_ORDER
      (.unlisted v)).2.rg_property_data 0 = E.val .HFI_PROPERTY_PARAM_VDEC_OUTPUT_ORDER ∧
    (∀ i : Nat, i ≠ 0 →
      (pkt_session_set_property E pkt session .HAL_PARAM_VDEC_OUTPUT_ORDER
        (.unlisted v)).2.rg_property_data i = pkt.rg_property_data i) ∧
    (pkt_session_set_property E pkt session .HAL_PARAM_VDEC_OUTPUT_ORDER
      (.unlisted v)).2.size =
        (E.sizeof "hfi_session_set_property_pkt" % 4294967296 + 4 * 2) % 4294967296 ∧
    (pkt_session_set_property E pkt session .HAL_PARAM_DIVX_FORMAT (.unlisted v)).1 = 0 ∧
    (pkt_session_set_property E pkt session .HAL_PARAM_DIVX_FORMAT
      (.unlisted v)).2.rg_property_data 0 = E.val .HFI_PROPERTY_PARAM_DIVX_FORMAT ∧
    (∀ i : Nat, i ≠ 0 →
      (pkt_session_set_property E pkt session .HAL_PARAM_DIVX_FORMAT
        (.unlisted v)).2.rg_property_data i = pkt.rg_property_data i) ∧
    (pkt_session_set_property E pkt session .HAL_PARAM_DIVX_FORMAT
      (.unlisted v)).2.size =
        (E.sizeof "hfi_session_set_property_pkt" % 4294967296 + 4 * 2) % 4294967296 := by
  simp only [pkt_session_set_property, hs, if_false]
  refine ⟨trivial, ?_, ?_, rfl, trivial, ?_, ?_, rfl⟩
  · simp [add_size, set_word]
  · intro i hi
    simp [add_size, set_word, Function.update, hi]
  · simp [add_size, set_word]
  · intro i hi
    simp [add_size, set_word, Function.update, hi]

/-- C31, witness: under the sample header, the output order 5 on a packet whose payload
word holds 77 keeps the 77 and gives the size 20 + 8. -/
theorem C31_unrecognised_sub_value_continues_witness :
    (pkt_session_set_property hdr0 { zero_property_pkt with rg_property_data := fun _ => 77 }
      1 .HAL_PARAM_VDEC_OUTPUT_ORDER (.unlisted 5)).1 = 0 ∧
    (pkt_session_set_property hdr0 { zero_property_pkt with rg_property_data := fun _ => 77 }
      1 .HAL_PARAM_VDEC_OUTPUT_ORDER (.unlisted 5)).2.rg_property_data 1 = 77 ∧
    (pkt_session_set_property hdr0 { zero_property_pkt with rg_property_data := fun _ => 77 }
      1 .HAL_PARAM_VDEC_OUTPUT_ORDER (.unlisted 5)).2.size = 28 :=
  have h := C31_unrecognised_sub_value_continues hdr0
    { zero_property_pkt with rg_property_data := fun _ => 77 } 1 5 (by decide)
  ⟨h.1, h.2.2.1 1 (by decide), h.2.2.2.1⟩

/-- The loop of ov5640_set_register_array started at index i on the state that the first i
writes left: when the writes from i on all succeed, it ends after the last one with the
return value of the last one, or with the value ret it started with when none is left. -/
theorem set_register_array_loop_all {σ : Type} (bus : cci_bus σ) (i2c_addr : Nat)
    (settings : Nat → reg_value) (s : σ) (n i : Nat) (ret : Int)
    (hok : ∀ k, i ≤ k → k < i + n → 0 ≤ write_result bus i2c_addr settings s k) :
    set_register_array_loop bus i2c_addr settings n i ret
        (writes_applied bus i2c_addr settings s i) =
      (if n = 0 then ret else write_result bus i2c_addr settings s (i + n - 1),
        writes_applied bus i2c_addr settings s (i + n)) := by
  induction n generalizing i ret with
  | zero => simp [set_register_array_loop]
  | succ n ih =>
    have h0 := hok i (Nat.le_refl i) (by omega)
    have hstep := ih (i + 1)
      (ov5640_write_reg bus (writes_applied bus i2c_addr settings s i) i2c_addr
        (settings i).reg (settings i).val).1
      (fun k hk1 hk2 => hok k (by omega) (by omega))
    unfold write_result at h0
    simp only [set_register_array_loop, not_lt.mpr h0, if_false]
    have hst : (ov5640_write_reg bus (writes_applied bus i2c_addr settings s i) i2c_addr
        (settings i).reg (settings i).val).2 =
        writes_applied bus i2c_addr settings s (i + 1) := rfl
    rw [hst, hstep]
    have e1 : i + 1 + n = i + (n + 1) := by omega
    have e2 : i + 1 + n - 1 = i + n := by omega
    have e3 : i + (n + 1) - 1 = i + n := by omega
    rw [e2, e1, e3]
    by_cases hn : n = 0
    · subst hn
      simp [write_result]
    · simp [hn]

/-- The loop of ov5640_set_register_array started at index i, when the write of index j is
the first from i on that fails: it ends right after that write with its return value. -/
theorem set_register_array_loop_fail {σ : Type} (bus : cci_bus σ) (i2c_addr : Nat)
    (settings : Nat → reg_value) (s : σ) (d n i : Nat) (ret : Int) (hd : d < n)
    (hok : ∀ k, i ≤ k → k < i + d → 0 ≤ write_result bus i2c_addr settings s k)
    (hfail : write_result bus i2c_addr settings s (i + d) < 0) :
    set_register_array_loop bus i2c_addr settings n i ret
        (writes_applied bus i2c_addr settings s i) =
      (write_result bus i2c_addr settings s (i + d),
        writes_applied bus i2c_addr settings s (i + d + 1)) := by
  induction d generalizing i n ret with
  | zero =>
    obtain ⟨m, rfl⟩ : ∃ m, n = m + 1 := ⟨n - 1, by omega⟩
    have hf : (ov5640_write_reg bus (writes_applied bus i2c_addr settings s i) i2c_addr
        (settings i).reg (settings i).val).1 < 0 := hfail
    simp only [set_register_array_loop, hf, if_true]
    rfl
  | succ d ih =>
    obtain ⟨m, rfl⟩ : ∃ m, n = m + 1 := ⟨n - 1, by omega⟩
    have h0 := hok i (Nat.le_refl i) (by omega)
    unfold write_result at h0
    simp only [set_register_array_loop, not_lt.mpr h0, if_false]
    have hst : (ov5640_write_reg bus (writes_applied bus i2c_addr settings s i) i2c_addr
        (settings i).reg (settings i).val).2 =
        writes_applied bus i2c_addr settings s (i + 1) := rfl
    have e1 : i + (d + 1) = i + 1 + d := by omega
    rw [hst, e1]
    exact ih m (i + 1) _ (by omega) (fun k hk1 hk2 => hok k (by omega) (by omega))
      (by rw [← e1]; exact hfail)

/-- C33, as amended: ov5640_set_register_array issues the writes of settings[0],
settings[1], ... in this order, each on the bus as the one before left it, a write having
failed when it returns a negative value.  When all num_settings writes succeed it returns
the value of the last one, and 0 for num_settings = 0, after num_settings writes.  When
the write of index j is the first that returns a negative value, it returns that value
after j + 1 writes.  Hence the result is negative exactly when a write fails and not
negative exactly when all num_settings writes succeed, and a result of 0 is returned only
when all of them succeed. -/
theorem C33_register_array_executor {σ : Type} (bus : cci_bus σ) (i2c_addr : Nat)
    (settings : Nat → reg_value) (num_settings : Nat) (s : σ) :
    ((∀ k, k < num_settings → 0 ≤ write_result bus i2c_addr settings s k) →
      ov5640_set_register_array bus i2c_addr settings num_settings s =
        (if num_settings = 0 then 0
          else write_result bus i2c_addr settings s (num_settings - 1),
          writes_applied bus i2c_addr settings s num_settings)) ∧
    (∀ j, j < num_settings →
      (∀ k, k < j → 0 ≤ write_result bus i2c_addr settings s k) →
      write_result bus i2c_addr settings s j < 0 →
      ov5640_set_register_array bus i2c_addr settings num_settings s =
        (write_result bus i2c_addr settings s j,
          writes_applied bus i2c_addr settings s (j + 1))) ∧
    ((ov5640_set_register_array bus i2c_addr settings num_settings s).1 < 0 ↔
      ∃ j, j < num_settings ∧ write_result bus i2c_addr settings s j < 0) ∧
    (0 ≤ (ov5640_set_register_array bus i2c_addr settings num_settings s).1 ↔
      ∀ k, k < num_settings → 0 ≤ write_result bus i2c_addr settings s k) ∧
    ((ov5640_set_register_array bus i2c_addr settings num_settings s).1 = 0 →
      ∀ k, k < num_settings → 0 ≤ write_result bus i2c_addr settings s k) := by
  have hall : (∀ k, k < num_settings → 0 ≤ write_result bus i2c_addr settings s k) →
      ov5640_set_register_array bus i2c_addr settings num_settings s =
        (if num_settings = 0 then 0
          else write_result bus i2c_addr settings s (num_settings - 1),
          writes_applied bus i2c_addr settings s num_settings) := by
    intro hok
    have h := set_register_array_loop_all bus i2c_addr settings s num_settings 0 0
      (fun k _ hk => hok k (by omega))
    simpa [ov5640_set_register_array, writes_applied] using h
  have hfail : ∀ j, j < num_settings →
      (∀ k, k < j → 0 ≤ write_result bus i2c_addr settings s k) →
      write_result bus i2c_addr settings s j < 0 →
      ov5640_set_register_array bus i2c_addr settings num_settings s =
        (write_result bus i2c_addr settings s j,
          writes_applied bus i2c_addr settings s (j + 1)) := by
    intro j hj hok hf
    have h := set_register_array_loop_fail bus i2c_addr settings s j num_settings 0 0 hj
      (fun k _ hk => hok k (by omega)) (by simpa using hf)
    simpa [ov5640_set_register_array, writes_applied] using h
  have hcases : (∀ k, k < num_settings → 0 ≤ write_result bus i2c_addr settings s k) ∨
      ∃ j, j < num_settings ∧
        (∀ k, k < j → 0 ≤ write_result bus i2c_addr settings s k) ∧
        write_result bus i2c_addr settings s j < 0 := by
    by_cases hex : ∃ j, j < num_settings ∧ write_result bus i2c_addr settings s j < 0
    · right
      classical
      refine ⟨Nat.find hex, (Nat.find_spec hex).1, ?_, (Nat.find_spec hex).2⟩
      intro k hk
      have hmin := Nat.find_min hex hk
      have hlt : k < num_settings := Nat.lt_trans hk (Nat.find_spec hex).1
      by_contra hneg
      exact hmin ⟨hlt, not_le.mp hneg⟩
    · left
      intro k hk
      by_contra hneg
      exact hex ⟨k, hk, not_le.mp hneg⟩
  have hneg_iff : (ov5640_set_register_array bus i2c_addr settings num_settings s).1 < 0 ↔
      ∃ j, j < num_settings ∧ write_result bus i2c_addr settings s j < 0 := by
    constructor
    · intro hneg
      rcases hcases with hok | ⟨j, hj, _, hf⟩
      · rw [hall hok] at hneg
        by_cases hn : num_settings = 0
        · simp [hn] at hneg
        · simp only [hn, if_false] at hneg
          have := hok (num_settings - 1) (by omega)
          omega
      · exact ⟨j, hj, hf⟩
    · rintro ⟨j, hj, hf⟩
      rcases hcases with hok | ⟨j', hj', hok', hf'⟩
      · have := hok j hj
        omega
      · rw [hfail j' hj' hok' hf']
        exact hf'
  have hnonneg : 0 ≤ (ov5640_set_register_array bus i2c_addr settings num_settings s).1 ↔
      ∀ k, k < num_settings → 0 ≤ write_result bus i2c_addr settings s k := by
    constructor
    · intro h k hk
      by_contra hlt
      have := hneg_iff.mpr ⟨k, hk, not_le.mp hlt⟩
      omega
    · intro hok
      by_contra hlt
      obtain ⟨j, hj, hf⟩ := hneg_iff.mp (not_le.mp hlt)
      have := hok j hj
      omega
  exact ⟨hall, hfail, hneg_iff, hnonneg, fun hzero => hnonneg.mp (by omega)⟩

/-- C33, witness of the amended claim on a bus that records its writes: with three
settings of which the second write returns -5, the call returns -5 after the first two
writes, in array order; when every write returns 0, the call returns 0 after all three;
with no setting it returns 0 and writes nothing. -/
theorem C33_register_array_executor_witness :
    ov5640_set_register_array (recording_bus (fun k => if k = 1 then -5 else 0)) 0x3c
      (fun i => ⟨0x3000 + i, 0x10 + i⟩) 3 [] = (-5, [(0x3000, 0x10), (0x3001, 0x11)]) ∧
    ov5640_set_register_array (recording_bus (fun _ => 0)) 0x3c
      (fun i => ⟨0x3000 + i, 0x10 + i⟩) 3 [] =
        (0, [(0x3000, 0x10), (0x3001, 0x11), (0x3002, 0x12)]) ∧
    ov5640_set_register_array (recording_bus (fun _ => 0)) 0x3c
      (fun i => ⟨0x3000 + i, 0x10 + i⟩) 0 [] = (0, []) :=
  ⟨(C33_register_array_executor (recording_bus (fun k => if k = 1 then -5 else 0)) 0x3c
      (fun i => ⟨0x3000 + i, 0x10 + i⟩) 3 []).2.1 1 (by decide)
      (by intro k hk; interval_cases k; decide) (by decide),
    (C33_register_array_executor (recording_bus (fun _ => 0)) 0x3c
      (fun i => ⟨0x3000 + i, 0x10 + i⟩) 3 []).1
      (by intro k hk; interval_cases k <;> decide),
    (C33_register_array_executor (recording_bus (fun _ => 0)) 0x3c
      (fun i => ⟨0x3000 + i, 0x10 + i⟩) 0 []).1 (by intro k hk; omega)⟩

/-- C33, counterexample to the claim as stated: on a bus whose writes all return 1, a value
that is not negative, the three writes of a three-element array all succeed and are all
issued, and ov5640_set_register_array returns 1, the value of the last write, and not 0. -/
theorem C33_counterexample :
    (∀ k, k < 3 → 0 ≤ write_result (recording_bus (fun _ => 1)) 0x3c
      (fun i => ⟨0x3000 + i, 0x10 + i⟩) [] k) ∧
    ov5640_set_register_array (recording_bus (fun _ => 1)) 0x3c
      (fun i => ⟨0x3000 + i, 0x10 + i⟩) 3 [] =
        (1, [(0x3000, 0x10), (0x3001, 0x11), (0x3002, 0x12)]) ∧
    (ov5640_set_register_array (recording_bus (fun _ => 1)) 0x3c
      (fun i => ⟨0x3000 + i, 0x10 + i⟩) 3 []).1 ≠ 0 := by
  refine ⟨?_, by decide, by decide⟩
  intro k hk
  interval_cases k <;> decide

/-! ## Sizes of the buffer packets -/

/-- C34: for a non-null session and every buffer descriptor, the size that
pkt_session_release_buffers stores is the size that pkt_session_set_buffers stores for the
same descriptor, whatever the two packets held before: both compute it from
sizeof(struct hfi_session_set_buffers_pkt), in the record branch of the two output roles
and in the flat branch of every other role, for every num_buffers. -/
theorem C34_release_size_is_set_size (E : hdr) (session : Nat) (bai : vidc_buffer_addr_info)
    (hs : session ≠ 0) (pkt : hfi_session_set_buffers_pkt)
    (rel : hfi_cmd_session_release_buffer_packet) :
    (pkt_session_release_buffers E rel session bai).2.size =
      (pkt_session_set_buffers E pkt session bai).2.size ∧
    (bai.buffer_type = .HAL_BUFFER_OUTPUT ∨ bai.buffer_type = .HAL_BUFFER_OUTPUT2 →
      (pkt_session_release_buffers E rel session bai).2.size =
        u32 ((E.sizeof "hfi_session_set_buffers_pkt" : Int) - 4 +
          (bai.num_buffers : Int) * (E.sizeof "hfi_buffer_info" : Int))) ∧
    (¬ (bai.buffer_type = .HAL_BUFFER_OUTPUT ∨ bai.buffer_type = .HAL_BUFFER_OUTPUT2) →
      (pkt_session_release_buffers E rel session bai).2.size =
        u32 ((E.sizeof "hfi_session_set_buffers_pkt" : Int) +
          (u32 ((bai.num_buffers : Int) - 1) : Int) * 4)) := by
  simp only [pkt_session_release_buffers, pkt_session_set_buffers, hs, if_false]
  by_cases h : bai.buffer_type = .HAL_BUFFER_OUTPUT ∨ bai.buffer_type = .HAL_BUFFER_OUTPUT2
  · simp only [h, if_true]
    refine ⟨?_, fun _ => ?_, fun hn => absurd trivial hn⟩ <;> split <;> rfl
  · simp only [h, if_false]
    refine ⟨?_, fun hn => absurd hn (by simp), fun _ => ?_⟩ <;> split <;> rfl

/-- C34, witness: three output buffers and three input buffers under the sample header,
where the set-buffers packet has 36 bytes and a buffer record 8. -/
theorem C34_release_size_is_set_size_witness :
    (pkt_session_release_buffers hdr0 zero_release_pkt 1
      ⟨.HAL_BUFFER_OUTPUT, 4096, 3, 0x1000, 0x2000, 64, 0⟩).2.size =
      (pkt_session_set_buffers hdr0 zero_buffers_pkt 1
        ⟨.HAL_BUFFER_OUTPUT, 4096, 3, 0x1000, 0x2000, 64, 0⟩).2.size ∧
    (pkt_session_release_buffers hdr0 zero_release_pkt 1
      ⟨.HAL_BUFFER_OUTPUT, 4096, 3, 0x1000, 0x2000, 64, 0⟩).2.size = 36 - 4 + 3 * 8 ∧
    (pkt_session_release_buffers hdr0 zero_release_pkt 1
      ⟨.HAL_BUFFER_INPUT, 4096, 3, 0x1000, 0x2000, 64, 0⟩).2.size =
      (pkt_session_set_buffers hdr0 zero_buffers_pkt 1
        ⟨.HAL_BUFFER_INPUT, 4096, 3, 0x1000, 0x2000, 64, 0⟩).2.size :=
  ⟨(C34_release_size_is_set_size hdr0 1 ⟨.HAL_BUFFER_OUTPUT, 4096, 3, 0x1000, 0x2000, 64, 0⟩
      (by decide) zero_buffers_pkt zero_release_pkt).1,
    by decide,
    (C34_release_size_is_set_size hdr0 1 ⟨.HAL_BUFFER_INPUT, 4096, 3, 0x1000, 0x2000, 64, 0⟩
      (by decide) zero_buffers_pkt zero_release_pkt).1⟩

/-! ## Property queries -/

/-- C35: for a non-null session, pkt_session_get_property returns 0 exactly for
HAL_PARAM_PROFILE_LEVEL_CURRENT and HAL_PARAM_GET_BUFFER_REQUIREMENTS, with
rg_property_data[0] = HFI_PROPERTY_PARAM_PROFILE_LEVEL_CURRENT for the first and
HFI_PROPERTY_CONFIG_BUFFER_REQUIREMENTS for the second; for every other identifier it
returns -ENOTSUPP; num_properties is 1 in every case. -/
theorem C35_get_property_cases (E : hdr) (pkt : hfi_cmd_session_get_property_packet)
    (session : Nat) (hs : session ≠ 0) :
    (pkt_session_get_property E pkt session .HAL_PARAM_PROFILE_LEVEL_CURRENT).1 = 0 ∧
    (pkt_session_get_property E pkt session
      .HAL_PARAM_PROFILE_LEVEL_CURRENT).2.rg_property_data 0 =
        E.val .HFI_PROPERTY_PARAM_PROFILE_LEVEL_CURRENT ∧
    (pkt_session_get_property E pkt session .HAL_PARAM_GET_BUFFER_REQUIREMENTS).1 = 0 ∧
    (pkt_session_get_property E pkt session
      .HAL_PARAM_GET_BUFFER_REQUIREMENTS).2.rg_property_data 0 =
        E.val .HFI_PROPERTY_CONFIG_BUFFER_REQUIREMENTS ∧
    (∀ ptype : hal_property, (pkt_session_get_property E pkt session ptype).2.num_properties
      = 1) ∧
    (∀ ptype : hal_property, (pkt_session_get_property E pkt session ptype).1 = 0 ↔
      (ptype = .HAL_PARAM_PROFILE_LEVEL_CURRENT ∨
        ptype = .HAL_PARAM_GET_BUFFER_REQUIREMENTS)) ∧
    (∀ ptype : hal_property,
      ¬ (ptype = .HAL_PARAM_PROFILE_LEVEL_CURRENT ∨
        ptype = .HAL_PARAM_GET_BUFFER_REQUIREMENTS) →
      (pkt_session_get_property E pkt session ptype).1 = -ENOTSUPP) := by
  refine ⟨?_, ?_, ?_, ?_, ?_, ?_, ?_⟩
  · simp [pkt_session_get_property, hs]
  · simp [pkt_session_get_property, hs]
  · simp [pkt_session_get_property, hs]
  · simp [pkt_session_get_property, hs]
  · intro ptype
    unfold pkt_session_get_property
    cases ptype <;> simp [hs]
  · intro ptype
    unfold pkt_session_get_property
    cases ptype <;> simp [hs, ENOTSUPP]
  · intro ptype
    unfold pkt_session_get_property
    cases ptype <;> simp [hs]

/-- C35, witness: on the sample header the query of the buffer requirements succeeds and
the query of the frame rate is rejected. -/
theorem C35_get_property_cases_witness :
    (pkt_session_get_property hdr0 ⟨0, 0, 0, 0, fun _ => 0⟩ 1
      .HAL_PARAM_GET_BUFFER_REQUIREMENTS).1 = 0 ∧
    (pkt_session_get_property hdr0 ⟨0, 0, 0, 0, fun _ => 0⟩ 1
      .HAL_PARAM_GET_BUFFER_REQUIREMENTS).2.rg_property_data 0 =
        hdr0.val .HFI_PROPERTY_CONFIG_BUFFER_REQUIREMENTS ∧
    (pkt_session_get_property hdr0 ⟨0, 0, 0, 0, fun _ => 0⟩ 1 .HAL_CONFIG_FRAME_RATE).1 =
      -ENOTSUPP :=
  have h := C35_get_property_cases hdr0 ⟨0, 0, 0, 0, fun _ => 0⟩ 1 (by decide)
  ⟨h.2.2.1, h.2.2.2.1, h.2.2.2.2.2.2 .HAL_CONFIG_FRAME_RATE (by simp)⟩

/-! ## The abstract value 0 -/

/-- The result of to_hfi_type for the abstract value 0: the lookup at index 0. -/
theorem to_hfi_type_zero (E : hdr) (property : hal_property) :
    to_hfi_type E property 0 =
      match flag_table E property with
      | some t => table_lookup t 0
      | none => -ENOTSUPP := by
  unfold to_hfi_type
  simp only [ne_eq, not_true_eq_false, false_and, if_false]
  cases property <;> rfl

/-- A fold of max is at least its start value. -/
theorem le_foldl_max (l : List Nat) (a : Nat) : a ≤ l.foldl max a := by
  induction l generalizing a with
  | nil => exact Nat.le_refl a
  | cons b l ih => exact Nat.le_trans (Nat.le_max_left a b) (ih (max a b))

/-- An array with at least one designated initialiser is not empty. -/
theorem designated_length_pos (p : Nat × Int) (l : List (Nat × Int)) :
    0 < (designated (p :: l)).length := by
  unfold designated
  rw [List.length_map, List.length_range, List.map_cons, List.foldl_cons]
  have h1 := le_foldl_max (l.map (fun q => q.1 + 1)) (max 0 (p.1 + 1))
  have h2 : p.1 + 1 ≤ max 0 (p.1 + 1) := Nat.le_max_right 0 (p.1 + 1)
  omega

/-- Each of the five translation tables has an element of index 0. -/
theorem flag_table_length_pos (E : hdr) (property : hal_property) (t : List Int)
    (ht : flag_table E property = some t) : 0 < t.length := by
  unfold flag_table at ht
  cases property <;> simp at ht <;> subst ht <;> exact designated_length_pos _ _

/-- C36: for every property identifier, to_hfi_type gives the abstract value 0 and the
abstract value 1 the same result; in each of the five bit-flag domains this result is the
element of index 0 of the table of the domain, and for every other identifier it is
-ENOTSUPP. -/
theorem C36_zero_is_bit_index_zero (E : hdr) (property : hal_property) :
    to_hfi_type E property 0 = to_hfi_type E property 1 ∧
    (∀ t : List Int, flag_table E property = some t →
      ∃ h : 0 < t.length, to_hfi_type E property 0 = t.get ⟨0, h⟩) ∧
    (flag_table E property = none → to_hfi_type E property 0 = -ENOTSUPP) := by
  have h1 : to_hfi_type E property 1 = to_hfi_type E property (2 ^ 0) := rfl
  rw [h1, to_hfi_type_two_pow, to_hfi_type_zero]
  refine ⟨rfl, ?_, ?_⟩
  · intro t ht
    have hpos := flag_table_length_pos E property t ht
    refine ⟨hpos, ?_⟩
    rw [ht]
    have hge : ¬ 0 ≥ t.length := by omega
    simp [table_lookup, hge]
  · intro hn
    rw [hn]

/-- C36, on the sample header: in the uncompressed format domain the values 0 and 1 are
both translated to HFI_COLOR_FORMAT_MONOCHROME, the element of index 0 of color_format. -/
theorem C36_zero_is_bit_index_zero_witness :
    to_hfi_type hdr0 .HAL_PARAM_UNCOMPRESSED_FORMAT_SELECT 0 =
      (hdr0.val .HFI_COLOR_FORMAT_MONOCHROME : Int) ∧
    to_hfi_type hdr0 .HAL_PARAM_UNCOMPRESSED_FORMAT_SELECT 0 =
      to_hfi_type hdr0 .HAL_PARAM_UNCOMPRESSED_FORMAT_SELECT 1 :=
  ⟨by decide, (C36_zero_is_bit_index_zero hdr0 .HAL_PARAM_UNCOMPRESSED_FORMAT_SELECT).1⟩

/-! ## Extradata -/

/-- C37: for every extradata kind other than HAL_EXTRADATA_ASPECT_RATIO,
HAL_EXTRADATA_INPUT_CROP and HAL_EXTRADATA_DIGITAL_ZOOM, to_hfi_extradata_id returns what
to_hfi_extradata_index returns; for these three kinds the index is
HFI_PROPERTY_PARAM_INDEX_EXTRADATA and the id is VIDC_EXTRADATA_ASPECT_RATIO,
VIDC_EXTRADATA_INPUT_CROP and VIDC_EXTRADATA_DIGITAL_ZOOM; a kind that neither function
names has the id 0; and for a non-null session the index extradata case returns -EINVAL
when the id of the kind is 0 and returns 0 otherwise. -/
theorem C37_extradata_index_and_id (E : hdr) :
    (∀ index : hal_extradata_id, index ≠ hal_extradata_id.HAL_EXTRADATA_ASPECT_RATIO →
      index ≠ .HAL_EXTRADATA_INPUT_CROP → index ≠ .HAL_EXTRADATA_DIGITAL_ZOOM →
      to_hfi_extradata_id E index = to_hfi_extradata_index E index) ∧
    (to_hfi_extradata_index E hal_extradata_id.HAL_EXTRADATA_ASPECT_RATIO =
        E.val .HFI_PROPERTY_PARAM_INDEX_EXTRADATA ∧
      to_hfi_extradata_index E .HAL_EXTRADATA_INPUT_CROP =
        E.val .HFI_PROPERTY_PARAM_INDEX_EXTRADATA ∧
      to_hfi_extradata_index E .HAL_EXTRADATA_DIGITAL_ZOOM =
        E.val .HFI_PROPERTY_PARAM_INDEX_EXTRADATA) ∧
    (to_hfi_extradata_id E hal_extradata_id.HAL_EXTRADATA_ASPECT_RATIO =
        E.val hdr_const.VIDC_EXTRADATA_ASPECT_RATIO ∧
      to_hfi_extradata_id E .HAL_EXTRADATA_INPUT_CROP = E.val .VIDC_EXTRADATA_INPUT_CROP ∧
      to_hfi_extradata_id E .HAL_EXTRADATA_DIGITAL_ZOOM =
        E.val .VIDC_EXTRADATA_DIGITAL_ZOOM) ∧
    (∀ v : Int, to_hfi_extradata_id E (.unlisted v) = 0) ∧
    (∀ (pkt : hfi_session_set_property_pkt) (session : Nat) (extra : hal_extradata_enable),
      session ≠ 0 →
      ((pkt_session_set_property E pkt session .HAL_PARAM_INDEX_EXTRADATA extra).1 = -EINVAL ↔
        to_hfi_extradata_id E extra.index = 0) ∧
      (to_hfi_extradata_id E extra.index ≠ 0 →
        (pkt_session_set_property E pkt session .HAL_PARAM_INDEX_EXTRADATA extra).1 = 0)) := by
  refine ⟨?_, ⟨rfl, rfl, rfl⟩, ⟨rfl, rfl, rfl⟩, fun _ => rfl, ?_⟩
  · intro index h1 h2 h3
    cases index <;>
      first
      | rfl
      | exact absurd rfl h1
      | exact absurd rfl h2
      | exact absurd rfl h3
  · intro pkt session extra hs
    simp only [pkt_session_set_property, hs, if_false]
    by_cases hid : to_hfi_extradata_id E extra.index = 0
    · simp [hid]
    · simp [hid, EINVAL]

/-- C37, on the sample header: the timestamp kind has the same index and id, the input
crop kind is enabled with success, and a kind outside the enumeration is rejected. -/
theorem C37_extradata_index_and_id_witness :
    to_hfi_extradata_id hdr0 .HAL_EXTRADATA_TIMESTAMP =
      to_hfi_extradata_index hdr0 .HAL_EXTRADATA_TIMESTAMP ∧
    (pkt_session_set_property hdr0 zero_property_pkt 1 .HAL_PARAM_INDEX_EXTRADATA
      ⟨.HAL_EXTRADATA_INPUT_CROP, 1⟩).1 = 0 ∧
    (pkt_session_set_property hdr0 zero_property_pkt 1 .HAL_PARAM_INDEX_EXTRADATA
      ⟨.unlisted 99, 1⟩).1 = -EINVAL :=
  have h := C37_extradata_index_and_id hdr0
  ⟨h.1 .HAL_EXTRADATA_TIMESTAMP (by decide) (by decide) (by decide),
    (h.2.2.2.2 zero_property_pkt 1 ⟨.HAL_EXTRADATA_INPUT_CROP, 1⟩ (by decide)).2 (by decide),
    (h.2.2.2.2 zero_property_pkt 1 ⟨.unlisted 99, 1⟩ (by decide)).1.2 (by decide)⟩

/-! ## Entropy control -/

/-- The result of ov5640_find_nearest_mode for arguments that are not negative, by the
three entries of the mode table. -/
theorem find_nearest_mode_eq (width height : Int) (hw0 : 0 ≤ width)
    (hw1 : width < 2147483648) (hh0 : 0 ≤ height) (hh1 : height < 2147483648) :
    ov5640_find_nearest_mode width height =
      if 2592 ≤ width ∧ 1944 ≤ height then 2
      else if 1920 ≤ width ∧ 1080 ≤ height then 1 else 0 := by
  obtain ⟨w, rfl⟩ := Int.eq_ofNat_of_zero_le hw0
  obtain ⟨h, rfl⟩ := Int.eq_ofNat_of_zero_le hh0
  have ew : u32 (w : Int) = w := by
    rw [u32_natCast]
    exact Nat.mod_eq_of_lt (by omega)
  have eh : u32 (h : Int) = h := by
    rw [u32_natCast]
    exact Nat.mod_eq_of_lt (by omega)
  simp only [ov5640_find_nearest_mode, OV5640_MODE_MAX, find_nearest_loop, mode_fits,
    mode_info, ov5640_mode_info_data, ew, eh, List.get]
  by_cases h2 : 2592 ≤ w ∧ 1944 ≤ h
  · have h2i : (2592 : Int) ≤ w ∧ (1944 : Int) ≤ h := by omega
    simp [h2, h2i]
  · have h2i : ¬ ((2592 : Int) ≤ w ∧ (1944 : Int) ≤ h) := by omega
    by_cases h1 : 1920 ≤ w ∧ 1080 ≤ h
    · have h1i : (1920 : Int) ≤ w ∧ (1080 : Int) ≤ h := by omega
      simp [h2, h2i, h1, h1i]
    · have h1i : ¬ ((1920 : Int) ≤ w ∧ (1080 : Int) ≤ h) := by omega
      by_cases h0 : 1280 ≤ w ∧ 720 ≤ h
      · simp [h2, h2i, h1, h1i, h0]
      · simp [h2, h2i, h1, h1i, h0]

/-- The three entries of the mode table, by index. -/
theorem mode_info_cases (i : Nat) (h : i ≤ OV5640_MODE_MAX) :
    (i = 0 ∧ (mode_info i h).width = 1280 ∧ (mode_info i h).height = 720) ∨
    (i = 1 ∧ (mode_info i h).width = 1920 ∧ (mode_info i h).height = 1080) ∨
    (i = 2 ∧ (mode_info i h).width = 2592 ∧ (mode_info i h).height = 1944) := by
  have h2 : i ≤ 2 := h
  interval_cases i
  · exact Or.inl ⟨rfl, rfl, rfl⟩
  · exact Or.inr (Or.inl ⟨rfl, rfl, rfl⟩)
  · exact Or.inr (Or.inr ⟨rfl, rfl, rfl⟩)

/-- C39: for a width and a height that are not negative, ov5640_find_nearest_mode returns
an index between 0 and OV5640_MODE_MAX that is at least every index whose table width and
table height are at most the width and the height; when some entry fits in this way, the
entry of the returned index fits, and when none fits the result is 0; and the result does
not decrease when the width and the height grow. -/
theorem C39_find_nearest_mode (width height : Int) (hw0 : 0 ≤ width)
    (hw1 : width < 2147483648) (hh0 : 0 ≤ height) (hh1 : height < 2147483648) :
    0 ≤ ov5640_find_nearest_mode width height ∧
    ov5640_find_nearest_mode width height ≤ (OV5640_MODE_MAX : Int) ∧
    (∀ (i : Nat) (h : i ≤ OV5640_MODE_MAX),
      ((mode_info i h).width : Int) ≤ width → ((mode_info i h).height : Int) ≤ height →
      (i : Int) ≤ ov5640_find_nearest_mode width height) ∧
    ((∃ (i : Nat) (h : i ≤ OV5640_MODE_MAX),
        ((mode_info i h).width : Int) ≤ width ∧ ((mode_info i h).height : Int) ≤ height) →
      ∃ h : (ov5640_find_nearest_mode width height).toNat ≤ OV5640_MODE_MAX,
        ((mode_info (ov5640_find_nearest_mode width height).toNat h).width : Int) ≤ width ∧
        ((mode_info (ov5640_find_nearest_mode width height).toNat h).height : Int) ≤
          height) ∧
    ((¬ ∃ (i : Nat) (h : i ≤ OV5640_MODE_MAX),
        ((mode_info i h).width : Int) ≤ width ∧ ((mode_info i h).height : Int) ≤ height) →
      ov5640_find_nearest_mode width height = 0) ∧
    (∀ width2 height2 : Int, width ≤ width2 → width2 < 2147483648 → height ≤ height2 →
      height2 < 2147483648 →
      ov5640_find_nearest_mode width height ≤ ov5640_find_nearest_mode width2 height2) := by
  have hr := find_nearest_mode_eq width height hw0 hw1 hh0 hh1
  refine ⟨?_, ?_, ?_, ?_, ?_, ?_⟩
  · rw [hr]
    split
    · decide
    · split <;> decide
  · rw [hr]
    split
    · decide
    · split <;> decide
  · intro i h h1 h2
    rw [hr]
    rcases mode_info_cases i h with ⟨hi, e1, e2⟩ | ⟨hi, e1, e2⟩ | ⟨hi, e1, e2⟩ <;>
      rw [e1] at h1 <;> rw [e2] at h2 <;> subst hi <;> split_ifs <;> omega
  · rintro ⟨i, h, h1, h2⟩
    rcases mode_info_cases i h with ⟨hi, e1, e2⟩ | ⟨hi, e1, e2⟩ | ⟨hi, e1, e2⟩ <;>
      rw [e1] at h1 <;> rw [e2] at h2
    all_goals
      rw [hr]
      split_ifs with c2 c1
      · exact ⟨by decide, by
          show ((2592 : Nat) : Int) ≤ width ∧ ((1944 : Nat) : Int) ≤ height
          omega⟩
      · exact ⟨by decide, by
          show ((1920 : Nat) : Int) ≤ width ∧ ((1080 : Nat) : Int) ≤ height
          omega⟩
      · exact ⟨by decide, by
          show ((1280 : Nat) : Int) ≤ width ∧ ((720 : Nat) : Int) ≤ height
          omega⟩
  · intro hnone
    rw [hr]
    split_ifs with c2 c1
    · exact absurd ⟨2, by decide, by
        show ((2592 : Nat) : Int) ≤ width ∧ ((1944 : Nat) : Int) ≤ height
        omega⟩ hnone
    · exact absurd ⟨1, by decide, by
        show ((1920 : Nat) : Int) ≤ width ∧ ((1080 : Nat) : Int) ≤ height
        omega⟩ hnone
    · rfl
  · intro width2 height2 hw hw2 hh hh2
    rw [hr, find_nearest_mode_eq width2 height2 (by omega) hw2 (by omega) hh2]
    split_ifs <;> omega

/-- C39, witness: a request of 2000 by 1500 is answered with the index 1 of the 1080p
mode, and after growing to 2592 by 1944 with the index 2. -/
theorem C39_find_nearest_mode_witness :
    ov5640_find_nearest_mode 2000 1500 = 1 ∧
    ov5640_find_nearest_mode 2000 1500 ≤ ov5640_find_nearest_mode 2592 1944 ∧
    ov5640_find_nearest_mode 2592 1944 = 2 ∧
    ov5640_find_nearest_mode 100 100 = 0 :=
  ⟨by decide,
    (C39_find_nearest_mode 2000 1500 (by decide) (by decide) (by decide)
      (by decide)).2.2.2.2.2 2592 1944 (by decide) (by decide) (by decide) (by decide),
    by decide, by decide⟩

/-- C40, the code at the failing input: ov5640_enum_frame_size fills in the width and the
height of the entry for every index below OV5640_MODE_MAX and returns -EINVAL, leaving the
structure as it is, for every index from OV5640_MODE_MAX on.  The index 2 =
OV5640_MODE_MAX names the last of the OV5640_MODE_MAX + 1 = 3 entries of the mode table,
the 5MP mode of 2592 by 1944, which ov5640_find_nearest_mode returns for that request;
ov5640_enum_frame_size rejects it. -/
theorem C40_enum_frame_size_rejects_last_mode :
    (∀ (fse : v4l2_subdev_frame_size_enum) (h : fse.index ≤ OV5640_MODE_MAX),
      fse.index < OV5640_MODE_MAX →
      (ov5640_enum_frame_size fse).1 = 0 ∧
      (ov5640_enum_frame_size fse).2.min_width = (mode_info fse.index h).width ∧
      (ov5640_enum_frame_size fse).2.max_width = (mode_info fse.index h).width ∧
      (ov5640_enum_frame_size fse).2.min_height = (mode_info fse.index h).height ∧
      (ov5640_enum_frame_size fse).2.max_height = (mode_info fse.index h).height) ∧
    (∀ fse : v4l2_subdev_frame_size_enum, OV5640_MODE_MAX ≤ fse.index →
      ov5640_enum_frame_size fse = (-EINVAL, fse)) ∧
    ov5640_mode_info_data.length = OV5640_MODE_MAX + 1 ∧
    (mode_info 2 (by decide)).width = 2592 ∧
    (mode_info 2 (by decide)).height = 1944 ∧
    ov5640_find_nearest_mode 2592 1944 = 2 ∧
    (ov5640_enum_frame_size ⟨2, 0, 0, 0, 0⟩).1 = -EINVAL ∧
    (ov5640_enum_frame_size ⟨2, 0, 0, 0, 0⟩).2.max_width = 0 ∧
    (ov5640_enum_frame_size ⟨1, 0, 0, 0, 0⟩).1 = 0 ∧
    (ov5640_enum_frame_size ⟨1, 0, 0, 0, 0⟩).2.max_width = 1920 ∧
    (ov5640_enum_frame_size ⟨0, 0, 0, 0, 0⟩).2.max_height = 720 := by
  refine ⟨?_, ?_, by decide, by decide, by decide, by decide, by decide, by decide,
    by decide, by decide, by decide⟩
  · intro fse h hlt
    have hn : ¬ fse.index ≥ OV5640_MODE_MAX := by omega
    simp [ov5640_enum_frame_size, hn]
  · intro fse hge
    simp [ov5640_enum_frame_size, hge]

end HfiPkt
